import Mathlib

/-! CrownLabs instance operator: reconciliation of an Instance.

A shallow embedding of `operators/pkg/instance-controller` (`controller.go`,
`exposition.go`, `virtualmachines.go`, `logic.go`) and of `operators/pkg/context`
(`context.go`), together with the part of the cluster API the controller talks
to.

* The cluster is an explicit state: one keyed store per resource kind, a log of
  the requests issued and of the events recorded, and a table of injected
  failures which says which request is answered with which error.
* Go pointers that are mutated in place (the Instance carried by the context,
  the object handed to `CreateOrUpdate`) become values that are passed in and
  returned.
* `error` is `Option Err`; `nil` is `none`.
* Functions of package `forge` and of package `instance_creation`, and the
  reconciler methods that live in other files of the package, are parameters
  (`Forge`, `InstanceCreation`, fields of `InstanceReconciler`,
  `ReconcilerMethods`).
-/

namespace CrownLabs

/-! ## Errors -/

/-- API errors, as far as the controller tells them apart. -/
inductive Err where
  | notFound
  | conflict
  | alreadyExists
  | other (code : Nat)
  deriving DecidableEq, Repr

/-- The test `kerrors.IsNotFound`. -/
def IsNotFound : Err → Bool
  | .notFound => true
  | _ => false

/-- The test `kerrors.IsConflict`. -/
def IsConflict : Err → Bool
  | .conflict => true
  | _ => false

/-- The helper `client.IgnoreNotFound`. -/
def IgnoreNotFound : Option Err → Option Err
  | some e => if IsNotFound e then none else some e
  | none => none

/-! ## Data model -/

abbrev LabelMap := List (String × String)

structure NamespacedName where
  Namespace : String
  Name : String
  deriving DecidableEq, Repr

structure OwnerReference where
  APIVersion : String
  Kind : String
  Name : String
  UID : String
  Controller : Bool
  BlockOwnerDeletion : Bool
  deriving DecidableEq, Repr

/-- Object metadata. `CreationTimestamp = 0` is the zero time (`IsZero`). -/
structure ObjectMeta where
  Name : String
  Namespace : String
  UID : String
  Labels : LabelMap
  Annotations : LabelMap
  OwnerReferences : List OwnerReference
  CreationTimestamp : Nat
  deriving DecidableEq, Repr

/-- Modelled from the spec: the lifecycle phases of `clv1alpha2.EnvironmentPhase`
(the API package is not part of the sources); the phases named by the controller
and the spec, every further one under `other`. -/
inductive EnvironmentPhase where
  | Unset
  | Importing
  | Running
  | Off
  | CreationLoopBackoff
  | other (name : String)
  deriving DecidableEq, Repr

/-- Environment classes; `other` is any value that is neither of the two. -/
inductive EnvironmentType where
  | ClassVM
  | ClassContainer
  | other (name : String)
  deriving DecidableEq, Repr

structure GenericRef where
  Name : String
  Namespace : String
  deriving DecidableEq, Repr

structure InstanceSpec where
  Running : Bool
  Template : GenericRef
  Tenant : GenericRef
  deriving DecidableEq, Repr

structure InstanceStatus where
  Phase : EnvironmentPhase
  IP : String
  URL : String
  MyDriveURL : String
  deriving DecidableEq, Repr

structure Instance where
  metadata : ObjectMeta
  Spec : InstanceSpec
  Status : InstanceStatus
  deriving DecidableEq, Repr

structure EnvironmentResources where
  CPU : Nat
  ReservedCPUPercentage : Nat
  Memory : Nat
  Disk : Nat
  deriving DecidableEq, Repr

structure Environment where
  Name : String
  EnvironmentType : EnvironmentType
  Image : String
  Persistent : Bool
  GuiEnabled : Bool
  Resources : EnvironmentResources
  deriving DecidableEq, Repr

structure TemplateSpec where
  EnvironmentList : List Environment
  deriving DecidableEq, Repr

structure Template where
  metadata : ObjectMeta
  Spec : TemplateSpec
  deriving DecidableEq, Repr

structure Tenant where
  metadata : ObjectMeta
  PublicKeys : List String
  deriving DecidableEq, Repr

/-- A Service spec: the cluster address, and every other field as one
uninterpreted value. -/
structure ServiceSpec where
  ClusterIP : String
  Rest : String
  deriving DecidableEq, Repr

structure Service where
  metadata : ObjectMeta
  Spec : ServiceSpec
  deriving DecidableEq, Repr

/-- An Ingress spec, uninterpreted. -/
structure IngressSpec where
  Rest : String
  deriving DecidableEq, Repr

structure Ingress where
  metadata : ObjectMeta
  Spec : IngressSpec
  deriving DecidableEq, Repr

/-- A VirtualMachineInstance spec, uninterpreted. -/
structure VirtualMachineInstanceSpec where
  Rest : String
  deriving DecidableEq, Repr

structure VirtualMachineInstanceStatus where
  Phase : String
  deriving DecidableEq, Repr

structure VirtualMachineInstance where
  metadata : ObjectMeta
  Spec : VirtualMachineInstanceSpec
  Status : VirtualMachineInstanceStatus
  deriving DecidableEq, Repr

/-- A VirtualMachine spec: the running flag (a `*bool`), the labels of its template
(`Spec.Template.ObjectMeta.Labels`), and every other field (the rest of the
template, the data volume templates) as one uninterpreted value. -/
structure VirtualMachineSpec where
  Running : Option Bool
  Rest : String
  TemplateLabels : LabelMap := []
  deriving DecidableEq, Repr

structure VirtualMachineStatus where
  PrintableStatus : String
  deriving DecidableEq, Repr

structure VirtualMachine where
  metadata : ObjectMeta
  Spec : VirtualMachineSpec
  Status : VirtualMachineStatus
  deriving DecidableEq, Repr

structure Secret where
  metadata : ObjectMeta
  Data : List (String × String)
  deriving DecidableEq, Repr

structure DataVolumeStatus where
  Phase : String
  deriving DecidableEq, Repr

structure DataVolume where
  metadata : ObjectMeta
  Spec : String
  Status : DataVolumeStatus
  deriving DecidableEq, Repr

/-! ## The cluster -/

inductive Kind where
  | Instance
  | Template
  | Tenant
  | Service
  | Ingress
  | VirtualMachine
  | VirtualMachineInstance
  | Secret
  | DataVolume
  deriving DecidableEq, Repr

inductive Verb where
  | get
  | create
  | update
  | patch
  | statusPatch
  | delete
  deriving DecidableEq, Repr

inductive EventReason where
  | EvTmplNotFound
  | EvTntNotFound
  | EvEnvironmentErr
  deriving DecidableEq, Repr

/-- What the controller does to the outside: a request to the API server (logged
whether it is answered with an error or not), or a recorded event. -/
inductive Action where
  | api (verb : Verb) (kind : Kind) (Namespace Name : String)
  | event (warning : Bool) (reason : EventReason)
  deriving DecidableEq, Repr

/-- Cluster state. `faults verb kind namespace name = some e` makes the API
server answer that request with `e` and leave the stores alone. `clock` stamps
created objects, `nextClusterIP` is the address the server gives a Service that
is created without one. -/
structure Cluster where
  instances : List Instance
  templates : List Template
  tenants : List Tenant
  services : List Service
  ingresses : List Ingress
  virtualMachines : List VirtualMachine
  virtualMachineInstances : List VirtualMachineInstance
  secrets : List Secret
  dataVolumes : List DataVolume
  clock : Nat
  nextClusterIP : String
  faults : Verb → Kind → String → String → Option Err
  log : List Action

/-- Whether the metadata names the object `Namespace/Name`. -/
def hasKey (m : ObjectMeta) (Namespace Name : String) : Bool :=
  m.Namespace == Namespace && m.Name == Name

/-- The object stored under a key. -/
def lookup {α : Type} (metaOf : α → ObjectMeta) (Namespace Name : String) (l : List α) : Option α :=
  l.find? (fun o => hasKey (metaOf o) Namespace Name)

/-- The store without the object under a key. -/
def remove {α : Type} (metaOf : α → ObjectMeta) (Namespace Name : String) (l : List α) : List α :=
  l.filter (fun o => !hasKey (metaOf o) Namespace Name)

/-- The store with `obj` under its own key. -/
def store {α : Type} (metaOf : α → ObjectMeta) (obj : α) (l : List α) : List α :=
  obj :: remove metaOf (metaOf obj).Namespace (metaOf obj).Name l

/-- How the client reaches one resource kind: its store in the cluster, the
metadata of an object, and what the server fills in when it creates one. -/
structure Resource (α : Type) where
  kind : Kind
  metaOf : α → ObjectMeta
  setMeta : ObjectMeta → α → α
  list : Cluster → List α
  setList : List α → Cluster → Cluster
  serverDefaults : Cluster → α → α

def Cluster.record (c : Cluster) (a : Action) : Cluster :=
  { c with log := c.log ++ [a] }

/-- The call `client.Get`: the stored object, `notFound` when there is none. -/
def clientGet {α : Type} (R : Resource α) (Namespace Name : String) (c : Cluster) :
    Cluster × Except Err α :=
  let c1 := c.record (.api .get R.kind Namespace Name)
  match c.faults .get R.kind Namespace Name with
  | some e => (c1, .error e)
  | none =>
    match lookup R.metaOf Namespace Name (R.list c) with
    | none => (c1, .error .notFound)
    | some o => (c1, .ok o)

/-- The call `client.Create`: refused with `alreadyExists` when the key is taken;
otherwise the object is stored with the creation timestamp and the defaults the
server sets, and that stored object is the answer. -/
def clientCreate {α : Type} (R : Resource α) (obj : α) (c : Cluster) : Cluster × Except Err α :=
  let m := R.metaOf obj
  let c1 := c.record (.api .create R.kind m.Namespace m.Name)
  match c.faults .create R.kind m.Namespace m.Name with
  | some e => (c1, .error e)
  | none =>
    match lookup R.metaOf m.Namespace m.Name (R.list c) with
    | some _ => (c1, .error .alreadyExists)
    | none =>
      let stored := R.setMeta { m with CreationTimestamp := c.clock + 1 } (R.serverDefaults c obj)
      (R.setList (store R.metaOf stored (R.list c1)) { c1 with clock := c.clock + 1 }, .ok stored)

/-- The call `client.Update`: `notFound` when there is no such object, otherwise
the stored object is replaced by the one sent. -/
def clientUpdate {α : Type} (R : Resource α) (obj : α) (c : Cluster) : Cluster × Except Err α :=
  let m := R.metaOf obj
  let c1 := c.record (.api .update R.kind m.Namespace m.Name)
  match c.faults .update R.kind m.Namespace m.Name with
  | some e => (c1, .error e)
  | none =>
    match lookup R.metaOf m.Namespace m.Name (R.list c) with
    | none => (c1, .error .notFound)
    | some _ => (R.setList (store R.metaOf obj (R.list c1)) c1, .ok obj)

/-- The call `client.Delete`: `notFound` when there is no such object. -/
def clientDelete {α : Type} (R : Resource α) (Namespace Name : String) (c : Cluster) :
    Cluster × Option Err :=
  let c1 := c.record (.api .delete R.kind Namespace Name)
  match c.faults .delete R.kind Namespace Name with
  | some e => (c1, some e)
  | none =>
    match lookup R.metaOf Namespace Name (R.list c) with
    | none => (c1, some .notFound)
    | some _ => (R.setList (remove R.metaOf Namespace Name (R.list c1)) c1, none)

inductive OperationResult where
  | None
  | Created
  | Updated
  deriving DecidableEq, Repr

/-- Result of `CreateOrUpdate`: the cluster, the object as the caller holds it
afterwards, the operation result and the error. -/
structure Enforced (α : Type) where
  cluster : Cluster
  obj : α
  res : OperationResult
  err : Option Err

/-- The error of `mutate` when the mutate function changed the object key. -/
def errKeyMutated : Err := .other 1

/-- The wrapper `mutate` of controller-runtime: run the mutate function, then
refuse a changed name or namespace. -/
def mutate {α : Type} (R : Resource α) (f : α → α × Option Err) (Namespace Name : String) (obj : α) :
    α × Option Err :=
  match f obj with
  | (o, some e) => (o, some e)
  | (o, none) =>
    if hasKey (R.metaOf o) Namespace Name then (o, none) else (o, some errKeyMutated)

/-- The function `ctrl.CreateOrUpdate` of controller-runtime: get the object;
when it is not found, mutate and create; otherwise mutate and, unless nothing
changed, update. -/
def CreateOrUpdate {α : Type} [DecidableEq α] (R : Resource α) (obj : α)
    (f : α → α × Option Err) (c : Cluster) : Enforced α :=
  let Namespace := (R.metaOf obj).Namespace
  let Name := (R.metaOf obj).Name
  match clientGet R Namespace Name c with
  | (c1, .error e) =>
    if !IsNotFound e then ⟨c1, obj, .None, some e⟩
    else
      match mutate R f Namespace Name obj with
      | (o, some e1) => ⟨c1, o, .None, some e1⟩
      | (o, none) =>
        match clientCreate R o c1 with
        | (c2, .error e2) => ⟨c2, o, .None, some e2⟩
        | (c2, .ok stored) => ⟨c2, stored, .Created, none⟩
  | (c1, .ok existing) =>
    match mutate R f Namespace Name existing with
    | (o, some e1) => ⟨c1, o, .None, some e1⟩
    | (o, none) =>
      if existing = o then ⟨c1, o, .None, none⟩
      else
        match clientUpdate R o c1 with
        | (c2, .error e2) => ⟨c2, o, .None, some e2⟩
        | (c2, .ok stored) => ⟨c2, stored, .Updated, none⟩

/-! ## Owner references (controller-runtime) -/

def errAlreadyOwned : Err := .other 2

def errOwnerNamespace : Err := .other 3

/-- The group and version under which the scheme registers the Instance kind
(package `api/v1alpha2`). -/
def instanceAPIVersion : String := "crownlabs.polito.it/v1alpha2"

/-- The controller reference `SetControllerReference` builds for an Instance. -/
def controllerRef (owner : Instance) : OwnerReference :=
  { APIVersion := instanceAPIVersion, Kind := "Instance", Name := owner.metadata.Name,
    UID := owner.metadata.UID, Controller := true, BlockOwnerDeletion := true }

/-- The group of an `apiVersion`, as `schema.ParseGroupVersion` reads it: empty
without a slash, what stands before the slash when there is one, and an error
(`none`) when there are several. -/
def groupOf (apiVersion : String) : Option (List Char) :=
  match (apiVersion.toList.filter (fun ch => ch == '/')).length with
  | 0 => some []
  | 1 => some (apiVersion.toList.takeWhile (fun ch => ch != '/'))
  | _ => none

/-- The helper `referSameObject` of controller-runtime: same group, kind and name;
false when an `apiVersion` does not parse. -/
def referSameObject (a b : OwnerReference) : Bool :=
  match groupOf a.APIVersion, groupOf b.APIVersion with
  | some ga, some gb => ga == gb && a.Kind == b.Kind && a.Name == b.Name
  | _, _ => false

/-- The helper `upsertOwnerRef`: replace the first reference to the same object,
or append. -/
def upsertOwnerRef (ref : OwnerReference) : List OwnerReference → List OwnerReference
  | [] => [ref]
  | r :: rs => if referSameObject r ref then ref :: rs else r :: upsertOwnerRef ref rs

/-- The helper `metav1.GetControllerOf`. -/
def GetControllerOf (m : ObjectMeta) : Option OwnerReference :=
  m.OwnerReferences.find? (fun r => r.Controller)

/-- The function `ctrl.SetControllerReference` with an Instance as owner: the owner
must live in the namespace of the object, and the object must not be controlled
by somebody else. -/
def SetControllerReference (owner : Instance) (m : ObjectMeta) : ObjectMeta × Option Err :=
  if owner.metadata.Namespace != "" && owner.metadata.Namespace != m.Namespace then
    (m, some errOwnerNamespace)
  else
    match GetControllerOf m with
    | some existing =>
      if !referSameObject existing (controllerRef owner) then (m, some errAlreadyOwned)
      else ({ m with OwnerReferences := upsertOwnerRef (controllerRef owner) m.OwnerReferences }, none)
    | none =>
      ({ m with OwnerReferences := upsertOwnerRef (controllerRef owner) m.OwnerReferences }, none)

/-! ## Resource kinds -/

def instanceResource : Resource Instance :=
  { kind := .Instance, metaOf := fun o => o.metadata, setMeta := fun m o => { o with metadata := m },
    list := fun c => c.instances, setList := fun l c => { c with instances := l },
    serverDefaults := fun _ o => o }

def templateResource : Resource Template :=
  { kind := .Template, metaOf := fun o => o.metadata, setMeta := fun m o => { o with metadata := m },
    list := fun c => c.templates, setList := fun l c => { c with templates := l },
    serverDefaults := fun _ o => o }

def tenantResource : Resource Tenant :=
  { kind := .Tenant, metaOf := fun o => o.metadata, setMeta := fun m o => { o with metadata := m },
    list := fun c => c.tenants, setList := fun l c => { c with tenants := l },
    serverDefaults := fun _ o => o }

/-- Services: the server gives a created Service without an address the next
cluster address. -/
def serviceResource : Resource Service :=
  { kind := .Service, metaOf := fun o => o.metadata, setMeta := fun m o => { o with metadata := m },
    list := fun c => c.services, setList := fun l c => { c with services := l },
    serverDefaults := fun c o =>
      if o.Spec.ClusterIP = "" then { o with Spec := { o.Spec with ClusterIP := c.nextClusterIP } }
      else o }

def ingressResource : Resource Ingress :=
  { kind := .Ingress, metaOf := fun o => o.metadata, setMeta := fun m o => { o with metadata := m },
    list := fun c => c.ingresses, setList := fun l c => { c with ingresses := l },
    serverDefaults := fun _ o => o }

def vmResource : Resource VirtualMachine :=
  { kind := .VirtualMachine, metaOf := fun o => o.metadata,
    setMeta := fun m o => { o with metadata := m },
    list := fun c => c.virtualMachines, setList := fun l c => { c with virtualMachines := l },
    serverDefaults := fun _ o => o }

def vmiResource : Resource VirtualMachineInstance :=
  { kind := .VirtualMachineInstance, metaOf := fun o => o.metadata,
    setMeta := fun m o => { o with metadata := m },
    list := fun c => c.virtualMachineInstances,
    setList := fun l c => { c with virtualMachineInstances := l },
    serverDefaults := fun _ o => o }

/-! ## Package forge and the rest of the reconciler, as parameters -/

/-- The functions and constants of package `forge` the controller uses. -/
structure Forge where
  NamespacedName : Instance → NamespacedName
  NamespacedNameWithSuffix : Instance → String → CrownLabs.NamespacedName
  InstanceLabels : LabelMap → Template → LabelMap × Bool
  InstanceObjectLabels : LabelMap → Instance → LabelMap
  ServiceSpec : Instance → Environment → ServiceSpec
  IngressSpec : String → String → String → String → String → IngressSpec
  IngressGUIPath : Instance → String
  IngressMyDrivePath : Instance → String
  IngressGUIAnnotations : LabelMap → String → LabelMap
  IngressMyDriveAnnotations : LabelMap → LabelMap
  IngressAuthenticationAnnotations : LabelMap → String → LabelMap
  VirtualMachineSpec : Instance → Environment → VirtualMachineSpec
  VirtualMachineInstanceSpec : Instance → Environment → VirtualMachineInstanceSpec
  IngressGUINameSuffix : String
  IngressMyDriveNameSuffix : String
  IngressDefaultCertificateName : String
  GUIPortName : String
  MyDrivePortName : String

/-- Modelled from the spec: `forge.NamespacedNameToObjectMeta` is not part of the
sources; by the naming contract a child object is identified by a name and a
namespace derived from the Instance, so the metadata carries those two and is
otherwise zero. -/
def NamespacedNameToObjectMeta (n : NamespacedName) : ObjectMeta :=
  { Name := n.Name, Namespace := n.Namespace, UID := "", Labels := [], Annotations := [],
    OwnerReferences := [], CreationTimestamp := 0 }

/-- Modelled from the spec: `forge.ObjectMeta` is not part of the sources; the
metadata of the child object named after the Instance. -/
def Forge.ObjectMeta (fg : Forge) (inst : Instance) : CrownLabs.ObjectMeta :=
  NamespacedNameToObjectMeta (fg.NamespacedName inst)

/-- Modelled from the spec: `forge.ObjectMetaWithSuffix` is not part of the
sources; the metadata of the child object named after the Instance and a fixed
suffix. -/
def Forge.ObjectMetaWithSuffix (fg : Forge) (inst : Instance) (suffix : String) :
    CrownLabs.ObjectMeta :=
  NamespacedNameToObjectMeta (fg.NamespacedNameWithSuffix inst suffix)

/-- What one enforcement step leaves behind: the cluster, the Instance held in
memory, and the error returned. -/
structure Outcome where
  cluster : Cluster
  inst : Instance
  err : Option Err

/-- Modelled from the spec: `EnforceCloudInitSecret` is not part of the sources; by
the spec it enforces the bootstrap Secret, so what it leaves behind is taken to
be the Secret objects, the requests it issued and the error it returns. -/
structure SecretEnforcement where
  secrets : List Secret
  actions : List Action
  err : Option Err

/-- The reconciler: its configuration, and as further fields the methods and
helpers of the package that are not part of the sources (`CheckSelectorLabel`
of package `utils`, `EnforceCloudInitSecret`, `EnforceContainerEnvironment`,
`RetrievePhaseFromVM`, `RetrievePhaseFromVMI`). -/
structure InstanceReconciler where
  NamespaceWhitelist : LabelMap
  WebsiteBaseURL : String
  NextcloudBaseURL : String
  WebdavSecretName : String
  InstancesAuthURL : String
  Concurrency : Nat
  CheckSelectorLabel : Cluster → String → LabelMap → Bool × Option Err
  EnforceCloudInitSecret : Instance → Environment → Cluster → SecretEnforcement
  EnforceContainerEnvironment : Instance → Environment → Cluster → Outcome
  RetrievePhaseFromVM : VirtualMachine → EnvironmentPhase
  RetrievePhaseFromVMI : VirtualMachineInstance → EnvironmentPhase

/-! ## exposition.go -/

/-- The method `enforceObjectAbsence`: delete the object, a not-found answer is not
an error. -/
def enforceObjectAbsence {α : Type} (R : Resource α) (m : ObjectMeta) (c : Cluster) :
    Cluster × Option Err :=
  match clientDelete R m.Namespace m.Name c with
  | (c1, some e) => if !IsNotFound e then (c1, some e) else (c1, none)
  | (c1, none) => (c1, none)

/-- The method `enforceInstanceExpositionAbsence`. -/
def enforceInstanceExpositionAbsence (fg : Forge) (inst : Instance) (c : Cluster) : Outcome :=
  let inst1 := { inst with Status := { inst.Status with IP := "", URL := "", MyDriveURL := "" } }
  match enforceObjectAbsence serviceResource (fg.ObjectMeta inst1) c with
  | (c1, some e) => ⟨c1, inst1, some e⟩
  | (c1, none) =>
    match enforceObjectAbsence ingressResource
        (fg.ObjectMetaWithSuffix inst1 fg.IngressGUINameSuffix) c1 with
    | (c2, some e) => ⟨c2, inst1, some e⟩
    | (c2, none) =>
      match enforceObjectAbsence ingressResource
          (fg.ObjectMetaWithSuffix inst1 fg.IngressMyDriveNameSuffix) c2 with
      | (c3, e) => ⟨c3, inst1, e⟩

/-- The mutate function of the Service in `enforceInstanceExpositionPresence`. -/
def serviceMutate (fg : Forge) (inst : Instance) (env : Environment) (service : Service) :
    Service × Option Err :=
  let s1 := if service.metadata.CreationTimestamp = 0
    then { service with Spec := fg.ServiceSpec inst env } else service
  let s2 := { s1 with metadata :=
    { s1.metadata with Labels := fg.InstanceObjectLabels s1.metadata.Labels inst } }
  let r := SetControllerReference inst s2.metadata
  ({ s2 with metadata := r.1 }, r.2)

/-- The mutate function of the GUI Ingress in `enforceInstanceExpositionPresence`. -/
def ingressGUIMutate (fg : Forge) (WebsiteBaseURL InstancesAuthURL : String) (inst : Instance)
    (path serviceName : String) (ingressGUI : Ingress) : Ingress × Option Err :=
  let i1 := if ingressGUI.metadata.CreationTimestamp = 0
    then { ingressGUI with Spec := (fg.IngressSpec WebsiteBaseURL path
      fg.IngressDefaultCertificateName serviceName fg.GUIPortName) }
    else ingressGUI
  let i2 := { i1 with metadata :=
    { i1.metadata with Labels := fg.InstanceObjectLabels i1.metadata.Labels inst } }
  let i3 := { i2 with metadata :=
    { i2.metadata with Annotations := fg.IngressGUIAnnotations i2.metadata.Annotations path } }
  let i4 := { i3 with metadata :=
    { i3.metadata with Annotations :=
      fg.IngressAuthenticationAnnotations i3.metadata.Annotations InstancesAuthURL } }
  let r := SetControllerReference inst i4.metadata
  ({ i4 with metadata := r.1 }, r.2)

/-- The mutate function of the MyDrive Ingress in `enforceInstanceExpositionPresence`. -/
def ingressMyDriveMutate (fg : Forge) (WebsiteBaseURL InstancesAuthURL : String) (inst : Instance)
    (path serviceName : String) (ingressMyDrive : Ingress) : Ingress × Option Err :=
  let i1 := if ingressMyDrive.metadata.CreationTimestamp = 0
    then { ingressMyDrive with Spec := (fg.IngressSpec WebsiteBaseURL path
      fg.IngressDefaultCertificateName serviceName fg.MyDrivePortName) }
    else ingressMyDrive
  let i2 := { i1 with metadata :=
    { i1.metadata with Labels := fg.InstanceObjectLabels i1.metadata.Labels inst } }
  let i3 := { i2 with metadata :=
    { i2.metadata with Annotations := fg.IngressMyDriveAnnotations i2.metadata.Annotations } }
  let i4 := { i3 with metadata :=
    { i3.metadata with Annotations :=
      fg.IngressAuthenticationAnnotations i3.metadata.Annotations InstancesAuthURL } }
  let r := SetControllerReference inst i4.metadata
  ({ i4 with metadata := r.1 }, r.2)

/-- The first `CreateOrUpdate` of `enforceInstanceExpositionPresence`: the Service. -/
def enforceServicePresence (fg : Forge) (env : Environment) (inst : Instance) (c : Cluster) :
    Enforced Service :=
  CreateOrUpdate serviceResource
    { metadata := fg.ObjectMeta inst, Spec := { ClusterIP := "", Rest := "" } }
    (serviceMutate fg inst env) c

/-- The second `CreateOrUpdate` of `enforceInstanceExpositionPresence`: the GUI
Ingress. -/
def enforceIngressGUIPresence (fg : Forge) (r : InstanceReconciler) (inst : Instance)
    (serviceName : String) (c : Cluster) : Enforced Ingress :=
  CreateOrUpdate ingressResource
    { metadata := fg.ObjectMetaWithSuffix inst fg.IngressGUINameSuffix, Spec := { Rest := "" } }
    (ingressGUIMutate fg r.WebsiteBaseURL r.InstancesAuthURL inst (fg.IngressGUIPath inst)
      serviceName) c

/-- The third `CreateOrUpdate` of `enforceInstanceExpositionPresence`: the MyDrive
Ingress. -/
def enforceIngressMyDrivePresence (fg : Forge) (r : InstanceReconciler) (inst : Instance)
    (serviceName : String) (c : Cluster) : Enforced Ingress :=
  CreateOrUpdate ingressResource
    { metadata := fg.ObjectMetaWithSuffix inst fg.IngressMyDriveNameSuffix, Spec := { Rest := "" } }
    (ingressMyDriveMutate fg r.WebsiteBaseURL r.InstancesAuthURL inst (fg.IngressMyDrivePath inst)
      serviceName) c

/-- The Instance with `status.ip` set. -/
def withIP (inst : Instance) (ip : String) : Instance :=
  { inst with Status := { inst.Status with IP := ip } }

/-- The Instance with `status.url` set. -/
def withURL (inst : Instance) (url : String) : Instance :=
  { inst with Status := { inst.Status with URL := url } }

/-- The Instance with `status.myDriveUrl` set. -/
def withMyDriveURL (inst : Instance) (url : String) : Instance :=
  { inst with Status := { inst.Status with MyDriveURL := url } }

/-- The method `enforceInstanceExpositionPresence`. -/
def enforceInstanceExpositionPresence (fg : Forge) (r : InstanceReconciler) (env : Environment)
    (inst : Instance) (c : Cluster) : Outcome :=
  let e1 := enforceServicePresence fg env inst c
  match e1.err with
  | some err => ⟨e1.cluster, inst, some err⟩
  | none =>
    let inst1 := withIP inst e1.obj.Spec.ClusterIP
    if env.EnvironmentType = .ClassVM && !env.GuiEnabled then ⟨e1.cluster, inst1, none⟩
    else
      let e2 := enforceIngressGUIPresence fg r inst1 e1.obj.metadata.Name e1.cluster
      match e2.err with
      | some err => ⟨e2.cluster, inst1, some err⟩
      | none =>
        let inst2 := withURL inst1 ("https://" ++ r.WebsiteBaseURL ++ fg.IngressGUIPath inst1)
        if env.EnvironmentType = .ClassVM then ⟨e2.cluster, inst2, none⟩
        else
          let e3 := enforceIngressMyDrivePresence fg r inst2 e1.obj.metadata.Name e2.cluster
          match e3.err with
          | some err => ⟨e3.cluster, inst2, some err⟩
          | none =>
            ⟨e3.cluster,
              withMyDriveURL inst2
                ("https://" ++ r.WebsiteBaseURL ++ fg.IngressMyDrivePath inst2),
              none⟩

/-- The method `EnforceInstanceExposition`. -/
def EnforceInstanceExposition (fg : Forge) (r : InstanceReconciler) (env : Environment)
    (inst : Instance) (c : Cluster) : Outcome :=
  if inst.Spec.Running then enforceInstanceExpositionPresence fg r env inst c
  else enforceInstanceExpositionAbsence fg inst c

/-! ## virtualmachines.go -/

/-- The closing block of `enforceVirtualMachine` and `enforceVirtualMachineInstance`:
the phase is written when it differs from the one held. -/
def setPhase (inst : Instance) (phase : EnvironmentPhase) : Instance :=
  if phase ≠ inst.Status.Phase then { inst with Status := { inst.Status with Phase := phase } }
  else inst

/-- The mutate function of `enforceVirtualMachine`. -/
def vmMutate (fg : Forge) (inst : Instance) (env : Environment) (vm : VirtualMachine) :
    VirtualMachine × Option Err :=
  let v1 := if vm.metadata.CreationTimestamp = 0
    then { vm with Spec := fg.VirtualMachineSpec inst env } else vm
  let v2 := { v1 with Spec := { v1.Spec with Running := some inst.Spec.Running } }
  let v3 := { v2 with metadata :=
    { v2.metadata with Labels := fg.InstanceObjectLabels v2.metadata.Labels inst } }
  let r := SetControllerReference inst v3.metadata
  ({ v3 with metadata := r.1 }, r.2)

/-- The method `enforceVirtualMachine`. -/
def enforceVirtualMachine (fg : Forge) (r : InstanceReconciler) (env : Environment)
    (inst : Instance) (c : Cluster) : Outcome :=
  let vm : VirtualMachine :=
    { metadata := fg.ObjectMeta inst, Spec := { Running := none, Rest := "" },
      Status := { PrintableStatus := "" } }
  let e := CreateOrUpdate vmResource vm (vmMutate fg inst env) c
  match e.err with
  | some err => ⟨e.cluster, inst, some err⟩
  | none =>
    ⟨e.cluster, setPhase inst (r.RetrievePhaseFromVM e.obj), none⟩

/-- The mutate function of `enforceVirtualMachineInstance`. -/
def vmiMutate (fg : Forge) (inst : Instance) (env : Environment) (vmi : VirtualMachineInstance) :
    VirtualMachineInstance × Option Err :=
  let v1 := if vmi.metadata.CreationTimestamp = 0
    then { vmi with Spec := fg.VirtualMachineInstanceSpec inst env } else vmi
  let v2 := { v1 with metadata :=
    { v1.metadata with Labels := fg.InstanceObjectLabels v1.metadata.Labels inst } }
  let r := SetControllerReference inst v2.metadata
  ({ v2 with metadata := r.1 }, r.2)

/-- The method `enforceVirtualMachineInstance`. -/
def enforceVirtualMachineInstance (fg : Forge) (r : InstanceReconciler) (env : Environment)
    (inst : Instance) (c : Cluster) : Outcome :=
  let vmi : VirtualMachineInstance :=
    { metadata := fg.ObjectMeta inst, Spec := { Rest := "" }, Status := { Phase := "" } }
  if inst.Spec.Running then
    let e := CreateOrUpdate vmiResource vmi (vmiMutate fg inst env) c
    match e.err with
    | some err => ⟨e.cluster, inst, some err⟩
    | none => ⟨e.cluster, setPhase inst (r.RetrievePhaseFromVMI e.obj), none⟩
  else ⟨c, setPhase inst .Off, none⟩

/-- The cluster after the enforcement of the cloud-init secret. -/
def Cluster.afterSecret (c : Cluster) (s : SecretEnforcement) : Cluster :=
  { c with secrets := s.secrets, log := c.log ++ s.actions }

/-- The method `EnforceVMEnvironment`. -/
def EnforceVMEnvironment (fg : Forge) (r : InstanceReconciler) (env : Environment)
    (inst : Instance) (c : Cluster) : Outcome :=
  let s := r.EnforceCloudInitSecret inst env c
  match s.err with
  | some err => ⟨c.afterSecret s, inst, some err⟩
  | none =>
    let o := EnforceInstanceExposition fg r env inst (c.afterSecret s)
    match o.err with
    | some err => ⟨o.cluster, o.inst, some err⟩
    | none =>
      if env.Persistent then enforceVirtualMachine fg r env o.inst o.cluster
      else enforceVirtualMachineInstance fg r env o.inst o.cluster

/-! ## controller.go -/

/-- The value a merge patch leaves in a field: the one sent when the field differs
between the original and the modified object, the stored one otherwise. -/
def merged {α : Type} [DecidableEq α] (original modified stored : α) : α :=
  if original = modified then stored else modified

/-- The call `r.Patch(ctx, &instance, client.MergeFrom(original))`: a merge patch of
the Instance without its status; the answer is the patched object. -/
def clientPatch (original modified : Instance) (c : Cluster) : Cluster × Except Err Instance :=
  let m := modified.metadata
  let c1 := c.record (.api .patch .Instance m.Namespace m.Name)
  match c.faults .patch .Instance m.Namespace m.Name with
  | some e => (c1, .error e)
  | none =>
    match lookup instanceResource.metaOf m.Namespace m.Name c.instances with
    | none => (c1, .error .notFound)
    | some stored =>
      let patched : Instance :=
        { stored with
          metadata := { stored.metadata with
            Labels := merged original.metadata.Labels m.Labels stored.metadata.Labels,
            Annotations := merged original.metadata.Annotations m.Annotations
              stored.metadata.Annotations },
          Spec := merged original.Spec modified.Spec stored.Spec }
      ({ c1 with instances := store instanceResource.metaOf patched c1.instances }, .ok patched)

/-- The call `r.Status().Patch(ctx, updated, client.MergeFrom(original))`: a merge
patch of the status sub-resource only. -/
def clientStatusPatch (original updated : Instance) (c : Cluster) : Cluster × Option Err :=
  let m := updated.metadata
  let c1 := c.record (.api .statusPatch .Instance m.Namespace m.Name)
  match c.faults .statusPatch .Instance m.Namespace m.Name with
  | some e => (c1, some e)
  | none =>
    match lookup instanceResource.metaOf m.Namespace m.Name c.instances with
    | none => (c1, some .notFound)
    | some stored =>
      let patched : Instance :=
        { stored with Status :=
          { Phase := merged original.Status.Phase updated.Status.Phase stored.Status.Phase,
            IP := merged original.Status.IP updated.Status.IP stored.Status.IP,
            URL := merged original.Status.URL updated.Status.URL stored.Status.URL,
            MyDriveURL := merged original.Status.MyDriveURL updated.Status.MyDriveURL
              stored.Status.MyDriveURL } }
      ({ c1 with instances := store instanceResource.metaOf patched c1.instances }, none)

/-- The loop of `enforceEnvironments`, at index `i` of the environment list. -/
def enforceEnvironmentsFrom (fg : Forge) (r : InstanceReconciler) :
    Nat → List Environment → Instance → Cluster → Outcome
  | _, [], inst, c => ⟨c, inst, none⟩
  | i, env :: rest, inst, c =>
    if i ≥ 1 then ⟨c, inst, none⟩
    else
      match env.EnvironmentType with
      | .ClassVM =>
        let o := EnforceVMEnvironment fg r env inst c
        match o.err with
        | some err => ⟨o.cluster.record (.event true .EvEnvironmentErr), o.inst, some err⟩
        | none => enforceEnvironmentsFrom fg r (i + 1) rest o.inst o.cluster
      | .ClassContainer =>
        let o := r.EnforceContainerEnvironment inst env c
        match o.err with
        | some err => ⟨o.cluster.record (.event true .EvEnvironmentErr), o.inst, some err⟩
        | none => enforceEnvironmentsFrom fg r (i + 1) rest o.inst o.cluster
      | .other _ => enforceEnvironmentsFrom fg r (i + 1) rest inst c

/-- The method `enforceEnvironments`. -/
def enforceEnvironments (fg : Forge) (r : InstanceReconciler) (template : Template)
    (inst : Instance) (c : Cluster) : Outcome :=
  enforceEnvironmentsFrom fg r 0 template.Spec.EnvironmentList inst c

/-- The value `ctrl.Result`. -/
structure Result where
  Requeue : Bool
  RequeueAfter : Nat
  deriving DecidableEq, Repr

/-- The empty result `ctrl.Result{}`. -/
def Result.empty : Result := { Requeue := false, RequeueAfter := 0 }

/-- What `Reconcile` leaves behind: the cluster, the Instance held in memory when the
body returns (`none` when it was not fetched; this is the value the deferred
function compares with its snapshot), and the two return values. -/
structure ReconcileOutcome where
  cluster : Cluster
  inst : Option Instance
  result : Result
  err : Option Err

/-- Where the first part of `Reconcile` ends: with a return, or at the enforcement
step with the Instance, the Template and the Tenant. -/
inductive Fetched where
  | stop (c : Cluster) (inst : Option Instance) (err : Option Err)
  | proceed (c : Cluster) (inst : Instance) (template : Template) (tenant : Tenant)

/-- The method `Reconcile` up to the patch of the labels: fetch the Instance, check
the namespace selector, fetch the Template and the Tenant, patch the labels. -/
def reconcileFetch (fg : Forge) (r : InstanceReconciler) (req : NamespacedName) (c : Cluster) :
    Fetched :=
  match clientGet instanceResource req.Namespace req.Name c with
  | (c1, .error e) => .stop c1 none (IgnoreNotFound (some e))
  | (c1, .ok inst) =>
    match r.CheckSelectorLabel c1 inst.metadata.Namespace r.NamespaceWhitelist with
    | (false, some e) => .stop c1 (some inst) (some e)
    | (false, none) => .stop c1 (some inst) none
    | (true, _) =>
      match clientGet templateResource inst.Spec.Template.Namespace inst.Spec.Template.Name c1 with
      | (c2, .error e) => .stop (c2.record (.event true .EvTmplNotFound)) (some inst) (some e)
      | (c2, .ok template) =>
        match clientGet tenantResource "" inst.Spec.Tenant.Name c2 with
        | (c3, .error e) => .stop (c3.record (.event true .EvTntNotFound)) (some inst) (some e)
        | (c3, .ok tenant) =>
          match fg.InstanceLabels inst.metadata.Labels template with
          | (labels, true) =>
            let inst1 := { inst with metadata := { inst.metadata with Labels := labels } }
            match clientPatch inst inst1 c3 with
            | (c4, .error e) => .stop c4 (some inst1) (some e)
            | (c4, .ok inst2) => .proceed c4 inst2 template tenant
          | (_, false) => .proceed c3 inst template tenant

/-- The deferred function of `Reconcile`: patch the status when it differs from the
snapshot; a failure of the patch replaces the error returned. -/
def patchStatusDeferred (original updated : Instance) (c : Cluster) (err : Option Err) :
    Cluster × Option Err :=
  if original.Status ≠ updated.Status then
    match clientStatusPatch original updated c with
    | (c1, some err2) => (c1, some err2)
    | (c1, none) => (c1, err)
  else (c, err)

/-- The Instance `Reconcile` holds after the enforcement returned: on an error that
is not a conflict the phase is set to CreationLoopBackoff. -/
def afterEnforcement (o : Outcome) : Instance :=
  match o.err with
  | some e =>
    if !IsConflict e then
      { o.inst with Status := { o.inst.Status with Phase := .CreationLoopBackoff } }
    else o.inst
  | none => o.inst

/-- The method `Reconcile` from the snapshot on: defer the status patch, enforce the
environments, set the failure phase, return; then the deferred function runs. -/
def reconcileEnforce (fg : Forge) (r : InstanceReconciler) (inst : Instance) (template : Template)
    (c : Cluster) : ReconcileOutcome :=
  let original := inst
  let o := enforceEnvironments fg r template inst c
  let updated := afterEnforcement o
  let p := patchStatusDeferred original updated o.cluster o.err
  ⟨p.1, some updated, Result.empty, p.2⟩

/-- The method `Reconcile`. -/
def Reconcile (fg : Forge) (r : InstanceReconciler) (req : NamespacedName) (c : Cluster) :
    ReconcileOutcome :=
  match reconcileFetch fg r req c with
  | .stop c1 inst err => ⟨c1, inst, Result.empty, err⟩
  | .proceed c1 inst template _ => reconcileEnforce fg r inst template c1

/-! ## Package context (`context.go`) -/

/-- The reference `klog.KObj` makes of an object: its namespace and name. -/
def KObj (m : ObjectMeta) : NamespacedName :=
  ⟨m.Namespace, m.Name⟩

/-- The keys of context values. Go compares keys together with their type, so a
`ctxValueKey` equals no key of another type: not the key under which `logr`
keeps the logger, and no key of another package. -/
inductive CtxKey where
  | ctxValueKey (s : String)
  | loggerKey
  | foreign (n : Nat)
  deriving DecidableEq, Repr

def instanceKey : CtxKey := .ctxValueKey "instance"

def templateKey : CtxKey := .ctxValueKey "template"

def environmentKey : CtxKey := .ctxValueKey "environment"

def tenantKey : CtxKey := .ctxValueKey "tenant"

/-- A value attached to a logger by `WithValues`. -/
inductive LogValue where
  | str (s : String)
  | ref (o : NamespacedName)
  deriving DecidableEq, Repr

/-- A `logr.Logger`: the sink it writes to and the key/value pairs attached to it. -/
structure Logger where
  sink : String
  values : List (CtxKey × LogValue)
  deriving DecidableEq, Repr

/-- The method `Logger.WithValues`. -/
def Logger.WithValues (l : Logger) (keysAndValues : List (CtxKey × LogValue)) : Logger :=
  { l with values := l.values ++ keysAndValues }

/-- The objects the helpers store as `client.Object`. A Go pointer is represented by
the object it points to. -/
inductive Object where
  | ofInstance (p : Instance)
  | ofTemplate (p : Template)
  | ofTenant (p : Tenant)
  deriving DecidableEq, Repr

/-- The metadata of a `client.Object`. -/
def Object.metadata : Object → ObjectMeta
  | .ofInstance p => p.metadata
  | .ofTemplate p => p.metadata
  | .ofTenant p => p.metadata

/-- The values a context carries. -/
inductive CtxValue where
  | object (o : Object)
  | ofEnvironment (p : Environment)
  | ofLogger (l : Logger)
  | foreign (n : Nat)
  deriving DecidableEq, Repr

/-- A `context.Context`: the values attached by `WithValue`, the latest first;
`context.Background()` is the empty one. -/
abbrev Context := List (CtxKey × CtxValue)

/-- The function `context.WithValue`. -/
def WithValue (ctx : Context) (key : CtxKey) (val : CtxValue) : Context :=
  (key, val) :: ctx

/-- The method `Context.Value`: the value attached last under the key, `nil` (here
`none`) when there is none. -/
def Context.Value (ctx : Context) (key : CtxKey) : Option CtxValue :=
  (ctx.find? (fun p => p.1 == key)).map (fun p => p.2)

/-- The logger `ctrl.Log`, which `LoggerFrom` falls back to. -/
def Log : Logger := { sink := "controller-runtime", values := [] }

/-- The function `ctrl.LoggerInto` (`logr.NewContext`). -/
def LoggerInto (ctx : Context) (log : Logger) : Context :=
  WithValue ctx .loggerKey (.ofLogger log)

/-- The function `ctrl.LoggerFrom`: the logger of the context, or `ctrl.Log` when it
carries none, with the given keys and values attached. -/
def LoggerFrom (ctx : Context) (keysAndValues : List (CtxKey × LogValue)) : Logger :=
  let log :=
    match ctx.Value .loggerKey with
    | some (.ofLogger l) => l
    | _ => Log
  log.WithValues keysAndValues

/-- The function `objectInto`. -/
def objectInto (ctx : Context) (key : CtxKey) (object : Object) : Context × Logger :=
  let log := LoggerFrom ctx [(key, .ref (KObj object.metadata))]
  (WithValue (LoggerInto ctx log) key (.object object), log)

/-- The function `InstanceInto`. -/
def InstanceInto (ctx : Context) (inst : Instance) : Context × Logger :=
  objectInto ctx instanceKey (.ofInstance inst)

/-- The function `InstanceFrom`; `none` is the panic of the type assertion. -/
def InstanceFrom (ctx : Context) : Option Instance :=
  match ctx.Value instanceKey with
  | some (.object (.ofInstance p)) => some p
  | _ => none

/-- The function `TemplateInto`. -/
def TemplateInto (ctx : Context) (template : Template) : Context × Logger :=
  objectInto ctx templateKey (.ofTemplate template)

/-- The function `TemplateFrom`; `none` is the panic of the type assertion. -/
def TemplateFrom (ctx : Context) : Option Template :=
  match ctx.Value templateKey with
  | some (.object (.ofTemplate p)) => some p
  | _ => none

/-- The function `TenantInto`. -/
def TenantInto (ctx : Context) (tenant : Tenant) : Context × Logger :=
  objectInto ctx tenantKey (.ofTenant tenant)

/-- The function `TenantFrom`; `none` is the panic of the type assertion. -/
def TenantFrom (ctx : Context) : Option Tenant :=
  match ctx.Value tenantKey with
  | some (.object (.ofTenant p)) => some p
  | _ => none

/-- The function `EnvironmentInto`. -/
def EnvironmentInto (ctx : Context) (environment : Environment) : Context × Logger :=
  let log := LoggerFrom ctx [(environmentKey, .str environment.Name)]
  (WithValue (LoggerInto ctx log) environmentKey (.ofEnvironment environment), log)

/-- The function `EnvironmentFrom`; `none` is the panic of the type assertion. -/
def EnvironmentFrom (ctx : Context) : Option Environment :=
  match ctx.Value environmentKey with
  | some (.ofEnvironment p) => some p
  | _ => none

/-! ## logic.go -/

def dataVolumeResource : Resource DataVolume :=
  { kind := .DataVolume, metaOf := fun o => o.metadata,
    setMeta := fun m o => { o with metadata := m },
    list := fun c => c.dataVolumes, setList := fun l c => { c with dataVolumes := l },
    serverDefaults := fun _ o => o }

def secretResource : Resource Secret :=
  { kind := .Secret, metaOf := fun o => o.metadata,
    setMeta := fun m o => { o with metadata := m },
    list := fun c => c.secrets, setList := fun l c => { c with secrets := l },
    serverDefaults := fun _ o => o }

/-- The literal `metav1.ObjectMeta{Name: name, Namespace: namespace}`. -/
def namedMeta (Name Namespace : String) : ObjectMeta :=
  { Name := Name, Namespace := Namespace, UID := "", Labels := [], Annotations := [],
    OwnerReferences := [], CreationTimestamp := 0 }

/-- What `GetWebdavCredentials` leaves: the cluster, the two strings behind the
pointers it is given, and its error. -/
structure Credentials where
  cluster : Cluster
  user : String
  password : String
  err : Option Err

/-- What `GetPublicKeys` leaves: the cluster, the keys behind the pointer it is
given, and its error. -/
structure PublicKeys where
  cluster : Cluster
  publicKeys : List String
  err : Option Err

/-- The functions of package `instance_creation` that `logic.go` uses; the package
is not part of the sources, so they are parameters. Those that are handed the
client take the cluster and return it. -/
structure InstanceCreation where
  GetWebdavCredentials : Cluster → String → String → Credentials
  GetPublicKeys : Cluster → GenericRef → GenericRef → PublicKeys
  CreateCloudInitSecret : String → String → String → String → String → List String → Secret
  UpdateDataVolumeSpec : DataVolume → Environment → DataVolume
  UpdateVirtualMachineSpec : VirtualMachine → Environment → Bool → VirtualMachine
  UpdateLabels : LabelMap → Environment → String → LabelMap
  UpdateVirtualMachineInstanceSpec : VirtualMachineInstance → Environment → VirtualMachineInstance

/-- What `CreateInstanceExpositionEnvironment` leaves: the cluster, the Instance it
is handed by pointer, the Service and the Ingress it returns, and its error. -/
structure ExpositionCreated where
  cluster : Cluster
  inst : Instance
  service : Service
  ingress : Ingress
  err : Option Err

/-- The methods of the reconciler that `logic.go` calls and that live in other files
of the package, not part of the sources: parameters. `setInstanceStatus` takes
the message, the event type, the event reason, the Instance, an address and a
URL; what it leaves is the cluster and the Instance it is handed by pointer. -/
structure ReconcilerMethods where
  setInstanceStatus : String → String → String → Instance → String → String → Cluster →
    Cluster × Instance
  CreateInstanceExpositionEnvironment : Instance → String → Bool → Cluster → ExpositionCreated

/-- The arguments of the statement `go r.getVmiStatus(...)`: the watcher runs in the
background, after `CreateVMEnvironment` has returned. -/
structure VmiWatch where
  guiEnabled : Bool
  service : Service
  ingress : Ingress
  vmi : VirtualMachineInstance
  vmStart : Nat

/-- What `createPersistentlogic` leaves: the cluster, the Instance, and its two
return values. -/
structure PersistentOutcome where
  cluster : Cluster
  inst : Instance
  cancontinue : Bool
  err : Option Err

/-- What `CreateVMEnvironment` leaves: the cluster, the Instance, the watcher it
started if any, and the error returned. -/
structure CreationOutcome where
  cluster : Cluster
  inst : Instance
  watch : Option VmiWatch
  err : Option Err

/-- The mutate function of the DataVolume in `createPersistentlogic`. -/
def dataVolumeMutate (ic : InstanceCreation) (inst : Instance) (env : Environment)
    (dv : DataVolume) : DataVolume × Option Err :=
  let d1 := ic.UpdateDataVolumeSpec dv env
  let r := SetControllerReference inst d1.metadata
  ({ d1 with metadata := r.1 }, r.2)

/-- The `CreateOrUpdate` of `createPersistentlogic`: the DataVolume. -/
def createOrUpdateDataVolume (ic : InstanceCreation) (inst : Instance) (env : Environment)
    (name : String) (c : Cluster) : Enforced DataVolume :=
  CreateOrUpdate dataVolumeResource
    { metadata := namedMeta name inst.metadata.Namespace, Spec := "", Status := { Phase := "" } }
    (dataVolumeMutate ic inst env) c

/-- The method `createPersistentlogic`. -/
def createPersistentlogic (ic : InstanceCreation) (m : ReconcilerMethods) (inst : Instance)
    (env : Environment) (name : String) (c : Cluster) : PersistentOutcome :=
  let e := createOrUpdateDataVolume ic inst env name c
  match e.err with
  | some err => ⟨e.cluster, inst, false, some err⟩
  | none =>
    if e.obj.Status.Phase ≠ "Succeeded" then
      let s := m.setInstanceStatus ("PVC " ++ e.obj.metadata.Name ++ " importing") "Normal"
        "Importing" inst "" "" e.cluster
      ⟨s.1, s.2, false, none⟩
    else ⟨e.cluster, inst, true, none⟩

/-- The mutate function of the Secret in `CreateVMEnvironment`. -/
def secretMutate (inst : Instance) (secret : Secret) : Secret × Option Err :=
  let r := SetControllerReference inst secret.metadata
  ({ secret with metadata := r.1 }, r.2)

/-- The mutate function of the VirtualMachine in `CreateVMEnvironment`. -/
def legacyVMMutate (ic : InstanceCreation) (inst : Instance) (env : Environment) (name : String)
    (vm : VirtualMachine) : VirtualMachine × Option Err :=
  let v1 := ic.UpdateVirtualMachineSpec vm env inst.Spec.Running
  let v2 := { v1 with Spec :=
    { v1.Spec with TemplateLabels := ic.UpdateLabels v1.Spec.TemplateLabels env name } }
  let r := SetControllerReference inst v2.metadata
  ({ v2 with metadata := r.1 }, r.2)

/-- The mutate function of the VirtualMachineInstance in `CreateVMEnvironment`. -/
def legacyVMIMutate (ic : InstanceCreation) (inst : Instance) (env : Environment) (name : String)
    (vmi : VirtualMachineInstance) : VirtualMachineInstance × Option Err :=
  let v1 := if vmi.metadata.CreationTimestamp = 0
    then ic.UpdateVirtualMachineInstanceSpec vmi env else vmi
  let v2 := { v1 with metadata :=
    { v1.metadata with Labels := ic.UpdateLabels v1.metadata.Labels env name } }
  let r := SetControllerReference inst v2.metadata
  ({ v2 with metadata := r.1 }, r.2)

/-- The end of `CreateVMEnvironment`, after the create-or-update of the compute
workload: on an error the status is set and the error returned; otherwise the
status is set and, unless the machine is off, the watcher is started. -/
def reportWorkload (m : ReconcilerMethods) (inst : Instance) (env : Environment)
    (Namespace : String) (vmStart : Nat) (x : ExpositionCreated)
    (vmi : VirtualMachineInstance) (vmStatus : String) (err : Option Err) (c : Cluster) :
    CreationOutcome :=
  match err with
  | some e =>
    let s := m.setInstanceStatus
      ("Could not create vmi " ++ vmi.metadata.Name ++ " in namespace " ++ Namespace)
      "Warning" "VmiNotCreated" inst "" "" c
    ⟨s.1, s.2, none, some e⟩
  | none =>
    let s := m.setInstanceStatus
      ("VirtualMachineInstance " ++ vmi.metadata.Name ++ " correctly created in namespace "
        ++ Namespace)
      "Normal" vmStatus inst "" "" c
    ⟨s.1, s.2,
      if vmStatus ≠ "VmiOff" then some ⟨env.GuiEnabled, x.service, x.ingress, vmi, vmStart⟩
      else none,
      none⟩

/-- The method `CreateVMEnvironment` from the creation of the secret on: the secret,
the exposition, the compute workload. -/
def createVMEnvironmentFromSecret (ic : InstanceCreation) (m : ReconcilerMethods)
    (r : InstanceReconciler) (inst : Instance) (env : Environment) (Namespace name : String)
    (vmStart : Nat) (user password : String) (publicKeys : List String) (c : Cluster) :
    CreationOutcome :=
  let secret := ic.CreateCloudInitSecret name Namespace user password r.NextcloudBaseURL
    publicKeys
  let es := CreateOrUpdate secretResource secret (secretMutate inst) c
  let s1 : Cluster × Instance :=
    match es.err with
    | some _ =>
      m.setInstanceStatus
        ("Could not create secret " ++ es.obj.metadata.Name ++ " in namespace "
          ++ es.obj.metadata.Namespace)
        "Warning" "SecretNotCreated" inst "" "" es.cluster
    | none => (es.cluster, inst)
  let x := m.CreateInstanceExpositionEnvironment s1.2 name false s1.1
  match x.err with
  | some err => ⟨x.cluster, x.inst, none, some err⟩
  | none =>
    let vmi : VirtualMachineInstance :=
      { metadata := namedMeta name Namespace, Spec := { Rest := "" }, Status := { Phase := "" } }
    if env.Persistent then
      let vm : VirtualMachine :=
        { metadata := namedMeta name Namespace, Spec := { Running := none, Rest := "" },
          Status := { PrintableStatus := "" } }
      let e := CreateOrUpdate vmResource vm (legacyVMMutate ic x.inst env name) x.cluster
      let vmStatus := if !x.inst.Spec.Running then "VmiOff" else "VmiCreated"
      reportWorkload m x.inst env Namespace vmStart x vmi vmStatus e.err e.cluster
    else
      let e := CreateOrUpdate vmiResource vmi (legacyVMIMutate ic x.inst env name) x.cluster
      reportWorkload m x.inst env Namespace vmStart x e.obj "VmiCreated" e.err e.cluster

/-- The method `CreateVMEnvironment`: fetch the credentials and the public keys (a
failure is only logged), for a persistent environment run
`createPersistentlogic` and stop unless it says to continue, then go on with the
secret. -/
def CreateVMEnvironment (ic : InstanceCreation) (m : ReconcilerMethods) (r : InstanceReconciler)
    (inst : Instance) (env : Environment) (Namespace name : String) (vmStart : Nat)
    (c : Cluster) : CreationOutcome :=
  let w := ic.GetWebdavCredentials c r.WebdavSecretName inst.metadata.Namespace
  let k := ic.GetPublicKeys w.cluster inst.Spec.Tenant inst.Spec.Template
  if env.Persistent then
    let p := createPersistentlogic ic m inst env name k.cluster
    match p.err with
    | some err1 => ⟨p.cluster, p.inst, none, some err1⟩
    | none =>
      if !p.cancontinue then ⟨p.cluster, p.inst, none, none⟩
      else
        createVMEnvironmentFromSecret ic m r p.inst env Namespace name vmStart w.user w.password
          k.publicKeys p.cluster
  else
    createVMEnvironmentFromSecret ic m r inst env Namespace name vmStart w.user w.password
      k.publicKeys k.cluster

/-! ## A concrete scenario (the fixture of `virtualmachines_test.go`) -/

namespace Sample

/-- Adds a label unless it is there. -/
def withLabel (l : LabelMap) (k v : String) : LabelMap :=
  if l.contains (k, v) then l else l ++ [(k, v)]

/-- A stand-in for package `forge`. -/
def forge : Forge :=
  { NamespacedName := fun i => ⟨i.metadata.Namespace, i.metadata.Name⟩,
    NamespacedNameWithSuffix := fun i sfx => ⟨i.metadata.Namespace, i.metadata.Name ++ "-" ++ sfx⟩,
    InstanceLabels := fun l t =>
      (withLabel l "template" t.metadata.Name, !l.contains ("template", t.metadata.Name)),
    InstanceObjectLabels := fun l i => withLabel l "instance" i.metadata.Name,
    ServiceSpec := fun _ _ => ⟨"", "ports"⟩,
    IngressSpec := fun host path _ svc port => ⟨host ++ path ++ ">" ++ svc ++ ":" ++ port⟩,
    IngressGUIPath := fun i => "/" ++ i.metadata.Name,
    IngressMyDrivePath := fun i => "/" ++ i.metadata.Name ++ "/mydrive",
    IngressGUIAnnotations := fun a path => withLabel a "rewrite" path,
    IngressMyDriveAnnotations := fun a => withLabel a "rewrite" "/",
    IngressAuthenticationAnnotations := fun a url => withLabel a "auth" url,
    VirtualMachineSpec := fun _ e => { Running := none, Rest := e.Image },
    VirtualMachineInstanceSpec := fun _ e => ⟨e.Image⟩,
    IngressGUINameSuffix := "gui",
    IngressMyDriveNameSuffix := "mydrive",
    IngressDefaultCertificateName := "cert",
    GUIPortName := "gui",
    MyDrivePortName := "mydrive" }

/-- A reconciler whose secret step succeeds without touching anything. -/
def reconciler : InstanceReconciler :=
  { NamespaceWhitelist := [],
    WebsiteBaseURL := "crownlabs.example.com",
    NextcloudBaseURL := "",
    WebdavSecretName := "webdav-credentials",
    InstancesAuthURL := "auth.example.com",
    Concurrency := 1,
    CheckSelectorLabel := fun _ _ _ => (true, none),
    EnforceCloudInitSecret := fun _ _ c => ⟨c.secrets, [], none⟩,
    EnforceContainerEnvironment := fun i _ c => ⟨c, i, none⟩,
    RetrievePhaseFromVM := fun vm =>
      if vm.Status.PrintableStatus = "Running" then .Running
      else if vm.Status.PrintableStatus = "Stopped" then .Off
      else if vm.Status.PrintableStatus = "Provisioning" then .Importing
      else .Unset,
    RetrievePhaseFromVMI := fun vmi => if vmi.Status.Phase = "Running" then .Running else .Unset }

def objectMeta (Namespace Name : String) (created : Nat) : ObjectMeta :=
  { Name := Name, Namespace := Namespace, UID := "", Labels := [], Annotations := [],
    OwnerReferences := [], CreationTimestamp := created }

def inst (running : Bool) : Instance :=
  { metadata := { objectMeta "tenant-tester" "kubernetes-0000" 1 with
      Labels := [("template", "kubernetes")] },
    Spec := { Running := running, Template := ⟨"kubernetes", "workspace-netgroup"⟩,
              Tenant := ⟨"tester", ""⟩ },
    Status := { Phase := .Unset, IP := "", URL := "", MyDriveURL := "" } }

def environment (persistent gui : Bool) : Environment :=
  { Name := "control-plane", EnvironmentType := .ClassVM, Image := "internal/registry/image:v1.0",
    Persistent := persistent, GuiEnabled := gui,
    Resources := { CPU := 2, ReservedCPUPercentage := 25, Memory := 1250, Disk := 20 } }

def template (envs : List Environment) : Template :=
  { metadata := objectMeta "workspace-netgroup" "kubernetes" 1, Spec := { EnvironmentList := envs } }

def tenant : Tenant :=
  { metadata := objectMeta "" "tester" 1, PublicKeys := [] }

def request : NamespacedName := ⟨"tenant-tester", "kubernetes-0000"⟩

def noFaults : Verb → Kind → String → String → Option Err := fun _ _ _ _ => none

/-- A cluster with the Instance, its Template (one VM environment) and its Tenant,
and no child object. -/
def cluster (running persistent gui : Bool)
    (faults : Verb → Kind → String → String → Option Err) : Cluster :=
  { instances := [inst running],
    templates := [template [environment persistent gui]],
    tenants := [tenant],
    services := [], ingresses := [], virtualMachines := [], virtualMachineInstances := [],
    secrets := [], dataVolumes := [],
    clock := 1, nextClusterIP := "10.96.0.10", faults := faults, log := [] }

/-- A VirtualMachineInstance created earlier and reported running. -/
def existingVMI : VirtualMachineInstance :=
  { metadata := objectMeta "tenant-tester" "kubernetes-0000" 1, Spec := ⟨"frozen"⟩,
    Status := ⟨"Running"⟩ }

/-- A VirtualMachine created earlier and reported running. -/
def existingVM (running : Bool) : VirtualMachine :=
  { metadata := objectMeta "tenant-tester" "kubernetes-0000" 1, Spec := { Running := some running, Rest := "frozen" },
    Status := ⟨"Running"⟩ }

/-- The cluster `c` after the three reads of the first part of `Reconcile`. -/
def fetched (c : Cluster) : Cluster :=
  { c with log := c.log ++
      [.api .get .Instance "tenant-tester" "kubernetes-0000",
       .api .get .Template "workspace-netgroup" "kubernetes",
       .api .get .Tenant "" "tester"] }

/-- Failure injection: one request is answered with an error. -/
def failing (verb : Verb) (kind : Kind) (e : Err) : Verb → Kind → String → String → Option Err :=
  fun v k _ _ => if v = verb ∧ k = kind then some e else none

/-- Failure injection: the Service read fails with `e`, the status patch with `p`. -/
def failingTwice (e p : Err) : Verb → Kind → String → String → Option Err :=
  fun v k _ _ =>
    if v = .statusPatch then some p else if v = .get ∧ k = .Service then some e else none

/-- The cluster `c` with the VirtualMachineInstance of the Instance already there. -/
def withVMI (c : Cluster) : Cluster :=
  { c with virtualMachineInstances := [existingVMI] }

/-- The cluster `c` with the VirtualMachine of the Instance already there. -/
def withVM (running : Bool) (c : Cluster) : Cluster :=
  { c with virtualMachines := [existingVM running] }

/-- A Disk-Volume of the Instance whose import has not finished. -/
def pendingDataVolume : DataVolume :=
  { metadata := objectMeta "tenant-tester" "kubernetes-0000" 1, Spec := "20Gi",
    Status := ⟨"ImportInProgress"⟩ }

/-- The cluster `c` with that Disk-Volume. -/
def withPendingDataVolume (c : Cluster) : Cluster :=
  { c with dataVolumes := [pendingDataVolume] }

/-- A Service created earlier, with a spec of its own. -/
def existingService : Service :=
  { metadata := objectMeta "tenant-tester" "kubernetes-0000" 1, Spec := ⟨"10.96.0.7", "frozen"⟩ }

/-- A GUI Ingress created earlier, with a spec of its own. -/
def existingIngressGUI : Ingress :=
  { metadata := objectMeta "tenant-tester" "kubernetes-0000-gui" 1, Spec := ⟨"frozen"⟩ }

/-- The cluster `c` with the Service and the GUI Ingress already there. -/
def withExposition (c : Cluster) : Cluster :=
  { c with services := [existingService], ingresses := [existingIngressGUI] }

/-- A container environment. -/
def containerEnvironment : Environment :=
  { environment false true with EnvironmentType := .ClassContainer }

/-- A reconciler whose secret step fails with `e`, having issued one read. -/
def reconcilerSecretFails (e : Err) : InstanceReconciler :=
  { reconciler with
    EnforceCloudInitSecret := fun _ _ c =>
      ⟨c.secrets, [.api .get .Secret "tenant-tester" "webdav-credentials"], some e⟩ }

/-- A reconciler whose namespace selector does not select the namespace. -/
def reconcilerNotSelected : InstanceReconciler :=
  { reconciler with CheckSelectorLabel := fun _ _ _ => (false, none) }

/-- The cluster `c` without any Instance. -/
def withoutInstance (c : Cluster) : Cluster :=
  { c with instances := [] }

/-- The cluster `c` without any Template. -/
def withoutTemplate (c : Cluster) : Cluster :=
  { c with templates := [] }

/-- The cluster `c` without any Tenant. -/
def withoutTenant (c : Cluster) : Cluster :=
  { c with tenants := [] }

/-- The cluster `c` whose Template lists the given environments. -/
def withEnvironments (envs : List Environment) (c : Cluster) : Cluster :=
  { c with templates := [template envs] }

/-- A VM environment with the GUI enabled. -/
def guiEnvironment : Environment := environment false true

/-- The metadata of a child object the controller created at time `created`. -/
def childMeta (created : Nat) : ObjectMeta :=
  { Name := "kubernetes-0000", Namespace := "tenant-tester", UID := "",
    Labels := [("instance", "kubernetes-0000")], Annotations := [],
    OwnerReferences := [controllerRef (inst true)], CreationTimestamp := created }

/-- The Service the first enforcement creates in the empty cluster. -/
def createdService : Service :=
  { metadata := childMeta 2, Spec := ⟨"10.96.0.10", "ports"⟩ }

/-- The VirtualMachineInstance the first enforcement creates in the empty cluster. -/
def createdVMI : VirtualMachineInstance :=
  { metadata := childMeta 3, Spec := ⟨"internal/registry/image:v1.0"⟩, Status := ⟨""⟩ }

/-- An Instance that is switched off and still shows the exposure of its last run. -/
def exposedInst : Instance :=
  { inst false with
    Status := { Phase := .Off, IP := "10.96.0.7",
                URL := "https://crownlabs.example.com/kubernetes-0000",
                MyDriveURL := "https://crownlabs.example.com/kubernetes-0000/mydrive" } }

/-- An Instance that is running and shows an address and two URLs already. -/
def runningExposedInst : Instance :=
  { inst true with Status := exposedInst.Status }

/-- An Instance reported running that does not carry the label of its Template yet. -/
def unlabelledInst : Instance :=
  { inst true with
    metadata := objectMeta "tenant-tester" "kubernetes-0000" 1,
    Status := { Phase := .Running, IP := "10.96.0.7", URL := "", MyDriveURL := "" } }

/-- The cluster `c` with `i` as its only Instance. -/
def withInstance (i : Instance) (c : Cluster) : Cluster :=
  { c with instances := [i] }

/-- An environment whose type is neither VM nor Container. -/
def otherEnvironment : Environment :=
  { environment false false with EnvironmentType := .other "Standalone" }

/-- A stand-in for package `instance_creation`: the two fetches read one object each
and succeed. -/
def instanceCreation : InstanceCreation :=
  { GetWebdavCredentials := fun c name ns =>
      ⟨c.record (.api .get .Secret ns name), "user", "password", none⟩,
    GetPublicKeys := fun c tenant _ =>
      ⟨c.record (.api .get .Tenant "" tenant.Name), ["ssh-rsa AAAA"], none⟩,
    CreateCloudInitSecret := fun name ns user password url keys =>
      { metadata := namedMeta name ns,
        Data := [("user", user), ("password", password), ("url", url),
                 ("keys", String.intercalate "," keys)] },
    UpdateDataVolumeSpec := fun dv e => { dv with Spec := e.Image },
    UpdateVirtualMachineSpec := fun vm e running =>
      { vm with Spec := { vm.Spec with Running := some running, Rest := e.Image } },
    UpdateLabels := fun l _ name => withLabel l "name" name,
    UpdateVirtualMachineInstanceSpec := fun vmi e => { vmi with Spec := ⟨e.Image⟩ } }

/-- The phase a stand-in `setInstanceStatus` records for an event reason. -/
def phaseOf (reason : String) : EnvironmentPhase :=
  if reason = "Importing" then .Importing else .other reason

/-- A stand-in for the methods of the reconciler `logic.go` calls: `setInstanceStatus`
sets the phase, the address and the URL and patches the status;
`CreateInstanceExpositionEnvironment` creates a Service. -/
def methods : ReconcilerMethods :=
  { setInstanceStatus := fun _ _ reason i ip url c =>
      ((clientStatusPatch i
          { i with Status := { i.Status with Phase := phaseOf reason, IP := ip, URL := url } }
          c).1,
        { i with Status := { i.Status with Phase := phaseOf reason, IP := ip, URL := url } }),
    CreateInstanceExpositionEnvironment := fun i name _ c =>
      ⟨(CreateOrUpdate serviceResource
          { metadata := namedMeta name i.metadata.Namespace, Spec := ⟨"", "ports"⟩ }
          (fun s => (s, none)) c).cluster,
        i,
        (CreateOrUpdate serviceResource
          { metadata := namedMeta name i.metadata.Namespace, Spec := ⟨"", "ports"⟩ }
          (fun s => (s, none)) c).obj,
        { metadata := namedMeta (name ++ "-gui") i.metadata.Namespace, Spec := ⟨""⟩ },
        (CreateOrUpdate serviceResource
          { metadata := namedMeta name i.metadata.Namespace, Spec := ⟨"", "ports"⟩ }
          (fun s => (s, none)) c).err⟩ }

/-- A Disk-Volume of the Instance whose import has finished. -/
def importedDataVolume : DataVolume :=
  { pendingDataVolume with Status := ⟨"Succeeded"⟩ }

/-- The cluster `c` with that Disk-Volume. -/
def withImportedDataVolume (c : Cluster) : Cluster :=
  { c with dataVolumes := [importedDataVolume] }

/-- A Service created earlier that has no cluster address. -/
def serviceWithoutAddress : Service :=
  { metadata := objectMeta "tenant-tester" "kubernetes-0000" 1, Spec := ⟨"", "frozen"⟩ }

/-- The cluster `c` with that Service. -/
def withServiceWithoutAddress (c : Cluster) : Cluster :=
  { c with services := [serviceWithoutAddress] }

end Sample

/-! ## Vocabulary of the statements -/

/-- The status patch request for an Instance. -/
def statusPatchOf (i : Instance) : Action :=
  .api .statusPatch .Instance i.metadata.Namespace i.metadata.Name

/-- Whether an action is a status patch. -/
def isStatusPatch : Action → Bool
  | .api .statusPatch _ _ _ => true
  | _ => false

/-- The VirtualMachine stored under the name and namespace of `m`. -/
def Cluster.vm (c : Cluster) (m : ObjectMeta) : Option VirtualMachine :=
  lookup vmResource.metaOf m.Namespace m.Name c.virtualMachines

/-- The VirtualMachineInstance stored under the name and namespace of `m`. -/
def Cluster.vmi (c : Cluster) (m : ObjectMeta) : Option VirtualMachineInstance :=
  lookup vmiResource.metaOf m.Namespace m.Name c.virtualMachineInstances

/-- The Service stored under a key. -/
def Cluster.service (c : Cluster) (Namespace Name : String) : Option Service :=
  lookup serviceResource.metaOf Namespace Name c.services

/-- The Ingress stored under a key. -/
def Cluster.ingress (c : Cluster) (Namespace Name : String) : Option Ingress :=
  lookup ingressResource.metaOf Namespace Name c.ingresses

/-- The kind an action is about, when it is a request. -/
def Action.onKind : Action → Kind → Bool
  | .api _ k _ _, k1 => k == k1
  | .event _ _, _ => false

/-- Whether an action creates or updates an object of the given kind. -/
def Action.writes : Action → Kind → Bool
  | .api .create k _ _, k1 => k == k1
  | .api .update k _ _, k1 => k == k1
  | _, _ => false

/-- The cluster `c1` agrees with `c` on the failure table, on the address pool and
on the store of every kind but `k`. -/
def sameBut (k : Kind) (c c1 : Cluster) : Prop :=
  c1.faults = c.faults ∧ c1.nextClusterIP = c.nextClusterIP
  ∧ (k ≠ .Instance → c1.instances = c.instances)
  ∧ (k ≠ .Template → c1.templates = c.templates)
  ∧ (k ≠ .Tenant → c1.tenants = c.tenants)
  ∧ (k ≠ .Service → c1.services = c.services)
  ∧ (k ≠ .Ingress → c1.ingresses = c.ingresses)
  ∧ (k ≠ .VirtualMachine → c1.virtualMachines = c.virtualMachines)
  ∧ (k ≠ .VirtualMachineInstance → c1.virtualMachineInstances = c.virtualMachineInstances)
  ∧ (k ≠ .Secret → c1.secrets = c.secrets)
  ∧ (k ≠ .DataVolume → c1.dataVolumes = c.dataVolumes)

/-- The cluster `c1` agrees with `c` outside the Services, the Ingresses, the log
and the clock. -/
def sameButExposition (c c1 : Cluster) : Prop :=
  c1.faults = c.faults ∧ c1.nextClusterIP = c.nextClusterIP
  ∧ c1.instances = c.instances ∧ c1.templates = c.templates ∧ c1.tenants = c.tenants
  ∧ c1.virtualMachines = c.virtualMachines
  ∧ c1.virtualMachineInstances = c.virtualMachineInstances
  ∧ c1.secrets = c.secrets ∧ c1.dataVolumes = c.dataVolumes

/-- The laws of a resource kind: its store is a field of the cluster of its own,
apart from the log and the clock, and the metadata is a field of the object. -/
structure Resource.Lawful {α : Type} (R : Resource α) : Prop where
  list_setList : ∀ l c, R.list (R.setList l c) = l
  list_log : ∀ (c : Cluster) lg k, R.list { c with log := lg, clock := k } = R.list c
  log_setList : ∀ l c, (R.setList l c).log = c.log
  sameBut_setList : ∀ l c, sameBut R.kind c (R.setList l c)
  metaOf_setMeta : ∀ m o, R.metaOf (R.setMeta m o) = m

/-- The outcome of the exposition step of `EnforceVMEnvironment`, which runs on the
cluster the secret step left. -/
def expositionOutcome (fg : Forge) (r : InstanceReconciler) (env : Environment)
    (inst : Instance) (c : Cluster) : Outcome :=
  EnforceInstanceExposition fg r env inst (c.afterSecret (r.EnforceCloudInitSecret inst env c))

/-- Whether an action is a request about the object of the given kind and key. -/
def Action.onObject : Action → Kind → String → String → Bool
  | .api _ k ns n, k1, ns1, n1 => k == k1 && ns == ns1 && n == n1
  | .event _ _, _, _, _ => false

/-- Modelled from the spec: `forge.VirtualMachineCPURequests` is not part of the
sources (only its test is); by the spec the CPU request, in milli-cores, is
`cores × 1000 × reservedPercentage / 100`. -/
def VirtualMachineCPURequests (env : Environment) : Nat :=
  env.Resources.CPU * 1000 * env.Resources.ReservedCPUPercentage / 100

/-- The Instance `enforceInstanceExpositionPresence` holds after the Service step. -/
def presenceInst1 (fg : Forge) (env : Environment) (inst : Instance) (c : Cluster) : Instance :=
  withIP inst (enforceServicePresence fg env inst c).obj.Spec.ClusterIP

/-- The GUI Ingress step of `enforceInstanceExpositionPresence`, as it runs after the
Service step. -/
def presenceStage2 (fg : Forge) (r : InstanceReconciler) (env : Environment) (inst : Instance)
    (c : Cluster) : Enforced Ingress :=
  enforceIngressGUIPresence fg r (presenceInst1 fg env inst c)
    (enforceServicePresence fg env inst c).obj.metadata.Name
    (enforceServicePresence fg env inst c).cluster

/-- The Instance `enforceInstanceExpositionPresence` holds after the GUI Ingress
step. -/
def presenceInst2 (fg : Forge) (r : InstanceReconciler) (env : Environment) (inst : Instance)
    (c : Cluster) : Instance :=
  withURL (presenceInst1 fg env inst c)
    ("https://" ++ r.WebsiteBaseURL ++ fg.IngressGUIPath (presenceInst1 fg env inst c))

/-- The MyDrive Ingress step of `enforceInstanceExpositionPresence`, as it runs after
the GUI Ingress step. -/
def presenceStage3 (fg : Forge) (r : InstanceReconciler) (env : Environment) (inst : Instance)
    (c : Cluster) : Enforced Ingress :=
  enforceIngressMyDrivePresence fg r (presenceInst2 fg r env inst c)
    (enforceServicePresence fg env inst c).obj.metadata.Name
    (presenceStage2 fg r env inst c).cluster

/-- The labels of an object that may not be there: none when it is not. -/
def labelsOf {α : Type} (metaOf : α → ObjectMeta) (o : Option α) : LabelMap :=
  match o with
  | some x => (metaOf x).Labels
  | none => []

/-- An action that is a request about a Service or an Ingress. -/
def onExposition (a : Action) : Prop :=
  Action.onKind a .Service = true ∨ Action.onKind a .Ingress = true

/-- The log of `c1` is the log of `c` followed by actions that all satisfy `P`. -/
def logGrowsBy (P : Action → Prop) (c c1 : Cluster) : Prop :=
  ∃ acts, c1.log = c.log ++ acts ∧ ∀ a ∈ acts, P a

/-- The Instance `enforceInstanceExpositionAbsence` holds: the exposure fields are
cleared. -/
def absenceInst (inst : Instance) : Instance :=
  { inst with Status := { inst.Status with IP := "", URL := "", MyDriveURL := "" } }

/-- The cluster after the first deletion of `enforceInstanceExpositionAbsence`. -/
def absenceStage1 (fg : Forge) (inst : Instance) (c : Cluster) : Cluster :=
  (enforceObjectAbsence serviceResource (fg.ObjectMeta (absenceInst inst)) c).1

/-- The cluster after the second deletion of `enforceInstanceExpositionAbsence`. -/
def absenceStage2 (fg : Forge) (inst : Instance) (c : Cluster) : Cluster :=
  (enforceObjectAbsence ingressResource
    (fg.ObjectMetaWithSuffix (absenceInst inst) fg.IngressGUINameSuffix)
    (absenceStage1 fg inst c)).1

/-- The cluster after the third deletion of `enforceInstanceExpositionAbsence`. -/
def absenceStage3 (fg : Forge) (inst : Instance) (c : Cluster) : Cluster :=
  (enforceObjectAbsence ingressResource
    (fg.ObjectMetaWithSuffix (absenceInst inst) fg.IngressMyDriveNameSuffix)
    (absenceStage2 fg inst c)).1

/-- Modelled from the spec: `forge.VirtualMachineCPULimits` is not part of the
sources (only its test is); by the spec the CPU limit, in milli-cores, is
`cores × 1000` plus the CPU request. -/
def VirtualMachineCPULimits (env : Environment) : Nat :=
  env.Resources.CPU * 1000 + VirtualMachineCPURequests env

/-- Modelled from the spec: `forge.VirtualMachineMemoryRequirements` is not part of
the sources (only its test is); by the spec the memory requirement is the memory
of the environment times 1.4. A quantity is a decimal number, so the product is
taken in the rationals and is exact. -/
def VirtualMachineMemoryRequirements (env : Environment) : ℚ :=
  (env.Resources.Memory : ℚ) * 1.4

/-- The value `virtv1.ResourceRequirements`, as far as CPU and memory go: the CPU in
milli-cores, the memory in the unit of the environment. -/
structure ResourceRequirements where
  RequestsCPU : Nat
  RequestsMemory : ℚ
  LimitsCPU : Nat
  LimitsMemory : ℚ
  deriving DecidableEq, Repr

/-- Modelled from the spec: `forge.VirtualMachineResources` is not part of the
sources (only its test is); by the spec and the test it takes the CPU request
and limit from the two CPU functions and the memory request and limit both from
the memory requirement. -/
def VirtualMachineResources (env : Environment) : ResourceRequirements :=
  { RequestsCPU := VirtualMachineCPURequests env,
    RequestsMemory := VirtualMachineMemoryRequirements env,
    LimitsCPU := VirtualMachineCPULimits env,
    LimitsMemory := VirtualMachineMemoryRequirements env }

/-- What `Reconcile` leaves when it returns `e` without having touched the status:
the error and the empty result, the Instance held in memory with the status of
the fetched one, the stored Instances as before, and a log that grew by actions
none of which is a status patch. -/
def failedWithStatusAsFetched (c : Cluster) (fetched : Instance) (e : Err)
    (o : ReconcileOutcome) : Prop :=
  o.err = some e ∧ o.result = Result.empty
  ∧ (∃ held, o.inst = some held ∧ held.Status = fetched.Status)
  ∧ o.cluster.instances = c.instances
  ∧ ∃ acts, o.cluster.log = c.log ++ acts ∧ ∀ a ∈ acts, isStatusPatch a = false

/-- The cluster the DataVolume step of `CreateVMEnvironment` starts from: the one the
fetch of the credentials and of the public keys left. -/
def afterCredentials (ic : InstanceCreation) (r : InstanceReconciler) (inst : Instance)
    (c : Cluster) : Cluster :=
  (ic.GetPublicKeys (ic.GetWebdavCredentials c r.WebdavSecretName inst.metadata.Namespace).cluster
    inst.Spec.Tenant inst.Spec.Template).cluster

/-- What `setInstanceStatus` leaves when `createPersistentlogic` calls it for a
DataVolume that has not been imported yet: the call with the reason
"Importing", on the cluster the create-or-update of the DataVolume left. -/
def importingStatus (ic : InstanceCreation) (m : ReconcilerMethods) (inst : Instance)
    (env : Environment) (name : String) (c : Cluster) : Cluster × Instance :=
  m.setInstanceStatus
    ("PVC " ++ (createOrUpdateDataVolume ic inst env name c).obj.metadata.Name ++ " importing")
    "Normal" "Importing" inst "" "" (createOrUpdateDataVolume ic inst env name c).cluster

/-- Whether an action creates or updates a Secret, a Service, an Ingress, a
VirtualMachine or a VirtualMachineInstance. -/
def Action.writesChild (a : Action) : Bool :=
  a.writes .Secret || a.writes .Service || a.writes .Ingress || a.writes .VirtualMachine
    || a.writes .VirtualMachineInstance

/-- The cluster `c1` holds the Secrets, Services, Ingresses, VirtualMachines and
VirtualMachineInstances of `c`, and its log is that of `c` followed by actions
none of which creates or updates an object of these kinds. -/
def childrenUntouched (c c1 : Cluster) : Prop :=
  c1.secrets = c.secrets ∧ c1.services = c.services ∧ c1.ingresses = c.ingresses
  ∧ c1.virtualMachines = c.virtualMachines
  ∧ c1.virtualMachineInstances = c.virtualMachineInstances
  ∧ logGrowsBy (fun a => Action.writesChild a = false) c c1

/-- The helpers `logic.go` calls before the secret step and that are parameters
(`GetWebdavCredentials`, `GetPublicKeys`, `setInstanceStatus`) create or update
no child object. -/
structure HelpersLeaveChildren (ic : InstanceCreation) (m : ReconcilerMethods) : Prop where
  credentials : ∀ c a b, childrenUntouched c (ic.GetWebdavCredentials c a b).cluster
  publicKeys : ∀ c a b, childrenUntouched c (ic.GetPublicKeys c a b).cluster
  status : ∀ msg t reason i ip url c,
    childrenUntouched c (m.setInstanceStatus msg t reason i ip url c).1

/-! ## Theorems -/

/-! ### The keyed stores -/

theorem hasKey_iff (m : ObjectMeta) (Namespace Name : String) :
    hasKey m Namespace Name = true ↔ m.Namespace = Namespace ∧ m.Name = Name := by
  simp [hasKey]

theorem lookup_hasKey {α : Type} (metaOf : α → ObjectMeta) (Namespace Name : String)
    (l : List α) (x : α) (h : lookup metaOf Namespace Name l = some x) :
    hasKey (metaOf x) Namespace Name = true := by
  have := List.find?_some h
  simpa using this

theorem lookup_remove_same {α : Type} (metaOf : α → ObjectMeta) (Namespace Name : String)
    (l : List α) : lookup metaOf Namespace Name (remove metaOf Namespace Name l) = none := by
  simp only [lookup, remove, List.find?_eq_none, List.mem_filter]
  intro x hx
  simpa using hx.2

theorem lookup_remove_other {α : Type} (metaOf : α → ObjectMeta) (ns1 n1 ns2 n2 : String)
    (l : List α) (hne : ¬ (ns1 = ns2 ∧ n1 = n2)) :
    lookup metaOf ns1 n1 (remove metaOf ns2 n2 l) = lookup metaOf ns1 n1 l := by
  induction l with
  | nil => rfl
  | cons x xs ih =>
    simp only [lookup, remove] at ih ⊢
    by_cases h2 : hasKey (metaOf x) ns2 n2 = true
    · have h1 : hasKey (metaOf x) ns1 n1 = false := by
        rw [Bool.eq_false_iff]
        intro h1
        rw [hasKey_iff] at h1 h2
        exact hne ⟨h1.1.symm.trans h2.1, h1.2.symm.trans h2.2⟩
      simp [List.filter_cons, List.find?_cons, h1, h2, ih]
    · simp only [Bool.not_eq_true] at h2
      by_cases h1 : hasKey (metaOf x) ns1 n1 = true
      · simp [List.filter_cons, List.find?_cons, h1, h2]
      · simp only [Bool.not_eq_true] at h1
        simp [List.filter_cons, List.find?_cons, h1, h2, ih]

theorem lookup_store_same {α : Type} (metaOf : α → ObjectMeta) (Namespace Name : String)
    (obj : α) (l : List α) (h : hasKey (metaOf obj) Namespace Name = true) :
    lookup metaOf Namespace Name (store metaOf obj l) = some obj := by
  simp [lookup, store, List.find?_cons, h]

theorem lookup_store_other {α : Type} (metaOf : α → ObjectMeta) (Namespace Name : String)
    (obj : α) (l : List α) (h : hasKey (metaOf obj) Namespace Name = false) :
    lookup metaOf Namespace Name (store metaOf obj l) = lookup metaOf Namespace Name l := by
  have hne : ¬ (Namespace = (metaOf obj).Namespace ∧ Name = (metaOf obj).Name) := by
    intro hk
    have : hasKey (metaOf obj) Namespace Name = true := by
      rw [hasKey_iff]; exact ⟨hk.1.symm, hk.2.symm⟩
    rw [h] at this
    exact Bool.noConfusion this
  have := lookup_remove_other metaOf Namespace Name (metaOf obj).Namespace (metaOf obj).Name l hne
  simp only [lookup, store, List.find?_cons, h] at this ⊢
  exact this

/-! ### The resource kinds are lawful -/

theorem sameBut_refl (k : Kind) (c : Cluster) : sameBut k c c := by
  simp [sameBut]

theorem sameBut_trans (k : Kind) (c c1 c2 : Cluster) (h1 : sameBut k c c1)
    (h2 : sameBut k c1 c2) : sameBut k c c2 := by
  obtain ⟨a1, a2, a3, a4, a5, a6, a7, a8, a9, a10, a11⟩ := h1
  obtain ⟨b1, b2, b3, b4, b5, b6, b7, b8, b9, b10, b11⟩ := h2
  exact ⟨b1.trans a1, b2.trans a2, fun h => (b3 h).trans (a3 h), fun h => (b4 h).trans (a4 h),
    fun h => (b5 h).trans (a5 h), fun h => (b6 h).trans (a6 h), fun h => (b7 h).trans (a7 h),
    fun h => (b8 h).trans (a8 h), fun h => (b9 h).trans (a9 h), fun h => (b10 h).trans (a10 h),
    fun h => (b11 h).trans (a11 h)⟩

theorem sameBut_log (k : Kind) (c : Cluster) (lg : List Action) (n : Nat) :
    sameBut k c { c with log := lg, clock := n } := by
  simp [sameBut]

theorem serviceResource_lawful : serviceResource.Lawful :=
  ⟨fun _ _ => rfl, fun _ _ _ => rfl, fun _ _ => rfl, fun _ _ => by simp [sameBut, serviceResource],
    fun _ _ => rfl⟩

theorem ingressResource_lawful : ingressResource.Lawful :=
  ⟨fun _ _ => rfl, fun _ _ _ => rfl, fun _ _ => rfl, fun _ _ => by simp [sameBut, ingressResource],
    fun _ _ => rfl⟩

theorem vmResource_lawful : vmResource.Lawful :=
  ⟨fun _ _ => rfl, fun _ _ _ => rfl, fun _ _ => rfl, fun _ _ => by simp [sameBut, vmResource],
    fun _ _ => rfl⟩

theorem vmiResource_lawful : vmiResource.Lawful :=
  ⟨fun _ _ => rfl, fun _ _ _ => rfl, fun _ _ => rfl, fun _ _ => by simp [sameBut, vmiResource],
    fun _ _ => rfl⟩

/-! ### Reconcile: error propagation and the deferred status patch -/

theorem Reconcile_of_proceed (fg : Forge) (r : InstanceReconciler) (req : NamespacedName)
    (c c1 : Cluster) (inst : Instance) (template : Template) (tenant : Tenant)
    (hfetch : reconcileFetch fg r req c = .proceed c1 inst template tenant) :
    Reconcile fg r req c = reconcileEnforce fg r inst template c1 := by
  simp [Reconcile, hfetch]

/-- C1: when the enforcement returns an error `e`, the Instance held at return has
the phase CreationLoopBackoff if `e` is not a conflict and is the Instance as
the enforcement left it if `e` is a conflict; the result is empty; and unless
the final status patch fails, the error returned is `e`. -/
theorem C1_enforcement_error_phase_and_return (fg : Forge) (r : InstanceReconciler)
    (req : NamespacedName) (c c1 : Cluster) (inst : Instance) (template : Template)
    (tenant : Tenant) (e : Err)
    (hfetch : reconcileFetch fg r req c = .proceed c1 inst template tenant)
    (herr : (enforceEnvironments fg r template inst c1).err = some e) :
    (Reconcile fg r req c).inst
        = some (if IsConflict e then (enforceEnvironments fg r template inst c1).inst
          else { (enforceEnvironments fg r template inst c1).inst with
            Status := { (enforceEnvironments fg r template inst c1).inst.Status with
              Phase := .CreationLoopBackoff } })
      ∧ (Reconcile fg r req c).result = Result.empty
      ∧ ∀ updated, (Reconcile fg r req c).inst = some updated →
          (inst.Status = updated.Status ∨
            (clientStatusPatch inst updated
              (enforceEnvironments fg r template inst c1).cluster).2 = none) →
          (Reconcile fg r req c).err = some e := by
  rw [Reconcile_of_proceed fg r req c c1 inst template tenant hfetch]
  refine ⟨?_, rfl, ?_⟩
  · simp only [reconcileEnforce, afterEnforcement, herr]
    cases IsConflict e <;> simp
  · intro updated hupd hok
    simp only [reconcileEnforce, Option.some.injEq] at hupd
    simp only [reconcileEnforce, hupd, patchStatusDeferred, herr]
    rcases hok with heq | hpatch
    · simp [heq]
    · split
      · rcases hp : clientStatusPatch inst updated
          (enforceEnvironments fg r template inst c1).cluster with ⟨c2, e2⟩
        rw [hp] at hpatch
        simp only at hpatch
        subst hpatch
        rfl
      · rfl

/-- C1, witness: the Service read fails with an error that is not a conflict. -/
theorem C1_enforcement_error_phase_and_return_witness :
    reconcileFetch Sample.forge Sample.reconciler Sample.request
        (Sample.cluster true false false (Sample.failing .get .Service (.other 7)))
      = .proceed (Sample.fetched (Sample.cluster true false false
          (Sample.failing .get .Service (.other 7))))
          (Sample.inst true) (Sample.template [Sample.environment false false]) Sample.tenant
    ∧ (enforceEnvironments Sample.forge Sample.reconciler
        (Sample.template [Sample.environment false false]) (Sample.inst true)
        (Sample.fetched (Sample.cluster true false false
          (Sample.failing .get .Service (.other 7))))).err = some (.other 7)
    ∧ (Reconcile Sample.forge Sample.reconciler Sample.request
        (Sample.cluster true false false (Sample.failing .get .Service (.other 7)))).err
      = some (.other 7) :=
  ⟨rfl, rfl,
    (C1_enforcement_error_phase_and_return Sample.forge Sample.reconciler Sample.request
      (Sample.cluster true false false (Sample.failing .get .Service (.other 7)))
      (Sample.fetched (Sample.cluster true false false (Sample.failing .get .Service (.other 7))))
      (Sample.inst true) (Sample.template [Sample.environment false false]) Sample.tenant
      (.other 7) rfl rfl).2.2
      { Sample.inst true with Status := { (Sample.inst true).Status with
          Phase := .CreationLoopBackoff } }
      rfl (Or.inr rfl)⟩

theorem clientStatusPatch_log (original updated : Instance) (c : Cluster) :
    (clientStatusPatch original updated c).1.log = c.log ++ [statusPatchOf updated] := by
  unfold clientStatusPatch
  simp only [Cluster.record, statusPatchOf]
  split
  · rfl
  · split <;> rfl

theorem patchStatusDeferred_log (original updated : Instance) (c : Cluster) (err : Option Err) :
    (patchStatusDeferred original updated c err).1.log
      = c.log ++ (if updated.Status = original.Status then [] else [statusPatchOf updated]) := by
  unfold patchStatusDeferred
  by_cases h : original.Status = updated.Status
  · simp [h]
  · have h2 : ¬ updated.Status = original.Status := fun h3 => h h3.symm
    have hl := clientStatusPatch_log original updated c
    rcases hp : clientStatusPatch original updated c with ⟨c2, e2⟩
    rw [hp] at hl
    cases e2 <;> simp_all

/-- C2: in a run that reaches the enforcement step, the requests issued after the
enforcement are exactly one status patch when the status of the Instance at
return differs from the snapshot taken before the enforcement, and none when
it is equal: the count of status patches grows by one or by zero. -/
theorem C2_one_status_patch_iff_status_differs (fg : Forge) (r : InstanceReconciler)
    (req : NamespacedName) (c c1 : Cluster) (inst : Instance) (template : Template)
    (tenant : Tenant)
    (hfetch : reconcileFetch fg r req c = .proceed c1 inst template tenant) :
    ∃ updated, (Reconcile fg r req c).inst = some updated ∧
      (Reconcile fg r req c).cluster.log
        = (enforceEnvironments fg r template inst c1).cluster.log
          ++ (if updated.Status = inst.Status then [] else [statusPatchOf updated]) ∧
      (Reconcile fg r req c).cluster.log.countP isStatusPatch
        = (enforceEnvironments fg r template inst c1).cluster.log.countP isStatusPatch
          + (if updated.Status = inst.Status then 0 else 1) := by
  rw [Reconcile_of_proceed fg r req c c1 inst template tenant hfetch]
  refine ⟨afterEnforcement (enforceEnvironments fg r template inst c1), rfl, ?_, ?_⟩
  · simp only [reconcileEnforce]
    exact patchStatusDeferred_log _ _ _ _
  · simp only [reconcileEnforce]
    rw [patchStatusDeferred_log, List.countP_append]
    split <;> simp [statusPatchOf, isStatusPatch]

/-- C2, witness: a run without failures, in which the enforcement sets `status.ip`. -/
theorem C2_one_status_patch_iff_status_differs_witness :
    reconcileFetch Sample.forge Sample.reconciler Sample.request
        (Sample.cluster true false false Sample.noFaults)
      = .proceed (Sample.fetched (Sample.cluster true false false Sample.noFaults))
          (Sample.inst true) (Sample.template [Sample.environment false false]) Sample.tenant
    ∧ ∃ updated, (Reconcile Sample.forge Sample.reconciler Sample.request
        (Sample.cluster true false false Sample.noFaults)).inst = some updated ∧
      (Reconcile Sample.forge Sample.reconciler Sample.request
          (Sample.cluster true false false Sample.noFaults)).cluster.log
        = (enforceEnvironments Sample.forge Sample.reconciler
            (Sample.template [Sample.environment false false]) (Sample.inst true)
            (Sample.fetched (Sample.cluster true false false Sample.noFaults))).cluster.log
          ++ (if updated.Status = (Sample.inst true).Status then [] else [statusPatchOf updated]) ∧
      (Reconcile Sample.forge Sample.reconciler Sample.request
          (Sample.cluster true false false Sample.noFaults)).cluster.log.countP isStatusPatch
        = (enforceEnvironments Sample.forge Sample.reconciler
            (Sample.template [Sample.environment false false]) (Sample.inst true)
            (Sample.fetched (Sample.cluster true false false
              Sample.noFaults))).cluster.log.countP isStatusPatch
          + (if updated.Status = (Sample.inst true).Status then 0 else 1) :=
  ⟨rfl, C2_one_status_patch_iff_status_differs Sample.forge Sample.reconciler Sample.request
    (Sample.cluster true false false Sample.noFaults)
    (Sample.fetched (Sample.cluster true false false Sample.noFaults))
    (Sample.inst true) (Sample.template [Sample.environment false false]) Sample.tenant rfl⟩

/-- C3, as stated, fails: the VirtualMachineInstance update is answered with a
conflict after the enforcement has set `status.ip`; Reconcile returns the
conflict, and still issues the status patch, which stores the address. -/
theorem C3_conflict_still_patches_counterexample :
    (enforceEnvironments Sample.forge Sample.reconciler
        (Sample.template [Sample.environment false false]) (Sample.inst true)
        (Sample.fetched (Sample.withVMI (Sample.cluster true false false
          (Sample.failing .update .VirtualMachineInstance .conflict))))).err = some .conflict
    ∧ (Reconcile Sample.forge Sample.reconciler Sample.request
        (Sample.withVMI (Sample.cluster true false false
          (Sample.failing .update .VirtualMachineInstance .conflict)))).err = some .conflict
    ∧ (Reconcile Sample.forge Sample.reconciler Sample.request
        (Sample.withVMI (Sample.cluster true false false
          (Sample.failing .update .VirtualMachineInstance .conflict)))).cluster.log.countP
        isStatusPatch = 1
    ∧ (Sample.inst true).Status.IP = ""
    ∧ (Reconcile Sample.forge Sample.reconciler Sample.request
        (Sample.withVMI (Sample.cluster true false false
          (Sample.failing .update .VirtualMachineInstance .conflict)))).cluster.instances.map
        (fun i => i.Status.IP) = ["10.96.0.10"] := by
  refine ⟨rfl, rfl, ?_, rfl, rfl⟩
  decide

/-- C3, amended: when the enforcement fails with a conflict, Reconcile leaves the
Instance as the enforcement left it (no failure phase), and still issues one
status patch exactly when that status differs from the snapshot. -/
theorem C3_conflict_no_phase_but_patch (fg : Forge) (r : InstanceReconciler)
    (req : NamespacedName) (c c1 : Cluster) (inst : Instance) (template : Template)
    (tenant : Tenant) (e : Err)
    (hfetch : reconcileFetch fg r req c = .proceed c1 inst template tenant)
    (herr : (enforceEnvironments fg r template inst c1).err = some e)
    (hconflict : IsConflict e = true) :
    (Reconcile fg r req c).inst = some (enforceEnvironments fg r template inst c1).inst
      ∧ (Reconcile fg r req c).cluster.log
        = (enforceEnvironments fg r template inst c1).cluster.log
          ++ (if (enforceEnvironments fg r template inst c1).inst.Status = inst.Status then []
              else [statusPatchOf (enforceEnvironments fg r template inst c1).inst]) := by
  rw [Reconcile_of_proceed fg r req c c1 inst template tenant hfetch]
  have hupd : afterEnforcement (enforceEnvironments fg r template inst c1)
      = (enforceEnvironments fg r template inst c1).inst := by
    simp [afterEnforcement, herr, hconflict]
  refine ⟨?_, ?_⟩
  · simp only [reconcileEnforce, hupd]
  · simp only [reconcileEnforce]
    rw [patchStatusDeferred_log, hupd]

/-- C3 amended, witness: the conflict of the counterexample. -/
theorem C3_conflict_no_phase_but_patch_witness :
    reconcileFetch Sample.forge Sample.reconciler Sample.request
        (Sample.withVMI (Sample.cluster true false false
          (Sample.failing .update .VirtualMachineInstance .conflict)))
      = .proceed (Sample.fetched (Sample.withVMI (Sample.cluster true false false
          (Sample.failing .update .VirtualMachineInstance .conflict))))
          (Sample.inst true) (Sample.template [Sample.environment false false]) Sample.tenant
    ∧ (enforceEnvironments Sample.forge Sample.reconciler
        (Sample.template [Sample.environment false false]) (Sample.inst true)
        (Sample.fetched (Sample.withVMI (Sample.cluster true false false
          (Sample.failing .update .VirtualMachineInstance .conflict))))).err = some .conflict
    ∧ IsConflict .conflict = true
    ∧ (Reconcile Sample.forge Sample.reconciler Sample.request
        (Sample.withVMI (Sample.cluster true false false
          (Sample.failing .update .VirtualMachineInstance .conflict)))).inst
      = some (enforceEnvironments Sample.forge Sample.reconciler
        (Sample.template [Sample.environment false false]) (Sample.inst true)
        (Sample.fetched (Sample.withVMI (Sample.cluster true false false
          (Sample.failing .update .VirtualMachineInstance .conflict))))).inst :=
  ⟨rfl, rfl, rfl,
    (C3_conflict_no_phase_but_patch Sample.forge Sample.reconciler Sample.request
      (Sample.withVMI (Sample.cluster true false false
        (Sample.failing .update .VirtualMachineInstance .conflict)))
      (Sample.fetched (Sample.withVMI (Sample.cluster true false false
        (Sample.failing .update .VirtualMachineInstance .conflict))))
      (Sample.inst true) (Sample.template [Sample.environment false false]) Sample.tenant
      .conflict rfl rfl rfl).1⟩

/-- C4: when the final status patch is issued and fails with `p`, Reconcile returns
`p`, whatever the enforcement returned (nothing, or another error). -/
theorem C4_status_patch_failure_is_returned (fg : Forge) (r : InstanceReconciler)
    (req : NamespacedName) (c c1 : Cluster) (inst updated : Instance) (template : Template)
    (tenant : Tenant) (p : Err)
    (hfetch : reconcileFetch fg r req c = .proceed c1 inst template tenant)
    (hupd : (Reconcile fg r req c).inst = some updated)
    (hdiff : inst.Status ≠ updated.Status)
    (hfail : (clientStatusPatch inst updated
      (enforceEnvironments fg r template inst c1).cluster).2 = some p) :
    (Reconcile fg r req c).err = some p := by
  rw [Reconcile_of_proceed fg r req c c1 inst template tenant hfetch] at hupd ⊢
  simp only [reconcileEnforce, Option.some.injEq] at hupd
  simp only [reconcileEnforce, hupd, patchStatusDeferred, if_pos hdiff]
  rcases hp : clientStatusPatch inst updated
    (enforceEnvironments fg r template inst c1).cluster with ⟨c2, e2⟩
  rw [hp] at hfail
  simp only at hfail
  subst hfail
  rfl

/-- C4, witness: the enforcement fails with error 7 (not a conflict), the status
patch of the failure phase fails with error 9, and 9 is what Reconcile returns. -/
theorem C4_status_patch_failure_is_returned_witness :
    reconcileFetch Sample.forge Sample.reconciler Sample.request
        (Sample.cluster true false false (Sample.failingTwice (.other 7) (.other 9)))
      = .proceed (Sample.fetched (Sample.cluster true false false
          (Sample.failingTwice (.other 7) (.other 9))))
          (Sample.inst true) (Sample.template [Sample.environment false false]) Sample.tenant
    ∧ (enforceEnvironments Sample.forge Sample.reconciler
        (Sample.template [Sample.environment false false]) (Sample.inst true)
        (Sample.fetched (Sample.cluster true false false
          (Sample.failingTwice (.other 7) (.other 9))))).err = some (.other 7)
    ∧ (Reconcile Sample.forge Sample.reconciler Sample.request
        (Sample.cluster true false false (Sample.failingTwice (.other 7) (.other 9)))).err
      = some (.other 9) :=
  ⟨rfl, rfl,
    C4_status_patch_failure_is_returned Sample.forge Sample.reconciler Sample.request
      (Sample.cluster true false false (Sample.failingTwice (.other 7) (.other 9)))
      (Sample.fetched (Sample.cluster true false false
        (Sample.failingTwice (.other 7) (.other 9))))
      (Sample.inst true)
      { Sample.inst true with Status := { (Sample.inst true).Status with
          Phase := .CreationLoopBackoff } }
      (Sample.template [Sample.environment false false]) Sample.tenant (.other 9)
      rfl rfl (by decide) rfl⟩

/-! ### CreateOrUpdate -/

theorem mutate_ok {α : Type} (R : Resource α) (f : α → α × Option Err) (ns n : String) (x o : α)
    (h : mutate R f ns n x = (o, none)) :
    f x = (o, none) ∧ hasKey (R.metaOf o) ns n = true := by
  unfold mutate at h
  rcases hf : f x with ⟨o1, _ | e⟩
  · rw [hf] at h
    simp only at h
    split at h
    · rename_i hk
      simp only [Prod.mk.injEq, and_true] at h
      subst h
      exact ⟨rfl, hk⟩
    · simp at h
  · rw [hf] at h
    simp at h

/-- The outcomes of `CreateOrUpdate` on the store of its own kind. -/
theorem CreateOrUpdate_cases {α : Type} [DecidableEq α] (R : Resource α) (hR : R.Lawful) (obj : α)
    (f : α → α × Option Err) (c : Cluster) :
    ((CreateOrUpdate R obj f c).err ≠ none ∧
      R.list (CreateOrUpdate R obj f c).cluster = R.list c)
    ∨ ((CreateOrUpdate R obj f c).err = none ∧
      lookup R.metaOf (R.metaOf obj).Namespace (R.metaOf obj).Name (R.list c) = none ∧
      ∃ o, f obj = (o, none) ∧
        hasKey (R.metaOf o) (R.metaOf obj).Namespace (R.metaOf obj).Name = true ∧
        (CreateOrUpdate R obj f c).obj
          = R.setMeta { R.metaOf o with CreationTimestamp := c.clock + 1 }
              (R.serverDefaults (c.record (.api .get R.kind (R.metaOf obj).Namespace
                (R.metaOf obj).Name)) o) ∧
        (CreateOrUpdate R obj f c).res = .Created ∧
        R.list (CreateOrUpdate R obj f c).cluster
          = store R.metaOf (CreateOrUpdate R obj f c).obj (R.list c))
    ∨ ((CreateOrUpdate R obj f c).err = none ∧
      ∃ existing,
        lookup R.metaOf (R.metaOf obj).Namespace (R.metaOf obj).Name (R.list c) = some existing ∧
        f existing = ((CreateOrUpdate R obj f c).obj, none) ∧
        hasKey (R.metaOf (CreateOrUpdate R obj f c).obj) (R.metaOf obj).Namespace
          (R.metaOf obj).Name = true ∧
        ((existing = (CreateOrUpdate R obj f c).obj ∧
            R.list (CreateOrUpdate R obj f c).cluster = R.list c)
          ∨ (existing ≠ (CreateOrUpdate R obj f c).obj ∧
            R.list (CreateOrUpdate R obj f c).cluster
              = store R.metaOf (CreateOrUpdate R obj f c).obj (R.list c)))) := by
  unfold CreateOrUpdate
  simp only [clientGet]
  have hcreate : ∀ c1 : Cluster, c1 = c.record (.api .get R.kind (R.metaOf obj).Namespace
      (R.metaOf obj).Name) → ∀ o, f obj = (o, none) →
      hasKey (R.metaOf o) (R.metaOf obj).Namespace (R.metaOf obj).Name = true →
      (∃ e2, (clientCreate R o c1).2 = .error e2 ∧ R.list (clientCreate R o c1).1 = R.list c)
      ∨ (lookup R.metaOf (R.metaOf obj).Namespace (R.metaOf obj).Name (R.list c) = none ∧
        (clientCreate R o c1).2 = .ok (R.setMeta { R.metaOf o with CreationTimestamp := c.clock + 1 }
              (R.serverDefaults c1 o)) ∧
        R.list (clientCreate R o c1).1 = store R.metaOf
          (R.setMeta { R.metaOf o with CreationTimestamp := c.clock + 1 }
              (R.serverDefaults c1 o)) (R.list c)) := by
    intro c1 hc1 o _ hk
    rw [hasKey_iff] at hk
    have hl1 : R.list c1 = R.list c := by rw [hc1]; exact hR.list_log _ _ _
    unfold clientCreate
    simp only [hk.1, hk.2, hl1]
    cases c1.faults .create R.kind (R.metaOf obj).Namespace (R.metaOf obj).Name with
    | some e => left; exact ⟨e, rfl, by simp [Cluster.record, hR.list_log, hl1]⟩
    | none =>
      cases hl : lookup R.metaOf (R.metaOf obj).Namespace (R.metaOf obj).Name (R.list c) with
      | some x => left; exact ⟨.alreadyExists, rfl, by simp [Cluster.record, hR.list_log, hl1]⟩
      | none =>
        right
        refine ⟨rfl, ?_, ?_⟩
        · simp [hc1, Cluster.record]
        · simp [hc1, Cluster.record, hR.list_setList, hR.list_log]
  cases hg : c.faults .get R.kind (R.metaOf obj).Namespace (R.metaOf obj).Name with
  | some e =>
    simp only
    cases hnf : IsNotFound e with
    | false => left; simp [Cluster.record, hR.list_log]
    | true =>
      simp only [Bool.not_true, Bool.false_eq_true, if_false]
      rcases hm : mutate R f (R.metaOf obj).Namespace (R.metaOf obj).Name obj with ⟨o, _ | e1⟩
      · obtain ⟨hf, hk⟩ := mutate_ok R f _ _ _ _ hm
        simp only
        rcases hcreate _ rfl o hf hk with ⟨e2, he2, hl2⟩ | ⟨hl, hok, hst⟩
        · left
          rcases hcc : clientCreate R o (c.record (.api .get R.kind (R.metaOf obj).Namespace
            (R.metaOf obj).Name)) with ⟨c2, _ | _⟩
          · rw [hcc] at hl2; simpa using hl2
          · rw [hcc] at he2; simp at he2
        · right; left
          rcases hcc : clientCreate R o (c.record (.api .get R.kind (R.metaOf obj).Namespace
            (R.metaOf obj).Name)) with ⟨c2, _ | stored⟩
          · rw [hcc] at hok; simp at hok
          · rw [hcc] at hok hst
            simp only [Except.ok.injEq] at hok
            subst hok
            exact ⟨rfl, hl, o, hf, hk, rfl, rfl, hst⟩
      · left; simp [Cluster.record, hR.list_log]
  | none =>
    simp only
    cases hl : lookup R.metaOf (R.metaOf obj).Namespace (R.metaOf obj).Name (R.list c) with
    | none =>
      simp only [IsNotFound, Bool.not_true, Bool.false_eq_true, if_false]
      rcases hm : mutate R f (R.metaOf obj).Namespace (R.metaOf obj).Name obj with ⟨o, _ | e1⟩
      · obtain ⟨hf, hk⟩ := mutate_ok R f _ _ _ _ hm
        simp only
        rcases hcreate _ rfl o hf hk with ⟨e2, he2, hl2⟩ | ⟨hl, hok, hst⟩
        · left
          rcases hcc : clientCreate R o (c.record (.api .get R.kind (R.metaOf obj).Namespace
            (R.metaOf obj).Name)) with ⟨c2, _ | _⟩
          · rw [hcc] at hl2; simpa using hl2
          · rw [hcc] at he2; simp at he2
        · right; left
          rcases hcc : clientCreate R o (c.record (.api .get R.kind (R.metaOf obj).Namespace
            (R.metaOf obj).Name)) with ⟨c2, _ | stored⟩
          · rw [hcc] at hok; simp at hok
          · rw [hcc] at hok hst
            simp only [Except.ok.injEq] at hok
            subst hok
            exact ⟨by trivial, by trivial, o, hf, hk, rfl, rfl, hst⟩
      · left; simp [Cluster.record, hR.list_log]
    | some existing =>
      simp only
      rcases hm : mutate R f (R.metaOf obj).Namespace (R.metaOf obj).Name existing with ⟨o, _ | e1⟩
      · obtain ⟨hf, hk⟩ := mutate_ok R f _ _ _ _ hm
        simp only
        by_cases heq : existing = o
        · right; right
          subst heq
          simp only [if_true]
          exact ⟨by trivial, existing, by trivial, hf, hk,
            Or.inl ⟨rfl, by simp [Cluster.record, hR.list_log]⟩⟩
        · simp only [heq, if_false]
          have hk2 := (hasKey_iff _ _ _).1 hk
          unfold clientUpdate
          simp only [hk2.1, hk2.2, Cluster.record, hR.list_log, hl]
          cases c.faults .update R.kind (R.metaOf obj).Namespace (R.metaOf obj).Name with
          | some e => left; simp [hR.list_log]
          | none =>
            right; right
            simp only
            exact ⟨by trivial, existing, by trivial, hf, hk,
              Or.inr ⟨heq, by simp [hR.list_setList, hR.list_log]⟩⟩
      · left; simp [Cluster.record, hR.list_log]

theorem clientGet_fst {α : Type} (R : Resource α) (ns n : String) (c : Cluster) :
    (clientGet R ns n c).1 = c.record (.api .get R.kind ns n) := by
  unfold clientGet
  split
  · rfl
  · split <;> rfl

theorem clientCreate_sameBut {α : Type} (R : Resource α) (hR : R.Lawful) (o : α) (c : Cluster) :
    sameBut R.kind c (clientCreate R o c).1 := by
  unfold clientCreate
  simp only [Cluster.record]
  split
  · exact sameBut_log _ _ _ _
  · split
    · exact sameBut_log _ _ _ _
    · exact sameBut_trans _ _ _ _ (sameBut_log _ c (c.log ++ [.api .create R.kind
        (R.metaOf o).Namespace (R.metaOf o).Name]) (c.clock + 1)) (hR.sameBut_setList _ _)

theorem clientUpdate_sameBut {α : Type} (R : Resource α) (hR : R.Lawful) (o : α) (c : Cluster) :
    sameBut R.kind c (clientUpdate R o c).1 := by
  unfold clientUpdate
  simp only [Cluster.record]
  split
  · exact sameBut_log _ _ _ _
  · split
    · exact sameBut_log _ _ _ _
    · exact sameBut_trans _ _ _ _ (sameBut_log _ c (c.log ++ [.api .update R.kind
        (R.metaOf o).Namespace (R.metaOf o).Name]) c.clock) (hR.sameBut_setList _ _)

theorem clientDelete_sameBut {α : Type} (R : Resource α) (hR : R.Lawful) (ns n : String)
    (c : Cluster) : sameBut R.kind c (clientDelete R ns n c).1 := by
  unfold clientDelete
  simp only [Cluster.record]
  split
  · exact sameBut_log _ _ _ _
  · split
    · exact sameBut_log _ _ _ _
    · exact sameBut_trans _ _ _ _ (sameBut_log _ c (c.log ++ [.api .delete R.kind ns n]) c.clock)
        (hR.sameBut_setList _ _)

/-- `CreateOrUpdate` leaves the stores of the other kinds alone. -/
theorem CreateOrUpdate_sameBut {α : Type} [DecidableEq α] (R : Resource α) (hR : R.Lawful)
    (obj : α) (f : α → α × Option Err) (c : Cluster) :
    sameBut R.kind c (CreateOrUpdate R obj f c).cluster := by
  have hget : sameBut R.kind c (c.record (.api .get R.kind (R.metaOf obj).Namespace
      (R.metaOf obj).Name)) := sameBut_log _ _ _ _
  have h1 := clientGet_fst R (R.metaOf obj).Namespace (R.metaOf obj).Name c
  unfold CreateOrUpdate
  simp only
  rcases hg : clientGet R (R.metaOf obj).Namespace (R.metaOf obj).Name c with ⟨c1, e | existing⟩
  · rw [hg] at h1
    simp only at h1
    subst h1
    simp only
    split
    · exact hget
    · rcases mutate R f (R.metaOf obj).Namespace (R.metaOf obj).Name obj with ⟨o, _ | e1⟩
      · simp only
        have h2 := clientCreate_sameBut R hR o (c.record (.api .get R.kind
          (R.metaOf obj).Namespace (R.metaOf obj).Name))
        rcases hcc : clientCreate R o (c.record (.api .get R.kind (R.metaOf obj).Namespace
          (R.metaOf obj).Name)) with ⟨c2, _ | _⟩
        · rw [hcc] at h2; exact sameBut_trans _ _ _ _ hget h2
        · rw [hcc] at h2; exact sameBut_trans _ _ _ _ hget h2
      · exact hget
  · rw [hg] at h1
    simp only at h1
    subst h1
    simp only
    rcases mutate R f (R.metaOf obj).Namespace (R.metaOf obj).Name existing with ⟨o, _ | e1⟩
    · simp only
      split
      · exact hget
      · have h2 := clientUpdate_sameBut R hR o (c.record (.api .get R.kind
          (R.metaOf obj).Namespace (R.metaOf obj).Name))
        rcases hcc : clientUpdate R o (c.record (.api .get R.kind (R.metaOf obj).Namespace
          (R.metaOf obj).Name)) with ⟨c2, _ | _⟩
        · rw [hcc] at h2; exact sameBut_trans _ _ _ _ hget h2
        · rw [hcc] at h2; exact sameBut_trans _ _ _ _ hget h2
    · exact hget

theorem clientCreate_log {α : Type} (R : Resource α) (hR : R.Lawful) (o : α) (c : Cluster) :
    (clientCreate R o c).1.log
      = c.log ++ [.api .create R.kind (R.metaOf o).Namespace (R.metaOf o).Name] := by
  unfold clientCreate
  simp only [Cluster.record]
  split
  · rfl
  · split
    · rfl
    · rw [hR.log_setList]

theorem clientUpdate_log {α : Type} (R : Resource α) (hR : R.Lawful) (o : α) (c : Cluster) :
    (clientUpdate R o c).1.log
      = c.log ++ [.api .update R.kind (R.metaOf o).Namespace (R.metaOf o).Name] := by
  unfold clientUpdate
  simp only [Cluster.record]
  split
  · rfl
  · split
    · rfl
    · rw [hR.log_setList]

theorem clientDelete_log {α : Type} (R : Resource α) (hR : R.Lawful) (ns n : String)
    (c : Cluster) : (clientDelete R ns n c).1.log = c.log ++ [.api .delete R.kind ns n] := by
  unfold clientDelete
  simp only [Cluster.record]
  split
  · rfl
  · split
    · rfl
    · rw [hR.log_setList]

/-- Every request `CreateOrUpdate` issues is about the kind of its object. -/
theorem CreateOrUpdate_log {α : Type} [DecidableEq α] (R : Resource α) (hR : R.Lawful)
    (obj : α) (f : α → α × Option Err) (c : Cluster) :
    ∃ acts, (CreateOrUpdate R obj f c).cluster.log = c.log ++ acts
      ∧ ∀ a ∈ acts, Action.onKind a R.kind = true := by
  have h1 := clientGet_fst R (R.metaOf obj).Namespace (R.metaOf obj).Name c
  have hget : ∃ acts, (c.record (.api .get R.kind (R.metaOf obj).Namespace
      (R.metaOf obj).Name)).log = c.log ++ acts ∧ ∀ a ∈ acts, Action.onKind a R.kind = true :=
    ⟨[.api .get R.kind (R.metaOf obj).Namespace (R.metaOf obj).Name], rfl, by
      simp [Action.onKind]⟩
  unfold CreateOrUpdate
  simp only
  rcases hg : clientGet R (R.metaOf obj).Namespace (R.metaOf obj).Name c with ⟨c1, e | existing⟩
  · rw [hg] at h1
    simp only at h1
    subst h1
    simp only
    split
    · exact hget
    · rcases mutate R f (R.metaOf obj).Namespace (R.metaOf obj).Name obj with ⟨o, _ | e1⟩
      · simp only
        have h2 := clientCreate_log R hR o (c.record (.api .get R.kind
          (R.metaOf obj).Namespace (R.metaOf obj).Name))
        have h3 : ∃ acts, (clientCreate R o (c.record (.api .get R.kind
            (R.metaOf obj).Namespace (R.metaOf obj).Name))).1.log = c.log ++ acts
            ∧ ∀ a ∈ acts, Action.onKind a R.kind = true :=
          ⟨[.api .get R.kind (R.metaOf obj).Namespace (R.metaOf obj).Name,
            .api .create R.kind (R.metaOf o).Namespace (R.metaOf o).Name], by
              rw [h2]; simp [Cluster.record], by simp [Action.onKind]⟩
        rcases hcc : clientCreate R o (c.record (.api .get R.kind (R.metaOf obj).Namespace
          (R.metaOf obj).Name)) with ⟨c2, _ | _⟩
        · rw [hcc] at h3; exact h3
        · rw [hcc] at h3; exact h3
      · exact hget
  · rw [hg] at h1
    simp only at h1
    subst h1
    simp only
    rcases mutate R f (R.metaOf obj).Namespace (R.metaOf obj).Name existing with ⟨o, _ | e1⟩
    · simp only
      split
      · exact hget
      · have h2 := clientUpdate_log R hR o (c.record (.api .get R.kind
          (R.metaOf obj).Namespace (R.metaOf obj).Name))
        have h3 : ∃ acts, (clientUpdate R o (c.record (.api .get R.kind
            (R.metaOf obj).Namespace (R.metaOf obj).Name))).1.log = c.log ++ acts
            ∧ ∀ a ∈ acts, Action.onKind a R.kind = true :=
          ⟨[.api .get R.kind (R.metaOf obj).Namespace (R.metaOf obj).Name,
            .api .update R.kind (R.metaOf o).Namespace (R.metaOf o).Name], by
              rw [h2]; simp [Cluster.record], by simp [Action.onKind]⟩
        rcases hcc : clientUpdate R o (c.record (.api .get R.kind (R.metaOf obj).Namespace
          (R.metaOf obj).Name)) with ⟨c2, _ | _⟩
        · rw [hcc] at h3; exact h3
        · rw [hcc] at h3; exact h3
    · exact hget

/-- A property of stored objects that the mutate function keeps is kept by
`CreateOrUpdate` for every stored object, whatever the outcome. -/
theorem CreateOrUpdate_preserves {α : Type} [DecidableEq α] (R : Resource α) (hR : R.Lawful)
    (obj : α) (f : α → α × Option Err) (c : Cluster) (Q : α → Prop)
    (hf : ∀ x o, Q x → f x = (o, none) → Q o) (ns n : String) (x : α)
    (hx : lookup R.metaOf ns n (R.list c) = some x) (hQ : Q x) :
    ∃ y, lookup R.metaOf ns n (R.list (CreateOrUpdate R obj f c).cluster) = some y ∧ Q y := by
  have key : ∀ y : α, hasKey (R.metaOf y) (R.metaOf obj).Namespace (R.metaOf obj).Name = true →
      ¬ (ns = (R.metaOf obj).Namespace ∧ n = (R.metaOf obj).Name) →
      hasKey (R.metaOf y) ns n = false := by
    intro y hy hne
    rw [Bool.eq_false_iff]
    intro hy2
    rw [hasKey_iff] at hy hy2
    exact hne ⟨hy2.1.symm.trans hy.1, hy2.2.symm.trans hy.2⟩
  rcases CreateOrUpdate_cases R hR obj f c with ⟨_, hl⟩ | ⟨_, hnone, o, _, hk, hobj, _, hl⟩
      | ⟨_, existing, hex, hfe, hk, ⟨_, hl⟩ | ⟨_, hl⟩⟩
  · rw [hl]; exact ⟨x, hx, hQ⟩
  · rw [hl]
    have hk2 : hasKey (R.metaOf (CreateOrUpdate R obj f c).obj) (R.metaOf obj).Namespace
        (R.metaOf obj).Name = true := by
      rw [hobj, hR.metaOf_setMeta]
      rw [hasKey_iff] at hk ⊢
      exact hk
    have hne : ¬ (ns = (R.metaOf obj).Namespace ∧ n = (R.metaOf obj).Name) := by
      rintro ⟨h1, h2⟩
      rw [h1, h2, hnone] at hx
      exact Option.noConfusion hx
    rw [lookup_store_other _ _ _ _ _ (key _ hk2 hne)]
    exact ⟨x, hx, hQ⟩
  · rw [hl]; exact ⟨x, hx, hQ⟩
  · rw [hl]
    by_cases hne : ns = (R.metaOf obj).Namespace ∧ n = (R.metaOf obj).Name
    · obtain ⟨h1, h2⟩ := hne
      subst h1 h2
      rw [hex] at hx
      simp only [Option.some.injEq] at hx
      subst hx
      rw [lookup_store_same _ _ _ _ _ hk]
      exact ⟨_, rfl, hf _ _ hQ hfe⟩
    · rw [lookup_store_other _ _ _ _ _ (key _ hk hne)]
      exact ⟨x, hx, hQ⟩

/-! ### virtualmachines.go -/

theorem SetControllerReference_frame (owner : Instance) (m : ObjectMeta) :
    (SetControllerReference owner m).1.CreationTimestamp = m.CreationTimestamp
      ∧ (SetControllerReference owner m).1.Name = m.Name
      ∧ (SetControllerReference owner m).1.Namespace = m.Namespace
      ∧ (SetControllerReference owner m).1.Labels = m.Labels
      ∧ (SetControllerReference owner m).1.Annotations = m.Annotations := by
  unfold SetControllerReference
  split
  · simp
  · split
    · split <;> simp
    · simp

theorem vmMutate_spec (fg : Forge) (inst : Instance) (env : Environment) (vm : VirtualMachine) :
    (vmMutate fg inst env vm).1.Spec
      = if vm.metadata.CreationTimestamp = 0
        then { fg.VirtualMachineSpec inst env with Running := some inst.Spec.Running }
        else { vm.Spec with Running := some inst.Spec.Running } := by
  unfold vmMutate
  split <;> rfl

theorem enforceVirtualMachine_eq (fg : Forge) (r : InstanceReconciler) (env : Environment)
    (inst : Instance) (c : Cluster) :
    (enforceVirtualMachine fg r env inst c).err
        = (CreateOrUpdate vmResource
            { metadata := fg.ObjectMeta inst, Spec := { Running := none, Rest := "" },
              Status := { PrintableStatus := "" } } (vmMutate fg inst env) c).err
      ∧ (enforceVirtualMachine fg r env inst c).cluster
        = (CreateOrUpdate vmResource
            { metadata := fg.ObjectMeta inst, Spec := { Running := none, Rest := "" },
              Status := { PrintableStatus := "" } } (vmMutate fg inst env) c).cluster := by
  unfold enforceVirtualMachine
  simp only
  split
  · rename_i h; simp [h]
  · rename_i h; simp [h]

/-- C6: after a successful `enforceVirtualMachine`, a VirtualMachine that existed
(non-zero creation timestamp) has its spec unchanged but for the running flag,
which equals `instance.spec.running`; a VirtualMachine that did not exist is
stored with `forge.VirtualMachineSpec(instance, environment)` and that running
flag. -/
theorem C6_vm_spec_frozen_but_running (fg : Forge) (r : InstanceReconciler) (env : Environment)
    (inst : Instance) (c : Cluster)
    (hok : (enforceVirtualMachine fg r env inst c).err = none) :
    (∀ existing, c.vm (fg.ObjectMeta inst) = some existing →
        existing.metadata.CreationTimestamp ≠ 0 →
        ∃ vm, (enforceVirtualMachine fg r env inst c).cluster.vm (fg.ObjectMeta inst) = some vm
          ∧ vm.Spec = { existing.Spec with Running := some inst.Spec.Running })
      ∧ (c.vm (fg.ObjectMeta inst) = none →
        ∃ vm, (enforceVirtualMachine fg r env inst c).cluster.vm (fg.ObjectMeta inst) = some vm
          ∧ vm.Spec = { fg.VirtualMachineSpec inst env with Running := some inst.Spec.Running }) := by
  obtain ⟨herr, hcl⟩ := enforceVirtualMachine_eq fg r env inst c
  rw [herr] at hok
  rw [hcl]
  simp only [Cluster.vm]
  rcases CreateOrUpdate_cases vmResource vmResource_lawful
      { metadata := fg.ObjectMeta inst, Spec := { Running := none, Rest := "" },
        Status := { PrintableStatus := "" } } (vmMutate fg inst env) c with
    ⟨hne, _⟩ | ⟨_, hnone, o, hfo, hk, hobj, _, hl⟩ | ⟨_, ex, hex, hfe, hk, hcase⟩
  · exact absurd hok hne
  · refine ⟨fun existing hex _ => ?_, fun _ => ?_⟩
    · have hnone2 : lookup vmResource.metaOf (fg.ObjectMeta inst).Namespace
          (fg.ObjectMeta inst).Name c.virtualMachines = none := hnone
      rw [hnone2] at hex
      exact Option.noConfusion hex
    · have hl2 : (CreateOrUpdate vmResource
            { metadata := fg.ObjectMeta inst, Spec := { Running := none, Rest := "" },
              Status := { PrintableStatus := "" } }
            (vmMutate fg inst env) c).cluster.virtualMachines = _ := hl
      rw [hl2]
      have hk2 : hasKey (vmResource.metaOf (CreateOrUpdate vmResource
            { metadata := fg.ObjectMeta inst, Spec := { Running := none, Rest := "" },
              Status := { PrintableStatus := "" } }
            (vmMutate fg inst env) c).obj) (fg.ObjectMeta inst).Namespace
            (fg.ObjectMeta inst).Name = true := by
        rw [hobj, vmResource_lawful.metaOf_setMeta]
        rw [hasKey_iff] at hk ⊢
        exact hk
      refine ⟨_, lookup_store_same _ _ _ _ _ hk2, ?_⟩
      rw [hobj]
      have hs := vmMutate_spec fg inst env
        { metadata := fg.ObjectMeta inst, Spec := { Running := none, Rest := "" },
          Status := { PrintableStatus := "" } }
      rw [hfo] at hs
      simp only [Forge.ObjectMeta, NamespacedNameToObjectMeta, if_true] at hs
      exact hs
  · have hs := vmMutate_spec fg inst env ex
    rw [hfe] at hs
    simp only at hs
    have hex2 : lookup vmResource.metaOf (fg.ObjectMeta inst).Namespace
        (fg.ObjectMeta inst).Name c.virtualMachines = some ex := hex
    refine ⟨fun existing hexi hct => ?_, fun hnone => ?_⟩
    · rw [hex2] at hexi
      simp only [Option.some.injEq] at hexi
      subst hexi
      rw [if_neg hct] at hs
      rcases hcase with ⟨heq, hl⟩ | ⟨_, hl⟩
      · have hl2 : (CreateOrUpdate vmResource
            { metadata := fg.ObjectMeta inst, Spec := { Running := none, Rest := "" },
              Status := { PrintableStatus := "" } }
            (vmMutate fg inst env) c).cluster.virtualMachines = c.virtualMachines := hl
        rw [hl2, hex2]
        exact ⟨ex, rfl, by rw [← heq] at hs; exact hs⟩
      · have hl2 : (CreateOrUpdate vmResource
            { metadata := fg.ObjectMeta inst, Spec := { Running := none, Rest := "" },
              Status := { PrintableStatus := "" } }
            (vmMutate fg inst env) c).cluster.virtualMachines = _ := hl
        rw [hl2]
        exact ⟨_, lookup_store_same _ _ _ _ _ hk, hs⟩
    · rw [hex2] at hnone
      exact Option.noConfusion hnone

/-! ### exposition.go: what it leaves alone -/

theorem sameButExposition_refl (c : Cluster) : sameButExposition c c := by
  simp [sameButExposition]

theorem sameButExposition_trans (c c1 c2 : Cluster) (h1 : sameButExposition c c1)
    (h2 : sameButExposition c1 c2) : sameButExposition c c2 := by
  obtain ⟨a1, a2, a3, a4, a5, a6, a7, a8, a9⟩ := h1
  obtain ⟨b1, b2, b3, b4, b5, b6, b7, b8, b9⟩ := h2
  exact ⟨b1.trans a1, b2.trans a2, b3.trans a3, b4.trans a4, b5.trans a5, b6.trans a6,
    b7.trans a7, b8.trans a8, b9.trans a9⟩

theorem sameButExposition_of_service (c c1 : Cluster) (h : sameBut .Service c c1) :
    sameButExposition c c1 := by
  obtain ⟨a1, a2, a3, a4, a5, _, _, a8, a9, a10, a11⟩ := h
  exact ⟨a1, a2, a3 (by decide), a4 (by decide), a5 (by decide), a8 (by decide), a9 (by decide),
    a10 (by decide), a11 (by decide)⟩

theorem sameButExposition_of_ingress (c c1 : Cluster) (h : sameBut .Ingress c c1) :
    sameButExposition c c1 := by
  obtain ⟨a1, a2, a3, a4, a5, _, _, a8, a9, a10, a11⟩ := h
  exact ⟨a1, a2, a3 (by decide), a4 (by decide), a5 (by decide), a8 (by decide), a9 (by decide),
    a10 (by decide), a11 (by decide)⟩

theorem enforceObjectAbsence_fst {α : Type} (R : Resource α) (m : ObjectMeta) (c : Cluster) :
    (enforceObjectAbsence R m c).1 = (clientDelete R m.Namespace m.Name c).1 := by
  unfold enforceObjectAbsence
  rcases clientDelete R m.Namespace m.Name c with ⟨c1, _ | e⟩
  · rfl
  · simp only
    split <;> rfl

theorem enforceInstanceExpositionAbsence_frame (fg : Forge) (inst : Instance) (c : Cluster) :
    sameButExposition c (enforceInstanceExpositionAbsence fg inst c).cluster := by
  have hs : ∀ m c0, sameButExposition c0 (enforceObjectAbsence serviceResource m c0).1 := by
    intro m c0
    rw [enforceObjectAbsence_fst]
    exact sameButExposition_of_service _ _ (clientDelete_sameBut _ serviceResource_lawful _ _ _)
  have hi : ∀ m c0, sameButExposition c0 (enforceObjectAbsence ingressResource m c0).1 := by
    intro m c0
    rw [enforceObjectAbsence_fst]
    exact sameButExposition_of_ingress _ _ (clientDelete_sameBut _ ingressResource_lawful _ _ _)
  unfold enforceInstanceExpositionAbsence
  simp only
  split
  · rename_i c1 e h1
    have e1 := congrArg Prod.fst h1
    simp only at e1
    rw [← e1]
    exact hs _ c
  · rename_i c1 h1
    have e1 := congrArg Prod.fst h1
    simp only at e1
    have a1 : sameButExposition c c1 := by rw [← e1]; exact hs _ c
    split
    · rename_i c2 e h2
      have e2 := congrArg Prod.fst h2
      simp only at e2
      have a2 : sameButExposition c1 c2 := by rw [← e2]; exact hi _ c1
      exact sameButExposition_trans _ _ _ a1 a2
    · rename_i c2 h2
      have e2 := congrArg Prod.fst h2
      simp only at e2
      have a2 : sameButExposition c1 c2 := by rw [← e2]; exact hi _ c1
      exact sameButExposition_trans _ _ _ a1 (sameButExposition_trans _ _ _ a2 (hi _ c2))

theorem enforceInstanceExpositionPresence_frame (fg : Forge) (r : InstanceReconciler)
    (env : Environment) (inst : Instance) (c : Cluster) :
    sameButExposition c (enforceInstanceExpositionPresence fg r env inst c).cluster := by
  have h1 : ∀ c0, sameButExposition c0 (enforceServicePresence fg env inst c0).cluster :=
    fun c0 => sameButExposition_of_service _ _
      (CreateOrUpdate_sameBut _ serviceResource_lawful _ _ _)
  have h2 : ∀ i n c0, sameButExposition c0 (enforceIngressGUIPresence fg r i n c0).cluster :=
    fun i n c0 => sameButExposition_of_ingress _ _
      (CreateOrUpdate_sameBut _ ingressResource_lawful _ _ _)
  have h3 : ∀ i n c0, sameButExposition c0 (enforceIngressMyDrivePresence fg r i n c0).cluster :=
    fun i n c0 => sameButExposition_of_ingress _ _
      (CreateOrUpdate_sameBut _ ingressResource_lawful _ _ _)
  unfold enforceInstanceExpositionPresence
  simp only
  split
  · exact h1 c
  · split
    · exact h1 c
    · split
      · exact sameButExposition_trans _ _ _ (h1 c) (h2 _ _ _)
      · split
        · exact sameButExposition_trans _ _ _ (h1 c) (h2 _ _ _)
        · split
          · exact sameButExposition_trans _ _ _ (h1 c)
              (sameButExposition_trans _ _ _ (h2 _ _ _) (h3 _ _ _))
          · exact sameButExposition_trans _ _ _ (h1 c)
              (sameButExposition_trans _ _ _ (h2 _ _ _) (h3 _ _ _))

theorem EnforceInstanceExposition_frame (fg : Forge) (r : InstanceReconciler)
    (env : Environment) (inst : Instance) (c : Cluster) :
    sameButExposition c (EnforceInstanceExposition fg r env inst c).cluster := by
  unfold EnforceInstanceExposition
  split
  · exact enforceInstanceExpositionPresence_frame fg r env inst c
  · exact enforceInstanceExpositionAbsence_frame fg inst c

/-! ### virtualmachines.go: the compute workload -/

/-- After a successful `CreateOrUpdate` the object the caller holds is the one
stored under its key. -/
theorem CreateOrUpdate_ok_stored {α : Type} [DecidableEq α] (R : Resource α) (hR : R.Lawful)
    (obj : α) (f : α → α × Option Err) (c : Cluster)
    (hok : (CreateOrUpdate R obj f c).err = none) :
    lookup R.metaOf (R.metaOf obj).Namespace (R.metaOf obj).Name
      (R.list (CreateOrUpdate R obj f c).cluster) = some (CreateOrUpdate R obj f c).obj := by
  rcases CreateOrUpdate_cases R hR obj f c with ⟨hne, _⟩ | ⟨_, _, o, _, hk, hobj, _, hl⟩
      | ⟨_, existing, hex, _, hk, ⟨heq, hl⟩ | ⟨_, hl⟩⟩
  · exact absurd hok hne
  · rw [hl]
    apply lookup_store_same
    rw [hobj, hR.metaOf_setMeta]
    rw [hasKey_iff] at hk ⊢
    exact hk
  · rw [hl, hex, heq]
  · rw [hl]
    exact lookup_store_same _ _ _ _ _ hk

theorem setPhase_phase (inst : Instance) (phase : EnvironmentPhase) :
    (setPhase inst phase).Status.Phase = phase := by
  unfold setPhase
  split
  · rfl
  · rename_i h
    exact (not_not.1 h).symm

theorem enforceInstanceExpositionAbsence_inst (fg : Forge) (inst : Instance) (c : Cluster) :
    (enforceInstanceExpositionAbsence fg inst c).inst
      = { inst with Status := { inst.Status with IP := "", URL := "", MyDriveURL := "" } } := by
  unfold enforceInstanceExpositionAbsence
  simp only
  split
  · rfl
  · split
    · rfl
    · rfl

/-- C5, as stated, fails: the environment is persistent and the Disk-Volume of the
Instance is still importing, yet `EnforceVMEnvironment` returns no error, has
requested the creation of the VirtualMachine, which is stored afterwards, and
leaves the phase as derived from the VirtualMachine (unset), not importing. -/
theorem C5_vm_created_while_importing_counterexample :
    (Sample.environment true false).Persistent = true
    ∧ (Sample.withPendingDataVolume (Sample.cluster true true false
        Sample.noFaults)).dataVolumes.map (fun dv => dv.Status.Phase) = ["ImportInProgress"]
    ∧ (EnforceVMEnvironment Sample.forge Sample.reconciler (Sample.environment true false)
        (Sample.inst true) (Sample.withPendingDataVolume (Sample.cluster true true false
          Sample.noFaults))).err = none
    ∧ Action.api .create .VirtualMachine "tenant-tester" "kubernetes-0000"
        ∈ (EnforceVMEnvironment Sample.forge Sample.reconciler (Sample.environment true false)
            (Sample.inst true) (Sample.withPendingDataVolume (Sample.cluster true true false
              Sample.noFaults))).cluster.log
    ∧ (EnforceVMEnvironment Sample.forge Sample.reconciler (Sample.environment true false)
        (Sample.inst true) (Sample.withPendingDataVolume (Sample.cluster true true false
          Sample.noFaults))).cluster.virtualMachines.map (fun vm => vm.Spec)
      = [{ Running := some true, Rest := "internal/registry/image:v1.0" }]
    ∧ (EnforceVMEnvironment Sample.forge Sample.reconciler (Sample.environment true false)
        (Sample.inst true) (Sample.withPendingDataVolume (Sample.cluster true true false
          Sample.noFaults))).inst.Status.Phase = .Unset := by
  refine ⟨rfl, rfl, rfl, ?_, rfl, rfl⟩
  decide

/-- For a persistent environment, whenever `EnforceVMEnvironment` returns no error
the VirtualMachine is stored under the name of the Instance, whatever
Disk-Volumes the cluster holds (they are left as they are), and the phase of
the Instance is the one derived from that VirtualMachine. -/
theorem EnforceVMEnvironment_persistent_stored (fg : Forge) (r : InstanceReconciler)
    (env : Environment) (inst : Instance) (c : Cluster)
    (hp : env.Persistent = true)
    (hok : (EnforceVMEnvironment fg r env inst c).err = none) :
    ∃ vm, (EnforceVMEnvironment fg r env inst c).cluster.vm
          (fg.ObjectMeta (EnforceInstanceExposition fg r env inst
            (c.afterSecret (r.EnforceCloudInitSecret inst env c))).inst) = some vm
      ∧ (EnforceVMEnvironment fg r env inst c).inst.Status.Phase = r.RetrievePhaseFromVM vm
      ∧ (EnforceVMEnvironment fg r env inst c).cluster.dataVolumes = c.dataVolumes := by
  have hframe := EnforceInstanceExposition_frame fg r env inst
    (c.afterSecret (r.EnforceCloudInitSecret inst env c))
  unfold EnforceVMEnvironment at hok ⊢
  simp only at hok ⊢
  cases hs : (r.EnforceCloudInitSecret inst env c).err with
  | some e => rw [hs] at hok; simp at hok
  | none =>
    rw [hs] at hok
    simp only at hok ⊢
    cases hx : (EnforceInstanceExposition fg r env inst
        (c.afterSecret (r.EnforceCloudInitSecret inst env c))).err with
    | some e => rw [hx] at hok; simp at hok
    | none =>
      rw [hx] at hok
      simp only [hp, if_true] at hok ⊢
      obtain ⟨herr, _⟩ := enforceVirtualMachine_eq fg r env
        (EnforceInstanceExposition fg r env inst
          (c.afterSecret (r.EnforceCloudInitSecret inst env c))).inst
        (EnforceInstanceExposition fg r env inst
          (c.afterSecret (r.EnforceCloudInitSecret inst env c))).cluster
      rw [herr] at hok
      have hst := CreateOrUpdate_ok_stored vmResource vmResource_lawful _ _ _ hok
      have hsb := CreateOrUpdate_sameBut vmResource vmResource_lawful
        { metadata := fg.ObjectMeta (EnforceInstanceExposition fg r env inst
            (c.afterSecret (r.EnforceCloudInitSecret inst env c))).inst,
          Spec := { Running := none, Rest := "" }, Status := { PrintableStatus := "" } }
        (vmMutate fg (EnforceInstanceExposition fg r env inst
            (c.afterSecret (r.EnforceCloudInitSecret inst env c))).inst env)
        (EnforceInstanceExposition fg r env inst
          (c.afterSecret (r.EnforceCloudInitSecret inst env c))).cluster
      unfold enforceVirtualMachine
      simp only [hok]
      refine ⟨_, hst, setPhase_phase _ _, ?_⟩
      have h1 := hsb.2.2.2.2.2.2.2.2.2.2 (by decide)
      rw [h1, hframe.2.2.2.2.2.2.2.2]
      rfl

/-- C6, witness: an existing VirtualMachine with the running flag set while the
Instance is switched off, and a cluster without the VirtualMachine. -/
theorem C6_vm_spec_frozen_but_running_witness :
    (enforceVirtualMachine Sample.forge Sample.reconciler (Sample.environment true false)
        (Sample.inst false) (Sample.withVM true (Sample.cluster false true false
          Sample.noFaults))).err = none
    ∧ (∃ vm, (enforceVirtualMachine Sample.forge Sample.reconciler
          (Sample.environment true false) (Sample.inst false)
          (Sample.withVM true (Sample.cluster false true false Sample.noFaults))).cluster.vm
            (Sample.forge.ObjectMeta (Sample.inst false)) = some vm
        ∧ vm.Spec = { (Sample.existingVM true).Spec with Running := some false })
    ∧ (∃ vm, (enforceVirtualMachine Sample.forge Sample.reconciler
          (Sample.environment true false) (Sample.inst true)
          (Sample.cluster true true false Sample.noFaults)).cluster.vm
            (Sample.forge.ObjectMeta (Sample.inst true)) = some vm
        ∧ vm.Spec = { Sample.forge.VirtualMachineSpec (Sample.inst true)
            (Sample.environment true false) with Running := some true }) :=
  ⟨rfl,
    (C6_vm_spec_frozen_but_running Sample.forge Sample.reconciler (Sample.environment true false)
      (Sample.inst false) (Sample.withVM true (Sample.cluster false true false Sample.noFaults))
      rfl).1 (Sample.existingVM true) rfl (by decide),
    (C6_vm_spec_frozen_but_running Sample.forge Sample.reconciler (Sample.environment true false)
      (Sample.inst true) (Sample.cluster true true false Sample.noFaults) rfl).2 rfl⟩

/-- C7: for a non-persistent environment and an Instance that is not running, when
the secret and the exposition steps succeed, `EnforceVMEnvironment` returns no
error, sets the phase to Off and leaves the VirtualMachineInstances exactly as
they were: none is created, changed or deleted. -/
theorem C7_poweroff_keeps_vmi (fg : Forge) (r : InstanceReconciler) (env : Environment)
    (inst : Instance) (c : Cluster)
    (hnp : env.Persistent = false) (hrun : inst.Spec.Running = false)
    (hs : (r.EnforceCloudInitSecret inst env c).err = none)
    (hx : (EnforceInstanceExposition fg r env inst
      (c.afterSecret (r.EnforceCloudInitSecret inst env c))).err = none) :
    (EnforceVMEnvironment fg r env inst c).err = none
      ∧ (EnforceVMEnvironment fg r env inst c).inst.Status.Phase = .Off
      ∧ (EnforceVMEnvironment fg r env inst c).cluster.virtualMachineInstances
        = c.virtualMachineInstances
      ∧ ∀ m, (EnforceVMEnvironment fg r env inst c).cluster.vmi m = c.vmi m := by
  have hframe := EnforceInstanceExposition_frame fg r env inst
    (c.afterSecret (r.EnforceCloudInitSecret inst env c))
  have hinst : (EnforceInstanceExposition fg r env inst
      (c.afterSecret (r.EnforceCloudInitSecret inst env c))).inst.Spec.Running = false := by
    unfold EnforceInstanceExposition
    simp only [hrun, Bool.false_eq_true, if_false]
    rw [enforceInstanceExpositionAbsence_inst]
    exact hrun
  have hvmi : (EnforceVMEnvironment fg r env inst c).cluster.virtualMachineInstances
      = c.virtualMachineInstances := by
    unfold EnforceVMEnvironment
    simp only [hs, hx, hnp, Bool.false_eq_true, if_false]
    unfold enforceVirtualMachineInstance
    simp only [hinst, Bool.false_eq_true, if_false]
    rw [hframe.2.2.2.2.2.2.1]
    rfl
  refine ⟨?_, ?_, hvmi, ?_⟩
  · unfold EnforceVMEnvironment
    simp only [hs, hx, hnp, Bool.false_eq_true, if_false]
    unfold enforceVirtualMachineInstance
    simp only [hinst, Bool.false_eq_true, if_false]
  · unfold EnforceVMEnvironment
    simp only [hs, hx, hnp, Bool.false_eq_true, if_false]
    unfold enforceVirtualMachineInstance
    simp only [hinst, Bool.false_eq_true, if_false]
    exact setPhase_phase _ _
  · intro m
    simp only [Cluster.vmi, hvmi]

/-- C7, witness: the running VirtualMachineInstance of an Instance that is switched
off. -/
theorem C7_poweroff_keeps_vmi_witness :
    (Sample.environment false false).Persistent = false
    ∧ (Sample.inst false).Spec.Running = false
    ∧ (EnforceVMEnvironment Sample.forge Sample.reconciler (Sample.environment false false)
        (Sample.inst false) (Sample.withVMI (Sample.cluster false false false
          Sample.noFaults))).inst.Status.Phase = .Off
    ∧ (EnforceVMEnvironment Sample.forge Sample.reconciler (Sample.environment false false)
        (Sample.inst false) (Sample.withVMI (Sample.cluster false false false
          Sample.noFaults))).cluster.virtualMachineInstances = [Sample.existingVMI] :=
  ⟨rfl, rfl,
    (C7_poweroff_keeps_vmi Sample.forge Sample.reconciler (Sample.environment false false)
      (Sample.inst false) (Sample.withVMI (Sample.cluster false false false Sample.noFaults))
      rfl rfl rfl rfl).2.1,
    (C7_poweroff_keeps_vmi Sample.forge Sample.reconciler (Sample.environment false false)
      (Sample.inst false) (Sample.withVMI (Sample.cluster false false false Sample.noFaults))
      rfl rfl rfl rfl).2.2.1⟩

/-! ### exposition.go: absence -/

theorem enforceObjectAbsence_ok {α : Type} (R : Resource α) (m : ObjectMeta) (c : Cluster)
    (h : ∀ e, c.faults .delete R.kind m.Namespace m.Name = some e → IsNotFound e = true) :
    (enforceObjectAbsence R m c).2 = none := by
  unfold enforceObjectAbsence clientDelete
  simp only
  cases hf : c.faults .delete R.kind m.Namespace m.Name with
  | some e => simp [h e hf]
  | none =>
    simp only
    cases lookup R.metaOf m.Namespace m.Name (R.list c) <;> simp [IsNotFound]

theorem enforceObjectAbsence_log {α : Type} (R : Resource α) (hR : R.Lawful) (m : ObjectMeta)
    (c : Cluster) :
    (enforceObjectAbsence R m c).1.log = c.log ++ [.api .delete R.kind m.Namespace m.Name] := by
  rw [enforceObjectAbsence_fst, clientDelete_log R hR]

theorem enforceObjectAbsence_faults {α : Type} (R : Resource α) (hR : R.Lawful) (m : ObjectMeta)
    (c : Cluster) : (enforceObjectAbsence R m c).1.faults = c.faults := by
  rw [enforceObjectAbsence_fst]
  exact (clientDelete_sameBut R hR _ _ c).1

/-- C8: when the Instance is not running, `EnforceInstanceExposition` leaves
`status.ip`, `status.url` and `status.myDriveUrl` empty; and when no deletion is
answered with an error other than not-found, it returns no error and has
requested the deletion of the Service, of the GUI Ingress and of the File-Sync
Ingress, in this order and nothing else. -/
theorem C8_exposition_absence (fg : Forge) (r : InstanceReconciler) (env : Environment)
    (inst : Instance) (c : Cluster) (hrun : inst.Spec.Running = false) :
    ((EnforceInstanceExposition fg r env inst c).inst.Status.IP = ""
        ∧ (EnforceInstanceExposition fg r env inst c).inst.Status.URL = ""
        ∧ (EnforceInstanceExposition fg r env inst c).inst.Status.MyDriveURL = "")
      ∧ ((∀ e, c.faults .delete .Service
            (fg.ObjectMeta (EnforceInstanceExposition fg r env inst c).inst).Namespace
            (fg.ObjectMeta (EnforceInstanceExposition fg r env inst c).inst).Name = some e →
            IsNotFound e = true) →
        (∀ e, c.faults .delete .Ingress
            (fg.ObjectMetaWithSuffix (EnforceInstanceExposition fg r env inst c).inst
              fg.IngressGUINameSuffix).Namespace
            (fg.ObjectMetaWithSuffix (EnforceInstanceExposition fg r env inst c).inst
              fg.IngressGUINameSuffix).Name = some e → IsNotFound e = true) →
        (∀ e, c.faults .delete .Ingress
            (fg.ObjectMetaWithSuffix (EnforceInstanceExposition fg r env inst c).inst
              fg.IngressMyDriveNameSuffix).Namespace
            (fg.ObjectMetaWithSuffix (EnforceInstanceExposition fg r env inst c).inst
              fg.IngressMyDriveNameSuffix).Name = some e → IsNotFound e = true) →
        (EnforceInstanceExposition fg r env inst c).err = none
          ∧ (EnforceInstanceExposition fg r env inst c).cluster.log = c.log ++
            [.api .delete .Service
              (fg.ObjectMeta (EnforceInstanceExposition fg r env inst c).inst).Namespace
              (fg.ObjectMeta (EnforceInstanceExposition fg r env inst c).inst).Name,
             .api .delete .Ingress
              (fg.ObjectMetaWithSuffix (EnforceInstanceExposition fg r env inst c).inst
                fg.IngressGUINameSuffix).Namespace
              (fg.ObjectMetaWithSuffix (EnforceInstanceExposition fg r env inst c).inst
                fg.IngressGUINameSuffix).Name,
             .api .delete .Ingress
              (fg.ObjectMetaWithSuffix (EnforceInstanceExposition fg r env inst c).inst
                fg.IngressMyDriveNameSuffix).Namespace
              (fg.ObjectMetaWithSuffix (EnforceInstanceExposition fg r env inst c).inst
                fg.IngressMyDriveNameSuffix).Name]) := by
  have hE : EnforceInstanceExposition fg r env inst c
      = enforceInstanceExpositionAbsence fg inst c := by
    unfold EnforceInstanceExposition
    simp [hrun]
  rw [hE, enforceInstanceExpositionAbsence_inst]
  refine ⟨⟨rfl, rfl, rfl⟩, fun h1 h2 h3 => ?_⟩
  have k1 := enforceObjectAbsence_ok serviceResource _ c h1
  have l1 := enforceObjectAbsence_log serviceResource serviceResource_lawful
    (fg.ObjectMeta { inst with Status := { inst.Status with IP := "", URL := "", MyDriveURL := "" } })
    c
  have f1 := enforceObjectAbsence_faults serviceResource serviceResource_lawful
    (fg.ObjectMeta { inst with Status := { inst.Status with IP := "", URL := "", MyDriveURL := "" } })
    c
  unfold enforceInstanceExpositionAbsence
  simp only
  rcases hd1 : enforceObjectAbsence serviceResource
    (fg.ObjectMeta { inst with Status := { inst.Status with IP := "", URL := "", MyDriveURL := "" } })
    c with ⟨c1, e1⟩
  rw [hd1] at k1 l1 f1
  simp only at k1 l1 f1
  subst k1
  simp only
  rw [← f1] at h2 h3
  have k2 := enforceObjectAbsence_ok ingressResource _ c1 h2
  have l2 := enforceObjectAbsence_log ingressResource ingressResource_lawful
    (fg.ObjectMetaWithSuffix
      { inst with Status := { inst.Status with IP := "", URL := "", MyDriveURL := "" } }
      fg.IngressGUINameSuffix) c1
  have f2 := enforceObjectAbsence_faults ingressResource ingressResource_lawful
    (fg.ObjectMetaWithSuffix
      { inst with Status := { inst.Status with IP := "", URL := "", MyDriveURL := "" } }
      fg.IngressGUINameSuffix) c1
  rcases hd2 : enforceObjectAbsence ingressResource
    (fg.ObjectMetaWithSuffix
      { inst with Status := { inst.Status with IP := "", URL := "", MyDriveURL := "" } }
      fg.IngressGUINameSuffix) c1 with ⟨c2, e2⟩
  rw [hd2] at k2 l2 f2
  simp only at k2 l2 f2
  subst k2
  simp only
  rw [← f2] at h3
  have k3 := enforceObjectAbsence_ok ingressResource _ c2 h3
  have l3 := enforceObjectAbsence_log ingressResource ingressResource_lawful
    (fg.ObjectMetaWithSuffix
      { inst with Status := { inst.Status with IP := "", URL := "", MyDriveURL := "" } }
      fg.IngressMyDriveNameSuffix) c2
  refine ⟨k3, ?_⟩
  rw [l3, l2, l1]
  simp [serviceResource, ingressResource]

/-- C8, witness: nothing to delete, every deletion is answered with not-found. -/
theorem C8_exposition_absence_witness :
    (Sample.inst false).Spec.Running = false
    ∧ (EnforceInstanceExposition Sample.forge Sample.reconciler (Sample.environment false false)
        (Sample.inst false) (Sample.cluster false false false Sample.noFaults)).err = none
    ∧ (EnforceInstanceExposition Sample.forge Sample.reconciler (Sample.environment false false)
        (Sample.inst false) (Sample.cluster false false false Sample.noFaults)).cluster.log
      = [.api .delete .Service "tenant-tester" "kubernetes-0000",
         .api .delete .Ingress "tenant-tester" "kubernetes-0000-gui",
         .api .delete .Ingress "tenant-tester" "kubernetes-0000-mydrive"] :=
  ⟨rfl,
    ((C8_exposition_absence Sample.forge Sample.reconciler (Sample.environment false false)
      (Sample.inst false) (Sample.cluster false false false Sample.noFaults) rfl).2
      (fun _ h => Option.noConfusion h) (fun _ h => Option.noConfusion h)
      (fun _ h => Option.noConfusion h)).1,
    ((C8_exposition_absence Sample.forge Sample.reconciler (Sample.environment false false)
      (Sample.inst false) (Sample.cluster false false false Sample.noFaults) rfl).2
      (fun _ h => Option.noConfusion h) (fun _ h => Option.noConfusion h)
      (fun _ h => Option.noConfusion h)).2⟩

/-! ### exposition.go: presence -/

theorem serviceMutate_frozen (fg : Forge) (inst : Instance) (env : Environment) (x : Service)
    (h : x.metadata.CreationTimestamp ≠ 0) :
    (serviceMutate fg inst env x).1.metadata.CreationTimestamp ≠ 0
      ∧ (serviceMutate fg inst env x).1.Spec = x.Spec := by
  unfold serviceMutate
  simp only [if_neg h]
  exact ⟨by rw [(SetControllerReference_frame _ _).1]; exact h, by trivial⟩

theorem ingressGUIMutate_frozen (fg : Forge) (u a : String) (inst : Instance) (path n : String)
    (x : Ingress) (h : x.metadata.CreationTimestamp ≠ 0) :
    (ingressGUIMutate fg u a inst path n x).1.metadata.CreationTimestamp ≠ 0
      ∧ (ingressGUIMutate fg u a inst path n x).1.Spec = x.Spec := by
  unfold ingressGUIMutate
  simp only [if_neg h]
  exact ⟨by rw [(SetControllerReference_frame _ _).1]; exact h, by trivial⟩

theorem ingressMyDriveMutate_frozen (fg : Forge) (u a : String) (inst : Instance)
    (path n : String) (x : Ingress) (h : x.metadata.CreationTimestamp ≠ 0) :
    (ingressMyDriveMutate fg u a inst path n x).1.metadata.CreationTimestamp ≠ 0
      ∧ (ingressMyDriveMutate fg u a inst path n x).1.Spec = x.Spec := by
  unfold ingressMyDriveMutate
  simp only [if_neg h]
  exact ⟨by rw [(SetControllerReference_frame _ _).1]; exact h, by trivial⟩

/-- The Service step keeps the spec of every Service that exists already. -/
theorem enforceServicePresence_keeps (fg : Forge) (env : Environment) (inst : Instance)
    (c : Cluster) (ns n : String) (sp : ServiceSpec) (x : Service)
    (hx : c.service ns n = some x)
    (hQ : x.metadata.CreationTimestamp ≠ 0 ∧ x.Spec = sp) :
    ∃ y, (enforceServicePresence fg env inst c).cluster.service ns n = some y
      ∧ (y.metadata.CreationTimestamp ≠ 0 ∧ y.Spec = sp) := by
  unfold enforceServicePresence
  refine CreateOrUpdate_preserves serviceResource serviceResource_lawful _ _ c
    (fun y => y.metadata.CreationTimestamp ≠ 0 ∧ y.Spec = sp) ?_ ns n x hx hQ
  intro y o hy hf
  have h := serviceMutate_frozen fg inst env y hy.1
  rw [hf] at h
  exact ⟨h.1, h.2.trans hy.2⟩

/-- The GUI Ingress step keeps the spec of every Ingress that exists already. -/
theorem enforceIngressGUIPresence_keeps (fg : Forge) (r : InstanceReconciler) (inst : Instance)
    (sn : String) (c : Cluster) (ns n : String) (sp : IngressSpec) (x : Ingress)
    (hx : c.ingress ns n = some x)
    (hQ : x.metadata.CreationTimestamp ≠ 0 ∧ x.Spec = sp) :
    ∃ y, (enforceIngressGUIPresence fg r inst sn c).cluster.ingress ns n = some y
      ∧ (y.metadata.CreationTimestamp ≠ 0 ∧ y.Spec = sp) := by
  unfold enforceIngressGUIPresence
  refine CreateOrUpdate_preserves ingressResource ingressResource_lawful _ _ c
    (fun y => y.metadata.CreationTimestamp ≠ 0 ∧ y.Spec = sp) ?_ ns n x hx hQ
  intro y o hy hf
  have h := ingressGUIMutate_frozen fg r.WebsiteBaseURL r.InstancesAuthURL inst
    (fg.IngressGUIPath inst) sn y hy.1
  rw [hf] at h
  exact ⟨h.1, h.2.trans hy.2⟩

/-- The MyDrive Ingress step keeps the spec of every Ingress that exists already. -/
theorem enforceIngressMyDrivePresence_keeps (fg : Forge) (r : InstanceReconciler)
    (inst : Instance) (sn : String) (c : Cluster) (ns n : String) (sp : IngressSpec)
    (x : Ingress) (hx : c.ingress ns n = some x)
    (hQ : x.metadata.CreationTimestamp ≠ 0 ∧ x.Spec = sp) :
    ∃ y, (enforceIngressMyDrivePresence fg r inst sn c).cluster.ingress ns n = some y
      ∧ (y.metadata.CreationTimestamp ≠ 0 ∧ y.Spec = sp) := by
  unfold enforceIngressMyDrivePresence
  refine CreateOrUpdate_preserves ingressResource ingressResource_lawful _ _ c
    (fun y => y.metadata.CreationTimestamp ≠ 0 ∧ y.Spec = sp) ?_ ns n x hx hQ
  intro y o hy hf
  have h := ingressMyDriveMutate_frozen fg r.WebsiteBaseURL r.InstancesAuthURL inst
    (fg.IngressMyDrivePath inst) sn y hy.1
  rw [hf] at h
  exact ⟨h.1, h.2.trans hy.2⟩

theorem enforceServicePresence_ingresses (fg : Forge) (env : Environment) (inst : Instance)
    (c : Cluster) : (enforceServicePresence fg env inst c).cluster.ingresses = c.ingresses :=
  (CreateOrUpdate_sameBut serviceResource serviceResource_lawful _ _ c).2.2.2.2.2.2.1
    (by decide)

theorem enforceIngressGUIPresence_services (fg : Forge) (r : InstanceReconciler)
    (inst : Instance) (sn : String) (c : Cluster) :
    (enforceIngressGUIPresence fg r inst sn c).cluster.services = c.services :=
  (CreateOrUpdate_sameBut ingressResource ingressResource_lawful _ _ c).2.2.2.2.2.1 (by decide)

theorem enforceIngressMyDrivePresence_services (fg : Forge) (r : InstanceReconciler)
    (inst : Instance) (sn : String) (c : Cluster) :
    (enforceIngressMyDrivePresence fg r inst sn c).cluster.services = c.services :=
  (CreateOrUpdate_sameBut ingressResource ingressResource_lawful _ _ c).2.2.2.2.2.1 (by decide)

/-- C9: whatever `enforceInstanceExpositionPresence` returns, a Service that existed
(non-zero creation timestamp) is still stored under its key with the spec it
had, and so is every Ingress that existed, the GUI and the File-Sync one
included. -/
theorem C9_existing_exposition_specs_kept (fg : Forge) (r : InstanceReconciler)
    (env : Environment) (inst : Instance) (c : Cluster) :
    (∀ ns n svc, c.service ns n = some svc → svc.metadata.CreationTimestamp ≠ 0 →
        ∃ svc1, (enforceInstanceExpositionPresence fg r env inst c).cluster.service ns n
            = some svc1 ∧ svc1.Spec = svc.Spec)
      ∧ (∀ ns n ing, c.ingress ns n = some ing → ing.metadata.CreationTimestamp ≠ 0 →
        ∃ ing1, (enforceInstanceExpositionPresence fg r env inst c).cluster.ingress ns n
            = some ing1 ∧ ing1.Spec = ing.Spec) := by
  constructor
  · intro ns n svc hsvc hct
    obtain ⟨y, hy, _, hys⟩ := enforceServicePresence_keeps fg env inst c ns n svc.Spec svc hsvc
      ⟨hct, rfl⟩
    have h2 := enforceIngressGUIPresence_services fg r
    have h3 := enforceIngressMyDrivePresence_services fg r
    unfold enforceInstanceExpositionPresence
    simp only
    split
    · exact ⟨y, hy, hys⟩
    · split
      · exact ⟨y, hy, hys⟩
      · split
        · exact ⟨y, by simp only [Cluster.service, h2]; exact hy, hys⟩
        · split
          · exact ⟨y, by simp only [Cluster.service, h2]; exact hy, hys⟩
          · split
            · exact ⟨y, by simp only [Cluster.service, h3, h2]; exact hy, hys⟩
            · exact ⟨y, by simp only [Cluster.service, h3, h2]; exact hy, hys⟩
  · intro ns n ing hing hct
    have h1 : (enforceServicePresence fg env inst c).cluster.ingress ns n = some ing := by
      simp only [Cluster.ingress, enforceServicePresence_ingresses]
      exact hing
    have k2 := fun i sn => enforceIngressGUIPresence_keeps fg r i sn
      (enforceServicePresence fg env inst c).cluster ns n ing.Spec ing h1 ⟨hct, rfl⟩
    unfold enforceInstanceExpositionPresence
    simp only
    split
    · exact ⟨ing, h1, rfl⟩
    · split
      · exact ⟨ing, h1, rfl⟩
      · obtain ⟨y, hy, hyc, hys⟩ := k2
          (withIP inst (enforceServicePresence fg env inst c).obj.Spec.ClusterIP)
          (enforceServicePresence fg env inst c).obj.metadata.Name
        split
        · exact ⟨y, hy, hys⟩
        · split
          · exact ⟨y, hy, hys⟩
          · obtain ⟨z, hz, _, hzs⟩ := enforceIngressMyDrivePresence_keeps fg r
              (withURL (withIP inst (enforceServicePresence fg env inst c).obj.Spec.ClusterIP)
                ("https://" ++ r.WebsiteBaseURL ++ fg.IngressGUIPath
                  (withIP inst (enforceServicePresence fg env inst c).obj.Spec.ClusterIP)))
              (enforceServicePresence fg env inst c).obj.metadata.Name _ ns n ing.Spec y hy
              ⟨hyc, hys⟩
            split
            · exact ⟨z, hz, hzs⟩
            · exact ⟨z, hz, hzs⟩

/-- C9, witness: a container environment, with the Service and the GUI Ingress
already there; the File-Sync Ingress is created next to them. -/
theorem C9_existing_exposition_specs_kept_witness :
    Sample.existingService.metadata.CreationTimestamp ≠ 0
    ∧ Sample.existingIngressGUI.metadata.CreationTimestamp ≠ 0
    ∧ (∃ svc1, (enforceInstanceExpositionPresence Sample.forge Sample.reconciler
          Sample.containerEnvironment (Sample.inst true)
          (Sample.withExposition (Sample.cluster true false true Sample.noFaults))).cluster.service
            "tenant-tester" "kubernetes-0000" = some svc1
        ∧ svc1.Spec = Sample.existingService.Spec)
    ∧ (∃ ing1, (enforceInstanceExpositionPresence Sample.forge Sample.reconciler
          Sample.containerEnvironment (Sample.inst true)
          (Sample.withExposition (Sample.cluster true false true Sample.noFaults))).cluster.ingress
            "tenant-tester" "kubernetes-0000-gui" = some ing1
        ∧ ing1.Spec = Sample.existingIngressGUI.Spec) :=
  ⟨by decide, by decide,
    (C9_existing_exposition_specs_kept Sample.forge Sample.reconciler
      Sample.containerEnvironment (Sample.inst true)
      (Sample.withExposition (Sample.cluster true false true Sample.noFaults))).1
      "tenant-tester" "kubernetes-0000" Sample.existingService rfl (by decide),
    (C9_existing_exposition_specs_kept Sample.forge Sample.reconciler
      Sample.containerEnvironment (Sample.inst true)
      (Sample.withExposition (Sample.cluster true false true Sample.noFaults))).2
      "tenant-tester" "kubernetes-0000-gui" Sample.existingIngressGUI rfl (by decide)⟩

theorem not_writes_ingress_of_onKind_service (a : Action)
    (h : Action.onKind a .Service = true) : Action.writes a .Ingress = false := by
  cases a with
  | event w e => rfl
  | api v k ns n =>
    simp only [Action.onKind, beq_iff_eq] at h
    subst h
    cases v <;> rfl

/-- C10: for a running Instance and a VM environment without GUI, a successful
`EnforceInstanceExposition` leaves the Service stored under the name of the
Instance, sets `status.ip` to the cluster address of that Service, leaves the
Ingresses as they were, and every request it issued is about the Service: no
Ingress is created or updated. -/
theorem C10_headless_vm_service_only (fg : Forge) (r : InstanceReconciler) (env : Environment)
    (inst : Instance) (c : Cluster)
    (hrun : inst.Spec.Running = true) (hvm : env.EnvironmentType = .ClassVM)
    (hgui : env.GuiEnabled = false)
    (hok : (EnforceInstanceExposition fg r env inst c).err = none) :
    (∃ svc, (EnforceInstanceExposition fg r env inst c).cluster.service
          (fg.ObjectMeta inst).Namespace (fg.ObjectMeta inst).Name = some svc
        ∧ (EnforceInstanceExposition fg r env inst c).inst.Status.IP = svc.Spec.ClusterIP)
      ∧ (EnforceInstanceExposition fg r env inst c).cluster.ingresses = c.ingresses
      ∧ ∃ acts, (EnforceInstanceExposition fg r env inst c).cluster.log = c.log ++ acts
          ∧ ∀ a ∈ acts, Action.onKind a .Service = true ∧ Action.writes a .Ingress = false := by
  have hE : EnforceInstanceExposition fg r env inst c
      = enforceInstanceExpositionPresence fg r env inst c := by
    unfold EnforceInstanceExposition
    simp [hrun]
  rw [hE] at hok ⊢
  have hst := CreateOrUpdate_ok_stored serviceResource serviceResource_lawful
    { metadata := fg.ObjectMeta inst, Spec := { ClusterIP := "", Rest := "" } }
    (serviceMutate fg inst env) c
  have hlog := CreateOrUpdate_log serviceResource serviceResource_lawful
    { metadata := fg.ObjectMeta inst, Spec := { ClusterIP := "", Rest := "" } }
    (serviceMutate fg inst env) c
  have hing := enforceServicePresence_ingresses fg env inst c
  unfold enforceInstanceExpositionPresence at hok ⊢
  simp only [hvm, hgui, Bool.not_false, Bool.and_true, decide_True, if_true] at hok ⊢
  cases he : (enforceServicePresence fg env inst c).err with
  | some e => rw [he] at hok; simp at hok
  | none =>
    simp only
    refine ⟨⟨_, hst he, rfl⟩, hing, ?_⟩
    obtain ⟨acts, h1, h2⟩ := hlog
    exact ⟨acts, h1, fun a ha => ⟨h2 a ha, not_writes_ingress_of_onKind_service a (h2 a ha)⟩⟩

/-- C10, witness: the headless VM of the test fixture; the Service is created and
gets its cluster address from the server. -/
theorem C10_headless_vm_service_only_witness :
    (Sample.inst true).Spec.Running = true
    ∧ (Sample.environment false false).EnvironmentType = .ClassVM
    ∧ (Sample.environment false false).GuiEnabled = false
    ∧ (EnforceInstanceExposition Sample.forge Sample.reconciler (Sample.environment false false)
        (Sample.inst true) (Sample.cluster true false false Sample.noFaults)).err = none
    ∧ (EnforceInstanceExposition Sample.forge Sample.reconciler (Sample.environment false false)
        (Sample.inst true) (Sample.cluster true false false Sample.noFaults)).inst.Status.IP
      = "10.96.0.10"
    ∧ (EnforceInstanceExposition Sample.forge Sample.reconciler (Sample.environment false false)
        (Sample.inst true) (Sample.cluster true false false Sample.noFaults)).cluster.ingresses
      = (Sample.cluster true false false Sample.noFaults).ingresses :=
  ⟨rfl, rfl, rfl, rfl, rfl,
    (C10_headless_vm_service_only Sample.forge Sample.reconciler (Sample.environment false false)
      (Sample.inst true) (Sample.cluster true false false Sample.noFaults) rfl rfl rfl rfl).2.1⟩

/-! ### Reconcile: the returns before the enforcement -/

theorem clientGet_eq {α : Type} (R : Resource α) (ns n : String) (c : Cluster) :
    clientGet R ns n c = (c.record (.api .get R.kind ns n), (clientGet R ns n c).2) := by
  rw [← clientGet_fst]

theorem clientGet_snd_record {α : Type} (R : Resource α) (hR : R.Lawful) (ns n : String)
    (c : Cluster) (a : Action) :
    (clientGet R ns n (c.record a)).2 = (clientGet R ns n c).2 := by
  unfold clientGet
  simp only [Cluster.record, hR.list_log]
  split
  · rfl
  · split <;> rfl

theorem instanceResource_lawful : instanceResource.Lawful :=
  ⟨fun _ _ => rfl, fun _ _ _ => rfl, fun _ _ => rfl, fun _ _ => by simp [sameBut, instanceResource],
    fun _ _ => rfl⟩

theorem templateResource_lawful : templateResource.Lawful :=
  ⟨fun _ _ => rfl, fun _ _ _ => rfl, fun _ _ => rfl, fun _ _ => by simp [sameBut, templateResource],
    fun _ _ => rfl⟩

theorem tenantResource_lawful : tenantResource.Lawful :=
  ⟨fun _ _ => rfl, fun _ _ _ => rfl, fun _ _ => rfl, fun _ _ => by simp [sameBut, tenantResource],
    fun _ _ => rfl⟩

/-- C14: when the fetch of the Instance is answered with not-found, `Reconcile`
returns the empty result and no error, and the cluster is as before but for
that one read in the log; when it is answered with another error, `Reconcile`
returns that error. -/
theorem C14_instance_fetch_failure (fg : Forge) (r : InstanceReconciler) (req : NamespacedName)
    (c : Cluster) (e : Err)
    (hget : (clientGet instanceResource req.Namespace req.Name c).2 = .error e) :
    (IsNotFound e = true →
        (Reconcile fg r req c).err = none ∧ (Reconcile fg r req c).result = Result.empty
        ∧ (Reconcile fg r req c).cluster
          = c.record (.api .get .Instance req.Namespace req.Name))
      ∧ (IsNotFound e = false →
        (Reconcile fg r req c).err = some e ∧ (Reconcile fg r req c).result = Result.empty) := by
  have h := clientGet_eq instanceResource req.Namespace req.Name c
  rw [hget] at h
  unfold Reconcile reconcileFetch
  simp only [h]
  constructor
  · intro hnf
    simp [IgnoreNotFound, hnf, instanceResource]
  · intro hnf
    simp [IgnoreNotFound, hnf]

/-- C14, witness: a request for an Instance that is gone, and a fetch that fails
with another error. -/
theorem C14_instance_fetch_failure_witness :
    (clientGet instanceResource Sample.request.Namespace Sample.request.Name
        (Sample.withoutInstance (Sample.cluster true false false Sample.noFaults))).2
      = .error .notFound
    ∧ ((Reconcile Sample.forge Sample.reconciler Sample.request
          (Sample.withoutInstance (Sample.cluster true false false Sample.noFaults))).err = none
      ∧ (Reconcile Sample.forge Sample.reconciler Sample.request
          (Sample.withoutInstance (Sample.cluster true false false Sample.noFaults))).result
        = Result.empty
      ∧ (Reconcile Sample.forge Sample.reconciler Sample.request
          (Sample.withoutInstance (Sample.cluster true false false Sample.noFaults))).cluster
        = (Sample.withoutInstance (Sample.cluster true false false Sample.noFaults)).record
            (.api .get .Instance Sample.request.Namespace Sample.request.Name))
    ∧ ((Reconcile Sample.forge Sample.reconciler Sample.request
          (Sample.cluster true false false (Sample.failing .get .Instance (.other 5)))).err
        = some (.other 5)
      ∧ (Reconcile Sample.forge Sample.reconciler Sample.request
          (Sample.cluster true false false (Sample.failing .get .Instance (.other 5)))).result
        = Result.empty) :=
  ⟨rfl,
    (C14_instance_fetch_failure Sample.forge Sample.reconciler Sample.request
      (Sample.withoutInstance (Sample.cluster true false false Sample.noFaults)) .notFound
      rfl).1 rfl,
    (C14_instance_fetch_failure Sample.forge Sample.reconciler Sample.request
      (Sample.cluster true false false (Sample.failing .get .Instance (.other 5))) (.other 5)
      rfl).2 rfl⟩

/-- C15: with the Instance fetched and its namespace selected, when the fetch of the
Template fails, or the Template is found and the fetch of the Tenant fails,
`Reconcile` returns that error; what it has done by then is the reads and one
warning event on the Instance (template not found, tenant not found), so that
no child resource is enforced: the stores are as before. -/
theorem C15_template_or_tenant_fetch_failure (fg : Forge) (r : InstanceReconciler)
    (req : NamespacedName) (c : Cluster) (inst : Instance)
    (hinst : (clientGet instanceResource req.Namespace req.Name c).2 = .ok inst)
    (hsel : (r.CheckSelectorLabel (c.record (.api .get .Instance req.Namespace req.Name))
      inst.metadata.Namespace r.NamespaceWhitelist).1 = true) :
    (∀ e, (clientGet templateResource inst.Spec.Template.Namespace inst.Spec.Template.Name c).2
          = .error e →
        (Reconcile fg r req c).err = some e
        ∧ (Reconcile fg r req c).result = Result.empty
        ∧ (Reconcile fg r req c).cluster = { c with log := c.log ++
            [.api .get .Instance req.Namespace req.Name,
             .api .get .Template inst.Spec.Template.Namespace inst.Spec.Template.Name,
             .event true .EvTmplNotFound] })
      ∧ (∀ template e,
        (clientGet templateResource inst.Spec.Template.Namespace inst.Spec.Template.Name c).2
          = .ok template →
        (clientGet tenantResource "" inst.Spec.Tenant.Name c).2 = .error e →
        (Reconcile fg r req c).err = some e
        ∧ (Reconcile fg r req c).result = Result.empty
        ∧ (Reconcile fg r req c).cluster = { c with log := c.log ++
            [.api .get .Instance req.Namespace req.Name,
             .api .get .Template inst.Spec.Template.Namespace inst.Spec.Template.Name,
             .api .get .Tenant "" inst.Spec.Tenant.Name,
             .event true .EvTntNotFound] }) := by
  have h := clientGet_eq instanceResource req.Namespace req.Name c
  rw [hinst] at h
  have hs : ∃ oe, r.CheckSelectorLabel (c.record (.api .get .Instance req.Namespace req.Name))
      inst.metadata.Namespace r.NamespaceWhitelist = (true, oe) := by
    rcases hc : r.CheckSelectorLabel (c.record (.api .get .Instance req.Namespace req.Name))
      inst.metadata.Namespace r.NamespaceWhitelist with ⟨b, oe⟩
    rw [hc] at hsel
    simp only at hsel
    exact ⟨oe, by rw [hsel]⟩
  obtain ⟨oe, hs⟩ := hs
  have ht := clientGet_eq templateResource inst.Spec.Template.Namespace inst.Spec.Template.Name
    (c.record (.api .get .Instance req.Namespace req.Name))
  rw [clientGet_snd_record templateResource templateResource_lawful] at ht
  constructor
  · intro e he
    rw [he] at ht
    unfold Reconcile reconcileFetch
    have h1 : instanceResource.kind = .Instance := rfl
    simp only [h, hs, h1, ht]
    simp [Cluster.record, templateResource]
  · intro template e htm he
    rw [htm] at ht
    have hn := clientGet_eq tenantResource "" inst.Spec.Tenant.Name
      ((c.record (.api .get .Instance req.Namespace req.Name)).record
        (.api .get .Template inst.Spec.Template.Namespace inst.Spec.Template.Name))
    rw [clientGet_snd_record tenantResource tenantResource_lawful,
      clientGet_snd_record tenantResource tenantResource_lawful, he] at hn
    unfold Reconcile reconcileFetch
    have h1 : instanceResource.kind = .Instance := rfl
    have h2 : templateResource.kind = .Template := rfl
    simp only [h, hs, h1, h2, ht, hn]
    simp [Cluster.record, tenantResource]

/-- C15, witness: a cluster without the Template, and one without the Tenant. -/
theorem C15_template_or_tenant_fetch_failure_witness :
    (clientGet instanceResource Sample.request.Namespace Sample.request.Name
        (Sample.withoutTemplate (Sample.cluster true false false Sample.noFaults))).2
      = .ok (Sample.inst true)
    ∧ ((Reconcile Sample.forge Sample.reconciler Sample.request
          (Sample.withoutTemplate (Sample.cluster true false false Sample.noFaults))).err
        = some .notFound
      ∧ (Reconcile Sample.forge Sample.reconciler Sample.request
          (Sample.withoutTemplate (Sample.cluster true false false Sample.noFaults))).cluster.log
        = [.api .get .Instance "tenant-tester" "kubernetes-0000",
           .api .get .Template "workspace-netgroup" "kubernetes",
           .event true .EvTmplNotFound])
    ∧ ((Reconcile Sample.forge Sample.reconciler Sample.request
          (Sample.withoutTenant (Sample.cluster true false false Sample.noFaults))).err
        = some .notFound
      ∧ (Reconcile Sample.forge Sample.reconciler Sample.request
          (Sample.withoutTenant (Sample.cluster true false false Sample.noFaults))).cluster.log
        = [.api .get .Instance "tenant-tester" "kubernetes-0000",
           .api .get .Template "workspace-netgroup" "kubernetes",
           .api .get .Tenant "" "tester",
           .event true .EvTntNotFound]) :=
  ⟨rfl,
    ⟨((C15_template_or_tenant_fetch_failure Sample.forge Sample.reconciler Sample.request
        (Sample.withoutTemplate (Sample.cluster true false false Sample.noFaults))
        (Sample.inst true) rfl rfl).1 .notFound rfl).1,
      congrArg Cluster.log ((C15_template_or_tenant_fetch_failure Sample.forge Sample.reconciler
        Sample.request (Sample.withoutTemplate (Sample.cluster true false false Sample.noFaults))
        (Sample.inst true) rfl rfl).1 .notFound rfl).2.2⟩,
    ⟨((C15_template_or_tenant_fetch_failure Sample.forge Sample.reconciler Sample.request
        (Sample.withoutTenant (Sample.cluster true false false Sample.noFaults))
        (Sample.inst true) rfl rfl).2 (Sample.template [Sample.environment false false])
        .notFound rfl rfl).1,
      congrArg Cluster.log ((C15_template_or_tenant_fetch_failure Sample.forge Sample.reconciler
        Sample.request (Sample.withoutTenant (Sample.cluster true false false Sample.noFaults))
        (Sample.inst true) rfl rfl).2 (Sample.template [Sample.environment false false])
        .notFound rfl rfl).2.2⟩⟩

/-- C16: with the Instance fetched, when the namespace selector answers "do not
proceed" without an error, `Reconcile` returns the empty result and no error,
and the cluster is as before but for the read of the Instance in the log: no
Template or Tenant is fetched, nothing is enforced or patched. -/
theorem C16_namespace_not_selected (fg : Forge) (r : InstanceReconciler) (req : NamespacedName)
    (c : Cluster) (inst : Instance)
    (hinst : (clientGet instanceResource req.Namespace req.Name c).2 = .ok inst)
    (hsel : r.CheckSelectorLabel (c.record (.api .get .Instance req.Namespace req.Name))
      inst.metadata.Namespace r.NamespaceWhitelist = (false, none)) :
    (Reconcile fg r req c).err = none ∧ (Reconcile fg r req c).result = Result.empty
      ∧ (Reconcile fg r req c).cluster = c.record (.api .get .Instance req.Namespace req.Name) := by
  have h := clientGet_eq instanceResource req.Namespace req.Name c
  rw [hinst] at h
  have h1 : instanceResource.kind = .Instance := rfl
  unfold Reconcile reconcileFetch
  simp only [h, h1, hsel]
  exact ⟨trivial, trivial, trivial⟩

/-- C16, witness: a selector that does not select the namespace of the Instance. -/
theorem C16_namespace_not_selected_witness :
    (clientGet instanceResource Sample.request.Namespace Sample.request.Name
        (Sample.cluster true false false Sample.noFaults)).2 = .ok (Sample.inst true)
    ∧ (Reconcile Sample.forge Sample.reconcilerNotSelected Sample.request
        (Sample.cluster true false false Sample.noFaults)).err = none
    ∧ (Reconcile Sample.forge Sample.reconcilerNotSelected Sample.request
        (Sample.cluster true false false Sample.noFaults)).cluster.log
      = [.api .get .Instance "tenant-tester" "kubernetes-0000"] :=
  ⟨rfl,
    (C16_namespace_not_selected Sample.forge Sample.reconcilerNotSelected Sample.request
      (Sample.cluster true false false Sample.noFaults) (Sample.inst true) rfl rfl).1,
    congrArg Cluster.log (C16_namespace_not_selected Sample.forge Sample.reconcilerNotSelected
      Sample.request (Sample.cluster true false false Sample.noFaults) (Sample.inst true)
      rfl rfl).2.2⟩

/-! ### enforceEnvironments: templates with several environments -/

theorem enforceEnvironmentsFrom_two (fg : Forge) (r : InstanceReconciler) (e1 e2 : Environment)
    (rest : List Environment) (inst : Instance) (c : Cluster) :
    enforceEnvironmentsFrom fg r 0 (e1 :: e2 :: rest) inst c
      = enforceEnvironmentsFrom fg r 0 [e1] inst c := by
  simp only [enforceEnvironmentsFrom, ge_iff_le, Nat.le_zero_eq, Nat.succ_ne_zero,
    if_false, Nat.zero_add, Nat.le_refl, if_true]

theorem Outcome_eta (o : Outcome) (h : o.err = none) : (⟨o.cluster, o.inst, none⟩ : Outcome) = o := by
  cases o
  simp only at h
  subst h
  rfl

/-- C12: for a Template with two or more environments, `enforceEnvironments` ends
exactly as for the Template with the first environment alone (same cluster and
log, same Instance, same error): nothing is enforced and no event is recorded
for a later entry. When the enforcement of the first entry succeeds the
outcome is that of this enforcement with no error, and `Reconcile` returns no
error unless the final status patch fails. -/
theorem C12_only_first_environment (fg : Forge) (r : InstanceReconciler) (req : NamespacedName)
    (c c1 : Cluster) (inst : Instance) (template : Template) (tenant : Tenant)
    (e1 e2 : Environment) (rest : List Environment)
    (hfetch : reconcileFetch fg r req c = .proceed c1 inst template tenant)
    (hlist : template.Spec.EnvironmentList = e1 :: e2 :: rest) :
    enforceEnvironments fg r template inst c1
        = enforceEnvironments fg r { template with Spec := { EnvironmentList := [e1] } } inst c1
      ∧ (e1.EnvironmentType = .ClassVM → (EnforceVMEnvironment fg r e1 inst c1).err = none →
        enforceEnvironments fg r template inst c1 = EnforceVMEnvironment fg r e1 inst c1)
      ∧ (e1.EnvironmentType = .ClassContainer →
        (r.EnforceContainerEnvironment inst e1 c1).err = none →
        enforceEnvironments fg r template inst c1 = r.EnforceContainerEnvironment inst e1 c1)
      ∧ ((enforceEnvironments fg r template inst c1).err = none →
        (inst.Status = (enforceEnvironments fg r template inst c1).inst.Status
          ∨ (clientStatusPatch inst (enforceEnvironments fg r template inst c1).inst
              (enforceEnvironments fg r template inst c1).cluster).2 = none) →
        (Reconcile fg r req c).err = none ∧ (Reconcile fg r req c).result = Result.empty) := by
  have hE : enforceEnvironments fg r template inst c1
      = enforceEnvironmentsFrom fg r 0 [e1] inst c1 := by
    unfold enforceEnvironments
    rw [hlist, enforceEnvironmentsFrom_two]
  refine ⟨?_, ?_, ?_, ?_⟩
  · rw [hE]; rfl
  · intro hvm hok
    rw [hE]
    simp only [enforceEnvironmentsFrom, ge_iff_le, Nat.le_zero_eq, if_false, hvm, hok]
    exact Outcome_eta _ hok
  · intro hct hok
    rw [hE]
    simp only [enforceEnvironmentsFrom, ge_iff_le, Nat.le_zero_eq, if_false, hct, hok]
    exact Outcome_eta _ hok
  · intro herr hpatch
    rw [Reconcile_of_proceed fg r req c c1 inst template tenant hfetch]
    refine ⟨?_, rfl⟩
    have hupd : afterEnforcement (enforceEnvironments fg r template inst c1)
        = (enforceEnvironments fg r template inst c1).inst := by
      simp [afterEnforcement, herr]
    simp only [reconcileEnforce, hupd, patchStatusDeferred, herr]
    rcases hpatch with heq | hp
    · simp [heq]
    · split
      · rcases hcp : clientStatusPatch inst (enforceEnvironments fg r template inst c1).inst
          (enforceEnvironments fg r template inst c1).cluster with ⟨c2, e2⟩
        rw [hcp] at hp
        simp only at hp
        subst hp
        rfl
      · rfl

/-- C12, witness: a Template with two VM environments; only the objects of the
first one are requested, no event is recorded, no error is returned. -/
theorem C12_only_first_environment_witness :
    reconcileFetch Sample.forge Sample.reconciler Sample.request
        (Sample.withEnvironments [Sample.environment false false, Sample.environment true true]
          (Sample.cluster true false false Sample.noFaults))
      = .proceed (Sample.fetched (Sample.withEnvironments
            [Sample.environment false false, Sample.environment true true]
            (Sample.cluster true false false Sample.noFaults)))
          (Sample.inst true)
          (Sample.template [Sample.environment false false, Sample.environment true true])
          Sample.tenant
    ∧ (enforceEnvironments Sample.forge Sample.reconciler
          (Sample.template [Sample.environment false false, Sample.environment true true])
          (Sample.inst true)
          (Sample.fetched (Sample.withEnvironments
            [Sample.environment false false, Sample.environment true true]
            (Sample.cluster true false false Sample.noFaults))))
        = EnforceVMEnvironment Sample.forge Sample.reconciler (Sample.environment false false)
            (Sample.inst true)
            (Sample.fetched (Sample.withEnvironments
              [Sample.environment false false, Sample.environment true true]
              (Sample.cluster true false false Sample.noFaults)))
    ∧ (Reconcile Sample.forge Sample.reconciler Sample.request
        (Sample.withEnvironments [Sample.environment false false, Sample.environment true true]
          (Sample.cluster true false false Sample.noFaults))).err = none
    ∧ (Reconcile Sample.forge Sample.reconciler Sample.request
        (Sample.withEnvironments [Sample.environment false false, Sample.environment true true]
          (Sample.cluster true false false Sample.noFaults))).cluster.virtualMachines = [] :=
  ⟨rfl,
    (C12_only_first_environment Sample.forge Sample.reconciler Sample.request
      (Sample.withEnvironments [Sample.environment false false, Sample.environment true true]
        (Sample.cluster true false false Sample.noFaults))
      (Sample.fetched (Sample.withEnvironments
        [Sample.environment false false, Sample.environment true true]
        (Sample.cluster true false false Sample.noFaults)))
      (Sample.inst true)
      (Sample.template [Sample.environment false false, Sample.environment true true])
      Sample.tenant (Sample.environment false false) (Sample.environment true true) []
      rfl rfl).2.1 rfl rfl,
    ((C12_only_first_environment Sample.forge Sample.reconciler Sample.request
      (Sample.withEnvironments [Sample.environment false false, Sample.environment true true]
        (Sample.cluster true false false Sample.noFaults))
      (Sample.fetched (Sample.withEnvironments
        [Sample.environment false false, Sample.environment true true]
        (Sample.cluster true false false Sample.noFaults)))
      (Sample.inst true)
      (Sample.template [Sample.environment false false, Sample.environment true true])
      Sample.tenant (Sample.environment false false) (Sample.environment true true) []
      rfl rfl).2.2.2 rfl (Or.inr rfl)).1,
    rfl⟩

/-! ### EnforceVMEnvironment: a failing secret step -/

/-- C13, as stated, fails: the secret step fails with error 3, and
`EnforceVMEnvironment` returns error 3 having requested nothing but what the
secret step did: no Service, no VirtualMachineInstance is there afterwards. -/
theorem C13_secret_failure_stops_counterexample :
    (EnforceVMEnvironment Sample.forge (Sample.reconcilerSecretFails (.other 3))
        (Sample.environment false false) (Sample.inst true)
        (Sample.cluster true false false Sample.noFaults)).err = some (.other 3)
    ∧ (EnforceVMEnvironment Sample.forge (Sample.reconcilerSecretFails (.other 3))
        (Sample.environment false false) (Sample.inst true)
        (Sample.cluster true false false Sample.noFaults)).cluster.log
      = [.api .get .Secret "tenant-tester" "webdav-credentials"]
    ∧ (EnforceVMEnvironment Sample.forge (Sample.reconcilerSecretFails (.other 3))
        (Sample.environment false false) (Sample.inst true)
        (Sample.cluster true false false Sample.noFaults)).cluster.services = []
    ∧ (EnforceVMEnvironment Sample.forge (Sample.reconcilerSecretFails (.other 3))
        (Sample.environment false false) (Sample.inst true)
        (Sample.cluster true false false Sample.noFaults)).cluster.virtualMachineInstances = []
    ∧ (EnforceVMEnvironment Sample.forge Sample.reconciler
        (Sample.environment false false) (Sample.inst true)
        (Sample.cluster true false false Sample.noFaults)).cluster.services.length = 1 :=
  ⟨rfl, rfl, rfl, rfl, rfl⟩

/-- C13, amended: a failure of the secret step is fatal. `EnforceVMEnvironment`
returns the error of the secret step at once: the Instance is as it was and
the cluster is as the secret step left it, so neither the exposition nor the
compute workload is enforced. -/
theorem C13_secret_failure_is_returned (fg : Forge) (r : InstanceReconciler)
    (env : Environment) (inst : Instance) (c : Cluster) (e : Err)
    (hs : (r.EnforceCloudInitSecret inst env c).err = some e) :
    (EnforceVMEnvironment fg r env inst c).err = some e
      ∧ (EnforceVMEnvironment fg r env inst c).inst = inst
      ∧ (EnforceVMEnvironment fg r env inst c).cluster
        = c.afterSecret (r.EnforceCloudInitSecret inst env c) := by
  unfold EnforceVMEnvironment
  simp only [hs]
  exact ⟨trivial, trivial, trivial⟩

/-- C13 amended, witness: the failing secret step of the counterexample. -/
theorem C13_secret_failure_is_returned_witness :
    ((Sample.reconcilerSecretFails (.other 3)).EnforceCloudInitSecret (Sample.inst true)
        (Sample.environment false false) (Sample.cluster true false false Sample.noFaults)).err
      = some (.other 3)
    ∧ (EnforceVMEnvironment Sample.forge (Sample.reconcilerSecretFails (.other 3))
        (Sample.environment false false) (Sample.inst true)
        (Sample.cluster true false false Sample.noFaults)).err = some (.other 3)
    ∧ (EnforceVMEnvironment Sample.forge (Sample.reconcilerSecretFails (.other 3))
        (Sample.environment false false) (Sample.inst true)
        (Sample.cluster true false false Sample.noFaults)).inst = Sample.inst true :=
  ⟨rfl,
    (C13_secret_failure_is_returned Sample.forge (Sample.reconcilerSecretFails (.other 3))
      (Sample.environment false false) (Sample.inst true)
      (Sample.cluster true false false Sample.noFaults) (.other 3) rfl).1,
    (C13_secret_failure_is_returned Sample.forge (Sample.reconcilerSecretFails (.other 3))
      (Sample.environment false false) (Sample.inst true)
      (Sample.cluster true false false Sample.noFaults) (.other 3) rfl).2.1⟩

/-! ### forge: CPU requests -/

/-- C20: for an environment with at least one core and a reserved percentage of at
most 100, the CPU request is `cores * 1000 * reserved / 100` milli-cores, the
division being exact (it is `cores * 10 * reserved`), and it does not exceed
the `cores * 1000` milli-cores of the environment. -/
theorem C20_cpu_requests (env : Environment) (_hc : 0 < env.Resources.CPU)
    (hr : env.Resources.ReservedCPUPercentage ≤ 100) :
    VirtualMachineCPURequests env
        = env.Resources.CPU * 1000 * env.Resources.ReservedCPUPercentage / 100
      ∧ VirtualMachineCPURequests env * 100
        = env.Resources.CPU * 1000 * env.Resources.ReservedCPUPercentage
      ∧ VirtualMachineCPURequests env
        = env.Resources.CPU * 10 * env.Resources.ReservedCPUPercentage
      ∧ VirtualMachineCPURequests env ≤ env.Resources.CPU * 1000 := by
  have h1 : env.Resources.CPU * 1000 * env.Resources.ReservedCPUPercentage
      = env.Resources.CPU * 10 * env.Resources.ReservedCPUPercentage * 100 := by ring
  have h2 : VirtualMachineCPURequests env
      = env.Resources.CPU * 10 * env.Resources.ReservedCPUPercentage := by
    unfold VirtualMachineCPURequests
    rw [h1]
    exact Nat.mul_div_cancel _ (by decide)
  refine ⟨rfl, ?_, h2, ?_⟩
  · rw [h2, h1]
  · rw [h2]
    have : env.Resources.CPU * 10 * env.Resources.ReservedCPUPercentage
        ≤ env.Resources.CPU * 10 * 100 := Nat.mul_le_mul_left _ hr
    omega

/-- C20, witness: the fixture of the forge test, 2 cores with 25% reserved, gives
500 milli-cores. -/
theorem C20_cpu_requests_witness :
    0 < (Sample.environment false false).Resources.CPU
    ∧ (Sample.environment false false).Resources.ReservedCPUPercentage ≤ 100
    ∧ VirtualMachineCPURequests (Sample.environment false false) = 500
    ∧ VirtualMachineCPURequests (Sample.environment false false) * 100 = 2 * 1000 * 25 :=
  ⟨by decide, by decide, by decide,
    (C20_cpu_requests (Sample.environment false false) (by decide) (by decide)).2.1⟩

/-! ### CreateOrUpdate: what is stored afterwards -/

/-- Where an object stored after `CreateOrUpdate` comes from: it was there and is
untouched, it was there and is the result of the mutate function, or it was
not there and has been created, with a creation timestamp. -/
theorem CreateOrUpdate_origin {α : Type} [DecidableEq α] (R : Resource α) (hR : R.Lawful)
    (obj : α) (f : α → α × Option Err) (c : Cluster) (ns n : String) (y : α)
    (hy : lookup R.metaOf ns n (R.list (CreateOrUpdate R obj f c).cluster) = some y) :
    lookup R.metaOf ns n (R.list c) = some y
      ∨ (∃ x, lookup R.metaOf ns n (R.list c) = some x ∧ f x = (y, none))
      ∨ (lookup R.metaOf ns n (R.list c) = none
        ∧ (R.metaOf y).CreationTimestamp = c.clock + 1
        ∧ ∃ o, f obj = (o, none) ∧ R.metaOf y = { R.metaOf o with CreationTimestamp := c.clock + 1 }
          ∧ y = R.setMeta { R.metaOf o with CreationTimestamp := c.clock + 1 }
              (R.serverDefaults (c.record (.api .get R.kind (R.metaOf obj).Namespace
                (R.metaOf obj).Name)) o)) := by
  have key : ∀ z : α, hasKey (R.metaOf z) (R.metaOf obj).Namespace (R.metaOf obj).Name = true →
      hasKey (R.metaOf z) ns n = true →
      ns = (R.metaOf obj).Namespace ∧ n = (R.metaOf obj).Name := by
    intro z h1 h2
    rw [hasKey_iff] at h1 h2
    exact ⟨h2.1.symm.trans h1.1, h2.2.symm.trans h1.2⟩
  rcases CreateOrUpdate_cases R hR obj f c with ⟨_, hl⟩ | ⟨_, hnone, o, hfo, hk, hobj, _, hl⟩
      | ⟨_, existing, hex, hfe, hk, ⟨_, hl⟩ | ⟨_, hl⟩⟩
  · rw [hl] at hy; exact Or.inl hy
  · rw [hl] at hy
    have hk2 : hasKey (R.metaOf (CreateOrUpdate R obj f c).obj) (R.metaOf obj).Namespace
        (R.metaOf obj).Name = true := by
      rw [hobj, hR.metaOf_setMeta]
      rw [hasKey_iff] at hk ⊢
      exact hk
    cases hkk : hasKey (R.metaOf (CreateOrUpdate R obj f c).obj) ns n with
    | false =>
      rw [lookup_store_other _ _ _ _ _ hkk] at hy
      exact Or.inl hy
    | true =>
      rw [lookup_store_same _ _ _ _ _ hkk] at hy
      simp only [Option.some.injEq] at hy
      obtain ⟨h1, h2⟩ := key _ hk2 hkk
      subst h1 h2
      right; right
      refine ⟨hnone, ?_, o, hfo, ?_, ?_⟩
      · rw [← hy, hobj, hR.metaOf_setMeta]
      · rw [← hy, hobj, hR.metaOf_setMeta]
      · rw [← hy, hobj]
  · rw [hl] at hy; exact Or.inl hy
  · rw [hl] at hy
    cases hkk : hasKey (R.metaOf (CreateOrUpdate R obj f c).obj) ns n with
    | false =>
      rw [lookup_store_other _ _ _ _ _ hkk] at hy
      exact Or.inl hy
    | true =>
      rw [lookup_store_same _ _ _ _ _ hkk] at hy
      simp only [Option.some.injEq] at hy
      obtain ⟨h1, h2⟩ := key _ hk hkk
      subst h1 h2
      right; left
      exact ⟨existing, hex, by rw [← hy]; exact hfe⟩

/-- After a successful `CreateOrUpdate` the object stored under the key is the
result of the mutate function, applied to the object that was there or, when
there was none, to the object handed in; the server only adds the creation
timestamp (and its defaults) to a created one. -/
theorem CreateOrUpdate_ok_mutated {α : Type} [DecidableEq α] (R : Resource α) (hR : R.Lawful)
    (obj : α) (f : α → α × Option Err) (c : Cluster)
    (hok : (CreateOrUpdate R obj f c).err = none) :
    ∃ o, (R.metaOf (CreateOrUpdate R obj f c).obj).Labels = (R.metaOf o).Labels
      ∧ (R.metaOf (CreateOrUpdate R obj f c).obj).OwnerReferences = (R.metaOf o).OwnerReferences
      ∧ ((∃ existing, lookup R.metaOf (R.metaOf obj).Namespace (R.metaOf obj).Name (R.list c)
            = some existing ∧ f existing = (o, none))
        ∨ (lookup R.metaOf (R.metaOf obj).Namespace (R.metaOf obj).Name (R.list c) = none
            ∧ f obj = (o, none))) := by
  rcases CreateOrUpdate_cases R hR obj f c with ⟨hne, _⟩ | ⟨_, hnone, o, hfo, _, hobj, _, _⟩
      | ⟨_, existing, hex, hfe, _, _⟩
  · exact absurd hok hne
  · refine ⟨o, ?_, ?_, Or.inr ⟨hnone, hfo⟩⟩
    · rw [hobj, hR.metaOf_setMeta]
    · rw [hobj, hR.metaOf_setMeta]
  · exact ⟨_, rfl, rfl, Or.inl ⟨existing, hex, hfe⟩⟩

/-- The requests of `CreateOrUpdate`: a read of the object, then requests about
that same object. -/
theorem CreateOrUpdate_log_key {α : Type} [DecidableEq α] (R : Resource α) (hR : R.Lawful)
    (obj : α) (f : α → α × Option Err) (c : Cluster) :
    ∃ acts, (CreateOrUpdate R obj f c).cluster.log
        = c.log ++ (.api .get R.kind (R.metaOf obj).Namespace (R.metaOf obj).Name :: acts)
      ∧ ∀ a ∈ acts, Action.onObject a R.kind (R.metaOf obj).Namespace (R.metaOf obj).Name
          = true := by
  have h1 := clientGet_fst R (R.metaOf obj).Namespace (R.metaOf obj).Name c
  have hget : ∃ acts, (c.record (.api .get R.kind (R.metaOf obj).Namespace
      (R.metaOf obj).Name)).log
        = c.log ++ (.api .get R.kind (R.metaOf obj).Namespace (R.metaOf obj).Name :: acts)
      ∧ ∀ a ∈ acts, Action.onObject a R.kind (R.metaOf obj).Namespace (R.metaOf obj).Name
          = true :=
    ⟨[], rfl, by simp⟩
  unfold CreateOrUpdate
  simp only
  rcases hg : clientGet R (R.metaOf obj).Namespace (R.metaOf obj).Name c with ⟨c1, e | existing⟩
  · rw [hg] at h1
    simp only at h1
    subst h1
    simp only
    split
    · exact hget
    · rcases hm : mutate R f (R.metaOf obj).Namespace (R.metaOf obj).Name obj with ⟨o, _ | e1⟩
      · simp only
        have hk := (hasKey_iff _ _ _).1 (mutate_ok R f _ _ _ _ hm).2
        have h2 := clientCreate_log R hR o (c.record (.api .get R.kind
          (R.metaOf obj).Namespace (R.metaOf obj).Name))
        rw [hk.1, hk.2] at h2
        have h3 : ∃ acts, (clientCreate R o (c.record (.api .get R.kind
            (R.metaOf obj).Namespace (R.metaOf obj).Name))).1.log
              = c.log ++ (.api .get R.kind (R.metaOf obj).Namespace (R.metaOf obj).Name :: acts)
            ∧ ∀ a ∈ acts, Action.onObject a R.kind (R.metaOf obj).Namespace
                (R.metaOf obj).Name = true :=
          ⟨[.api .create R.kind (R.metaOf obj).Namespace (R.metaOf obj).Name], by
              rw [h2]; simp [Cluster.record], by simp [Action.onObject]⟩
        rcases hcc : clientCreate R o (c.record (.api .get R.kind (R.metaOf obj).Namespace
          (R.metaOf obj).Name)) with ⟨c2, _ | _⟩
        · rw [hcc] at h3; exact h3
        · rw [hcc] at h3; exact h3
      · exact hget
  · rw [hg] at h1
    simp only at h1
    subst h1
    simp only
    rcases hm : mutate R f (R.metaOf obj).Namespace (R.metaOf obj).Name existing with ⟨o, _ | e1⟩
    · simp only
      split
      · exact hget
      · have hk := (hasKey_iff _ _ _).1 (mutate_ok R f _ _ _ _ hm).2
        have h2 := clientUpdate_log R hR o (c.record (.api .get R.kind
          (R.metaOf obj).Namespace (R.metaOf obj).Name))
        rw [hk.1, hk.2] at h2
        have h3 : ∃ acts, (clientUpdate R o (c.record (.api .get R.kind
            (R.metaOf obj).Namespace (R.metaOf obj).Name))).1.log
              = c.log ++ (.api .get R.kind (R.metaOf obj).Namespace (R.metaOf obj).Name :: acts)
            ∧ ∀ a ∈ acts, Action.onObject a R.kind (R.metaOf obj).Namespace
                (R.metaOf obj).Name = true :=
          ⟨[.api .update R.kind (R.metaOf obj).Namespace (R.metaOf obj).Name], by
              rw [h2]; simp [Cluster.record], by simp [Action.onObject]⟩
        rcases hcc : clientUpdate R o (c.record (.api .get R.kind (R.metaOf obj).Namespace
          (R.metaOf obj).Name)) with ⟨c2, _ | _⟩
        · rw [hcc] at h3; exact h3
        · rw [hcc] at h3; exact h3
    · exact hget

/-! ### The return paths of the exposition and of EnforceVMEnvironment -/

/-- The six return paths of `enforceInstanceExpositionPresence`. -/
theorem enforceInstanceExpositionPresence_cases (fg : Forge) (r : InstanceReconciler)
    (env : Environment) (inst : Instance) (c : Cluster) :
    (∃ err, (enforceServicePresence fg env inst c).err = some err
        ∧ enforceInstanceExpositionPresence fg r env inst c
          = ⟨(enforceServicePresence fg env inst c).cluster, inst, some err⟩)
      ∨ ((enforceServicePresence fg env inst c).err = none
        ∧ env.EnvironmentType = .ClassVM ∧ env.GuiEnabled = false
        ∧ enforceInstanceExpositionPresence fg r env inst c
          = ⟨(enforceServicePresence fg env inst c).cluster, presenceInst1 fg env inst c, none⟩)
      ∨ ((enforceServicePresence fg env inst c).err = none
        ∧ ¬ (env.EnvironmentType = .ClassVM ∧ env.GuiEnabled = false)
        ∧ ∃ err, (presenceStage2 fg r env inst c).err = some err
          ∧ enforceInstanceExpositionPresence fg r env inst c
            = ⟨(presenceStage2 fg r env inst c).cluster, presenceInst1 fg env inst c, some err⟩)
      ∨ ((enforceServicePresence fg env inst c).err = none
        ∧ env.EnvironmentType = .ClassVM ∧ env.GuiEnabled = true
        ∧ (presenceStage2 fg r env inst c).err = none
        ∧ enforceInstanceExpositionPresence fg r env inst c
          = ⟨(presenceStage2 fg r env inst c).cluster, presenceInst2 fg r env inst c, none⟩)
      ∨ ((enforceServicePresence fg env inst c).err = none
        ∧ env.EnvironmentType ≠ .ClassVM
        ∧ (presenceStage2 fg r env inst c).err = none
        ∧ ∃ err, (presenceStage3 fg r env inst c).err = some err
          ∧ enforceInstanceExpositionPresence fg r env inst c
            = ⟨(presenceStage3 fg r env inst c).cluster, presenceInst2 fg r env inst c,
                some err⟩)
      ∨ ((enforceServicePresence fg env inst c).err = none
        ∧ env.EnvironmentType ≠ .ClassVM
        ∧ (presenceStage2 fg r env inst c).err = none
        ∧ (presenceStage3 fg r env inst c).err = none
        ∧ enforceInstanceExpositionPresence fg r env inst c
          = ⟨(presenceStage3 fg r env inst c).cluster,
              withMyDriveURL (presenceInst2 fg r env inst c)
                ("https://" ++ r.WebsiteBaseURL
                  ++ fg.IngressMyDrivePath (presenceInst2 fg r env inst c)),
              none⟩) := by
  unfold enforceInstanceExpositionPresence
  simp only
  cases h1 : (enforceServicePresence fg env inst c).err with
  | some err => left; exact ⟨err, rfl, rfl⟩
  | none =>
    right
    simp only
    by_cases hvm : env.EnvironmentType = .ClassVM
    · cases hgui : env.GuiEnabled with
      | false =>
        left
        simp [hvm, hgui, presenceInst1]
      | true =>
        right
        simp only [hvm, hgui, Bool.not_true, Bool.and_false, Bool.false_eq_true, if_false,
          decide_True]
        cases h2 : (presenceStage2 fg r env inst c).err with
        | some err =>
          left
          have h2b : (enforceIngressGUIPresence fg r
              (withIP inst (enforceServicePresence fg env inst c).obj.Spec.ClusterIP)
              (enforceServicePresence fg env inst c).obj.metadata.Name
              (enforceServicePresence fg env inst c).cluster).err = some err := h2
          simp only [h2b]
          exact ⟨trivial, by simp, err, rfl, rfl⟩
        | none =>
          right; left
          have h2b : (enforceIngressGUIPresence fg r
              (withIP inst (enforceServicePresence fg env inst c).obj.Spec.ClusterIP)
              (enforceServicePresence fg env inst c).obj.metadata.Name
              (enforceServicePresence fg env inst c).cluster).err = none := h2
          simp only [h2b, if_true]
          exact ⟨trivial, trivial, trivial, trivial, rfl⟩
    · right
      have hd : (env.EnvironmentType = EnvironmentType.ClassVM && !env.GuiEnabled) = false := by
        simp [hvm]
      simp only [hd, Bool.false_eq_true, if_false, hvm]
      cases h2 : (presenceStage2 fg r env inst c).err with
      | some err =>
        left
        have h2b : (enforceIngressGUIPresence fg r
            (withIP inst (enforceServicePresence fg env inst c).obj.Spec.ClusterIP)
            (enforceServicePresence fg env inst c).obj.metadata.Name
            (enforceServicePresence fg env inst c).cluster).err = some err := h2
        simp only [h2b]
        exact ⟨trivial, fun h => h.1.elim, err, rfl, rfl⟩
      | none =>
        right; right
        have h2b : (enforceIngressGUIPresence fg r
            (withIP inst (enforceServicePresence fg env inst c).obj.Spec.ClusterIP)
            (enforceServicePresence fg env inst c).obj.metadata.Name
            (enforceServicePresence fg env inst c).cluster).err = none := h2
        simp only [h2b]
        cases h3 : (presenceStage3 fg r env inst c).err with
        | some err =>
          left
          have h3b : (enforceIngressMyDrivePresence fg r
              (withURL (withIP inst (enforceServicePresence fg env inst c).obj.Spec.ClusterIP)
                ("https://" ++ r.WebsiteBaseURL ++ fg.IngressGUIPath
                  (withIP inst (enforceServicePresence fg env inst c).obj.Spec.ClusterIP)))
              (enforceServicePresence fg env inst c).obj.metadata.Name
              (enforceIngressGUIPresence fg r
                (withIP inst (enforceServicePresence fg env inst c).obj.Spec.ClusterIP)
                (enforceServicePresence fg env inst c).obj.metadata.Name
                (enforceServicePresence fg env inst c).cluster).cluster).err = some err := h3
          simp only [h3b]
          exact ⟨trivial, hvm, trivial, err, rfl, rfl⟩
        | none =>
          right
          have h3b : (enforceIngressMyDrivePresence fg r
              (withURL (withIP inst (enforceServicePresence fg env inst c).obj.Spec.ClusterIP)
                ("https://" ++ r.WebsiteBaseURL ++ fg.IngressGUIPath
                  (withIP inst (enforceServicePresence fg env inst c).obj.Spec.ClusterIP)))
              (enforceServicePresence fg env inst c).obj.metadata.Name
              (enforceIngressGUIPresence fg r
                (withIP inst (enforceServicePresence fg env inst c).obj.Spec.ClusterIP)
                (enforceServicePresence fg env inst c).obj.metadata.Name
                (enforceServicePresence fg env inst c).cluster).cluster).err = none := h3
          simp only [h3b]
          exact ⟨trivial, hvm, trivial, trivial, rfl⟩

/-! ### exposition.go: which Ingress is enforced -/

theorem EnforceInstanceExposition_running (fg : Forge) (r : InstanceReconciler)
    (env : Environment) (inst : Instance) (c : Cluster) (hrun : inst.Spec.Running = true) :
    EnforceInstanceExposition fg r env inst c
      = enforceInstanceExpositionPresence fg r env inst c := by
  unfold EnforceInstanceExposition
  simp [hrun]

theorem EnforceInstanceExposition_not_running (fg : Forge) (r : InstanceReconciler)
    (env : Environment) (inst : Instance) (c : Cluster) (hrun : inst.Spec.Running = false) :
    EnforceInstanceExposition fg r env inst c = enforceInstanceExpositionAbsence fg inst c := by
  unfold EnforceInstanceExposition
  simp [hrun]

/-- C11, as stated, fails in its "only if": for an environment whose type is neither
VM nor Container, a running Instance and a cluster without faults,
`EnforceInstanceExposition` succeeds, creates the File-Sync Ingress and sets
`status.myDriveUrl`, since the File-Sync part is skipped for the VM class only. -/
theorem C11_file_sync_ingress_other_type_counterexample :
    Sample.otherEnvironment.EnvironmentType ≠ .ClassContainer
    ∧ Sample.otherEnvironment.EnvironmentType ≠ .ClassVM
    ∧ (Sample.inst true).Spec.Running = true
    ∧ (EnforceInstanceExposition Sample.forge Sample.reconciler Sample.otherEnvironment
        (Sample.inst true) (Sample.cluster true false false Sample.noFaults)).err = none
    ∧ Action.api .create .Ingress "tenant-tester" "kubernetes-0000-mydrive"
        ∈ (EnforceInstanceExposition Sample.forge Sample.reconciler Sample.otherEnvironment
            (Sample.inst true) (Sample.cluster true false false Sample.noFaults)).cluster.log
    ∧ ((EnforceInstanceExposition Sample.forge Sample.reconciler Sample.otherEnvironment
        (Sample.inst true) (Sample.cluster true false false Sample.noFaults)).cluster.ingress
          "tenant-tester" "kubernetes-0000-mydrive").isSome = true
    ∧ (Sample.inst true).Status.MyDriveURL = ""
    ∧ (EnforceInstanceExposition Sample.forge Sample.reconciler Sample.otherEnvironment
        (Sample.inst true) (Sample.cluster true false false Sample.noFaults)).inst.Status.MyDriveURL
      = "https://crownlabs.example.com/kubernetes-0000/mydrive" := by
  refine ⟨by decide, by decide, rfl, by decide, by decide, by decide, rfl, by decide⟩

/-- C11, amended: for a running Instance and a successful
`EnforceInstanceExposition`, the File-Sync Ingress is enforced and
`status.myDriveUrl` set if and only if the environment is not of the VM class.
For every environment that is not a VM (a Container, or any other type) the
File-Sync Ingress has been read and is stored under its name, and
`status.myDriveUrl` is "https://" + WebsiteBaseURL + the MyDrive path. For a VM
environment `status.myDriveUrl` is left as it was and every request is about
the Service or about the GUI Ingress, so that no File-Sync Ingress is enforced;
with the GUI enabled the GUI Ingress is stored under its name and `status.url`
is "https://" + WebsiteBaseURL + the GUI path derived from the Instance. -/
theorem C11_file_sync_ingress_iff_not_vm (fg : Forge) (r : InstanceReconciler)
    (env : Environment) (inst : Instance) (c : Cluster)
    (hrun : inst.Spec.Running = true)
    (hok : (EnforceInstanceExposition fg r env inst c).err = none) :
    (env.EnvironmentType ≠ .ClassVM →
        (∃ ing, (EnforceInstanceExposition fg r env inst c).cluster.ingress
            (fg.ObjectMetaWithSuffix (presenceInst2 fg r env inst c)
              fg.IngressMyDriveNameSuffix).Namespace
            (fg.ObjectMetaWithSuffix (presenceInst2 fg r env inst c)
              fg.IngressMyDriveNameSuffix).Name = some ing)
        ∧ Action.api .get .Ingress
            (fg.ObjectMetaWithSuffix (presenceInst2 fg r env inst c)
              fg.IngressMyDriveNameSuffix).Namespace
            (fg.ObjectMetaWithSuffix (presenceInst2 fg r env inst c)
              fg.IngressMyDriveNameSuffix).Name
          ∈ (EnforceInstanceExposition fg r env inst c).cluster.log
        ∧ (EnforceInstanceExposition fg r env inst c).inst.Status.MyDriveURL
          = "https://" ++ r.WebsiteBaseURL
              ++ fg.IngressMyDrivePath (presenceInst2 fg r env inst c))
      ∧ (env.EnvironmentType = .ClassVM →
        (EnforceInstanceExposition fg r env inst c).inst.Status.MyDriveURL
            = inst.Status.MyDriveURL
        ∧ ∃ acts, (EnforceInstanceExposition fg r env inst c).cluster.log = c.log ++ acts
          ∧ ∀ a ∈ acts, Action.onKind a .Service = true
            ∨ Action.onObject a .Ingress
                (fg.ObjectMetaWithSuffix (presenceInst1 fg env inst c)
                  fg.IngressGUINameSuffix).Namespace
                (fg.ObjectMetaWithSuffix (presenceInst1 fg env inst c)
                  fg.IngressGUINameSuffix).Name = true)
      ∧ (env.EnvironmentType = .ClassVM → env.GuiEnabled = true →
        (∃ ing, (EnforceInstanceExposition fg r env inst c).cluster.ingress
            (fg.ObjectMetaWithSuffix (presenceInst1 fg env inst c)
              fg.IngressGUINameSuffix).Namespace
            (fg.ObjectMetaWithSuffix (presenceInst1 fg env inst c)
              fg.IngressGUINameSuffix).Name = some ing)
        ∧ (EnforceInstanceExposition fg r env inst c).inst.Status.URL
          = "https://" ++ r.WebsiteBaseURL
              ++ fg.IngressGUIPath (presenceInst1 fg env inst c)) := by
  rw [EnforceInstanceExposition_running fg r env inst c hrun] at hok ⊢
  obtain ⟨acts1, hl1, ha1⟩ := CreateOrUpdate_log serviceResource serviceResource_lawful
    { metadata := fg.ObjectMeta inst, Spec := { ClusterIP := "", Rest := "" } }
    (serviceMutate fg inst env) c
  have hl1b : (enforceServicePresence fg env inst c).cluster.log = c.log ++ acts1 := hl1
  rcases enforceInstanceExpositionPresence_cases fg r env inst c with
    ⟨err, _, h⟩ | ⟨_, hvm, hgui, h⟩ | ⟨_, _, err, _, h⟩ | ⟨_, hvm, hgui, h2, h⟩
      | ⟨_, _, _, err, _, h⟩ | ⟨_, hvm, h2, h3, h⟩
  · rw [h] at hok; simp at hok
  · rw [h]
    refine ⟨fun hc => ?_, fun _ => ⟨rfl, acts1, hl1b, fun a ha => Or.inl (ha1 a ha)⟩,
      fun _ hg => ?_⟩
    · exact absurd hvm hc
    · rw [hgui] at hg; exact Bool.noConfusion hg
  · rw [h] at hok; simp at hok
  · rw [h]
    obtain ⟨acts2, hl2, ha2⟩ := CreateOrUpdate_log_key ingressResource ingressResource_lawful
      { metadata := fg.ObjectMetaWithSuffix (presenceInst1 fg env inst c)
          fg.IngressGUINameSuffix, Spec := { Rest := "" } }
      (ingressGUIMutate fg r.WebsiteBaseURL r.InstancesAuthURL (presenceInst1 fg env inst c)
        (fg.IngressGUIPath (presenceInst1 fg env inst c))
        (enforceServicePresence fg env inst c).obj.metadata.Name)
      (enforceServicePresence fg env inst c).cluster
    have hl2b : (presenceStage2 fg r env inst c).cluster.log
        = (enforceServicePresence fg env inst c).cluster.log
          ++ (.api .get .Ingress
            (fg.ObjectMetaWithSuffix (presenceInst1 fg env inst c)
              fg.IngressGUINameSuffix).Namespace
            (fg.ObjectMetaWithSuffix (presenceInst1 fg env inst c)
              fg.IngressGUINameSuffix).Name :: acts2) := hl2
    have hst := CreateOrUpdate_ok_stored ingressResource ingressResource_lawful
      { metadata := fg.ObjectMetaWithSuffix (presenceInst1 fg env inst c)
          fg.IngressGUINameSuffix, Spec := { Rest := "" } }
      (ingressGUIMutate fg r.WebsiteBaseURL r.InstancesAuthURL (presenceInst1 fg env inst c)
        (fg.IngressGUIPath (presenceInst1 fg env inst c))
        (enforceServicePresence fg env inst c).obj.metadata.Name)
      (enforceServicePresence fg env inst c).cluster h2
    refine ⟨fun hc => ?_, fun _ => ⟨rfl, _, by rw [hl2b, hl1b, List.append_assoc], ?_⟩,
      fun _ _ => ⟨⟨_, hst⟩, rfl⟩⟩
    · exact absurd hvm hc
    · intro a ha
      rcases List.mem_append.1 ha with h1 | h1
      · exact Or.inl (ha1 a h1)
      · rcases List.mem_cons.1 h1 with h1 | h1
        · right; rw [h1]; simp [Action.onObject]
        · exact Or.inr (ha2 a h1)
  · rw [h] at hok; simp at hok
  · rw [h]
    obtain ⟨acts3, hl3, _⟩ := CreateOrUpdate_log_key ingressResource ingressResource_lawful
      { metadata := fg.ObjectMetaWithSuffix (presenceInst2 fg r env inst c)
          fg.IngressMyDriveNameSuffix, Spec := { Rest := "" } }
      (ingressMyDriveMutate fg r.WebsiteBaseURL r.InstancesAuthURL
        (presenceInst2 fg r env inst c) (fg.IngressMyDrivePath (presenceInst2 fg r env inst c))
        (enforceServicePresence fg env inst c).obj.metadata.Name)
      (presenceStage2 fg r env inst c).cluster
    have hl3b : (presenceStage3 fg r env inst c).cluster.log
        = (presenceStage2 fg r env inst c).cluster.log
          ++ (.api .get .Ingress
            (fg.ObjectMetaWithSuffix (presenceInst2 fg r env inst c)
              fg.IngressMyDriveNameSuffix).Namespace
            (fg.ObjectMetaWithSuffix (presenceInst2 fg r env inst c)
              fg.IngressMyDriveNameSuffix).Name :: acts3) := hl3
    have hst := CreateOrUpdate_ok_stored ingressResource ingressResource_lawful
      { metadata := fg.ObjectMetaWithSuffix (presenceInst2 fg r env inst c)
          fg.IngressMyDriveNameSuffix, Spec := { Rest := "" } }
      (ingressMyDriveMutate fg r.WebsiteBaseURL r.InstancesAuthURL
        (presenceInst2 fg r env inst c) (fg.IngressMyDrivePath (presenceInst2 fg r env inst c))
        (enforceServicePresence fg env inst c).obj.metadata.Name)
      (presenceStage2 fg r env inst c).cluster h3
    refine ⟨fun _ => ⟨⟨_, hst⟩, ?_, rfl⟩, fun hc => absurd hc hvm, fun hc _ => absurd hc hvm⟩
    rw [hl3b]
    simp

/-- C11 amended, witness: a Container environment gets the File-Sync Ingress and the
MyDrive address; a VM environment with the GUI gets the GUI Ingress and the
address of the GUI only. -/
theorem C11_file_sync_ingress_iff_not_vm_witness :
    (Sample.inst true).Spec.Running = true
    ∧ (EnforceInstanceExposition Sample.forge Sample.reconciler Sample.containerEnvironment
        (Sample.inst true) (Sample.cluster true false true Sample.noFaults)).err = none
    ∧ (EnforceInstanceExposition Sample.forge Sample.reconciler Sample.containerEnvironment
        (Sample.inst true) (Sample.cluster true false true Sample.noFaults)).inst.Status.MyDriveURL
      = "https://" ++ Sample.reconciler.WebsiteBaseURL
          ++ Sample.forge.IngressMyDrivePath (presenceInst2 Sample.forge Sample.reconciler
              Sample.containerEnvironment (Sample.inst true)
              (Sample.cluster true false true Sample.noFaults))
    ∧ (EnforceInstanceExposition Sample.forge Sample.reconciler Sample.guiEnvironment
        (Sample.inst true) (Sample.cluster true false true Sample.noFaults)).inst.Status.MyDriveURL
      = (Sample.inst true).Status.MyDriveURL
    ∧ (EnforceInstanceExposition Sample.forge Sample.reconciler Sample.guiEnvironment
        (Sample.inst true) (Sample.cluster true false true Sample.noFaults)).inst.Status.URL
      = "https://" ++ Sample.reconciler.WebsiteBaseURL
          ++ Sample.forge.IngressGUIPath (presenceInst1 Sample.forge Sample.guiEnvironment
              (Sample.inst true) (Sample.cluster true false true Sample.noFaults))
    ∧ (EnforceInstanceExposition Sample.forge Sample.reconciler Sample.guiEnvironment
        (Sample.inst true) (Sample.cluster true false true Sample.noFaults)).cluster.ingresses.map
        (fun i => i.metadata.Name) = ["kubernetes-0000-gui"] :=
  ⟨rfl, rfl,
    ((C11_file_sync_ingress_iff_not_vm Sample.forge Sample.reconciler
      Sample.containerEnvironment (Sample.inst true)
      (Sample.cluster true false true Sample.noFaults) rfl rfl).1 (by decide)).2.2,
    ((C11_file_sync_ingress_iff_not_vm Sample.forge Sample.reconciler
      Sample.guiEnvironment (Sample.inst true)
      (Sample.cluster true false true Sample.noFaults) rfl rfl).2.1 rfl).1,
    ((C11_file_sync_ingress_iff_not_vm Sample.forge Sample.reconciler
      Sample.guiEnvironment (Sample.inst true)
      (Sample.cluster true false true Sample.noFaults) rfl rfl).2.2 rfl rfl).2,
    rfl⟩

/-- The four return paths of `EnforceVMEnvironment`. -/
theorem EnforceVMEnvironment_cases (fg : Forge) (r : InstanceReconciler) (env : Environment)
    (inst : Instance) (c : Cluster) :
    (∃ e, (r.EnforceCloudInitSecret inst env c).err = some e
        ∧ EnforceVMEnvironment fg r env inst c
          = ⟨c.afterSecret (r.EnforceCloudInitSecret inst env c), inst, some e⟩)
      ∨ ((r.EnforceCloudInitSecret inst env c).err = none
        ∧ ∃ e, (expositionOutcome fg r env inst c).err = some e
          ∧ EnforceVMEnvironment fg r env inst c
            = ⟨(expositionOutcome fg r env inst c).cluster,
                (expositionOutcome fg r env inst c).inst, some e⟩)
      ∨ ((r.EnforceCloudInitSecret inst env c).err = none
        ∧ (expositionOutcome fg r env inst c).err = none ∧ env.Persistent = true
        ∧ EnforceVMEnvironment fg r env inst c
          = enforceVirtualMachine fg r env (expositionOutcome fg r env inst c).inst
              (expositionOutcome fg r env inst c).cluster)
      ∨ ((r.EnforceCloudInitSecret inst env c).err = none
        ∧ (expositionOutcome fg r env inst c).err = none ∧ env.Persistent = false
        ∧ EnforceVMEnvironment fg r env inst c
          = enforceVirtualMachineInstance fg r env (expositionOutcome fg r env inst c).inst
              (expositionOutcome fg r env inst c).cluster) := by
  unfold EnforceVMEnvironment expositionOutcome
  simp only
  cases hs : (r.EnforceCloudInitSecret inst env c).err with
  | some e => left; exact ⟨e, rfl, rfl⟩
  | none =>
    right
    simp only
    cases hx : (EnforceInstanceExposition fg r env inst
        (c.afterSecret (r.EnforceCloudInitSecret inst env c))).err with
    | some e => left; exact ⟨trivial, e, rfl, rfl⟩
    | none =>
      right
      simp only
      cases hp : env.Persistent with
      | true => left; exact ⟨trivial, trivial, rfl, by simp⟩
      | false => right; exact ⟨trivial, trivial, rfl, by simp⟩

/-- The exposition step only writes the status of the Instance. -/
theorem EnforceInstanceExposition_inst (fg : Forge) (r : InstanceReconciler)
    (env : Environment) (inst : Instance) (c : Cluster) :
    (EnforceInstanceExposition fg r env inst c).inst.metadata = inst.metadata
      ∧ (EnforceInstanceExposition fg r env inst c).inst.Spec = inst.Spec := by
  cases hrun : inst.Spec.Running with
  | false =>
    rw [EnforceInstanceExposition_not_running fg r env inst c hrun,
      enforceInstanceExpositionAbsence_inst]
    exact ⟨rfl, rfl⟩
  | true =>
    rw [EnforceInstanceExposition_running fg r env inst c hrun]
    rcases enforceInstanceExpositionPresence_cases fg r env inst c with
      ⟨err, _, h⟩ | ⟨_, _, _, h⟩ | ⟨_, _, err, _, h⟩ | ⟨_, _, _, _, h⟩
        | ⟨_, _, _, err, _, h⟩ | ⟨_, _, _, _, h⟩ <;> rw [h] <;> exact ⟨rfl, rfl⟩

/-! ### Labels and owner reference of the compute workload -/

theorem mem_upsertOwnerRef (ref : OwnerReference) (refs : List OwnerReference) :
    ref ∈ upsertOwnerRef ref refs := by
  induction refs with
  | nil => simp [upsertOwnerRef]
  | cons x xs ih =>
    unfold upsertOwnerRef
    split
    · exact List.mem_cons_self _ _
    · exact List.mem_cons_of_mem _ ih

theorem SetControllerReference_ok (owner : Instance) (m : ObjectMeta)
    (h : (SetControllerReference owner m).2 = none) :
    (SetControllerReference owner m).1.Labels = m.Labels
      ∧ controllerRef owner ∈ (SetControllerReference owner m).1.OwnerReferences := by
  by_cases hns : (owner.metadata.Namespace != "" && owner.metadata.Namespace != m.Namespace) = true
  · simp only [SetControllerReference, hns, if_true] at h
    exact Option.noConfusion h
  · cases hg : GetControllerOf m with
    | none =>
      simp only [SetControllerReference, hns, hg, if_false, Bool.false_eq_true]
      exact ⟨trivial, mem_upsertOwnerRef _ _⟩
    | some ex =>
      cases hsame : referSameObject ex (controllerRef owner) with
      | true =>
        simp only [SetControllerReference, hns, hg, hsame, if_false, Bool.not_true,
          Bool.false_eq_true]
        exact ⟨trivial, mem_upsertOwnerRef _ _⟩
      | false =>
        simp only [SetControllerReference, hns, hg, hsame, if_false, Bool.not_false,
          if_true, Bool.false_eq_true] at h
        exact Option.noConfusion h

theorem vmMutate_meta (fg : Forge) (inst : Instance) (env : Environment) (x o : VirtualMachine)
    (h : vmMutate fg inst env x = (o, none)) :
    o.metadata.Labels = fg.InstanceObjectLabels x.metadata.Labels inst
      ∧ controllerRef inst ∈ o.metadata.OwnerReferences := by
  unfold vmMutate at h
  simp only [Prod.mk.injEq] at h
  obtain ⟨h1, h2⟩ := h
  have hs := SetControllerReference_ok inst _ h2
  rw [← h1]
  refine ⟨?_, hs.2⟩
  simp only [hs.1]
  split <;> rfl

theorem vmiMutate_meta (fg : Forge) (inst : Instance) (env : Environment)
    (x o : VirtualMachineInstance) (h : vmiMutate fg inst env x = (o, none)) :
    o.metadata.Labels = fg.InstanceObjectLabels x.metadata.Labels inst
      ∧ controllerRef inst ∈ o.metadata.OwnerReferences := by
  unfold vmiMutate at h
  simp only [Prod.mk.injEq] at h
  obtain ⟨h1, h2⟩ := h
  have hs := SetControllerReference_ok inst _ h2
  rw [← h1]
  refine ⟨?_, hs.2⟩
  simp only [hs.1]
  split <;> rfl

theorem enforceVirtualMachineInstance_eq (fg : Forge) (r : InstanceReconciler)
    (env : Environment) (inst : Instance) (c : Cluster) (hrun : inst.Spec.Running = true) :
    (enforceVirtualMachineInstance fg r env inst c).err
        = (CreateOrUpdate vmiResource
            { metadata := fg.ObjectMeta inst, Spec := { Rest := "" }, Status := { Phase := "" } }
            (vmiMutate fg inst env) c).err
      ∧ (enforceVirtualMachineInstance fg r env inst c).cluster
        = (CreateOrUpdate vmiResource
            { metadata := fg.ObjectMeta inst, Spec := { Rest := "" }, Status := { Phase := "" } }
            (vmiMutate fg inst env) c).cluster := by
  unfold enforceVirtualMachineInstance
  simp only [hrun, if_true]
  split
  · rename_i h; simp [h]
  · rename_i h; simp [h]

theorem enforceVirtualMachineInstance_off (fg : Forge) (r : InstanceReconciler)
    (env : Environment) (inst : Instance) (c : Cluster) (hrun : inst.Spec.Running = false) :
    enforceVirtualMachineInstance fg r env inst c = ⟨c, setPhase inst .Off, none⟩ := by
  unfold enforceVirtualMachineInstance
  simp [hrun]

theorem expositionOutcome_frame (fg : Forge) (r : InstanceReconciler) (env : Environment)
    (inst : Instance) (c : Cluster) :
    (expositionOutcome fg r env inst c).cluster.virtualMachines = c.virtualMachines
      ∧ (expositionOutcome fg r env inst c).cluster.virtualMachineInstances
        = c.virtualMachineInstances
      ∧ (expositionOutcome fg r env inst c).cluster.faults = c.faults := by
  have h := EnforceInstanceExposition_frame fg r env inst
    (c.afterSecret (r.EnforceCloudInitSecret inst env c))
  exact ⟨h.2.2.2.2.2.1, h.2.2.2.2.2.2.1, h.1⟩

theorem expositionOutcome_inst (fg : Forge) (r : InstanceReconciler) (env : Environment)
    (inst : Instance) (c : Cluster) :
    (expositionOutcome fg r env inst c).inst.metadata = inst.metadata
      ∧ (expositionOutcome fg r env inst c).inst.Spec = inst.Spec :=
  EnforceInstanceExposition_inst fg r env inst _

/-- C17: after a successful `EnforceVMEnvironment` for a running Instance, the
compute workload stored under the name of the Instance (the VirtualMachine of a
persistent environment, the VirtualMachineInstance otherwise) has the labels
`forge.InstanceObjectLabels` makes of the labels it had before (none when it
has just been created) and of the Instance, and carries the controller
reference to the Instance. -/
theorem C17_workload_labels_and_owner (fg : Forge) (r : InstanceReconciler) (env : Environment)
    (inst : Instance) (c : Cluster)
    (hrun : inst.Spec.Running = true)
    (hok : (EnforceVMEnvironment fg r env inst c).err = none) :
    (env.Persistent = true →
        ∃ vm, (EnforceVMEnvironment fg r env inst c).cluster.vm
            (fg.ObjectMeta (expositionOutcome fg r env inst c).inst) = some vm
          ∧ vm.metadata.Labels = fg.InstanceObjectLabels
              (labelsOf vmResource.metaOf
                (c.vm (fg.ObjectMeta (expositionOutcome fg r env inst c).inst)))
              (expositionOutcome fg r env inst c).inst
          ∧ controllerRef inst ∈ vm.metadata.OwnerReferences)
      ∧ (env.Persistent = false →
        ∃ vmi, (EnforceVMEnvironment fg r env inst c).cluster.vmi
            (fg.ObjectMeta (expositionOutcome fg r env inst c).inst) = some vmi
          ∧ vmi.metadata.Labels = fg.InstanceObjectLabels
              (labelsOf vmiResource.metaOf
                (c.vmi (fg.ObjectMeta (expositionOutcome fg r env inst c).inst)))
              (expositionOutcome fg r env inst c).inst
          ∧ controllerRef inst ∈ vmi.metadata.OwnerReferences) := by
  obtain ⟨hvms, hvmis, _⟩ := expositionOutcome_frame fg r env inst c
  obtain ⟨hmeta, hspec⟩ := expositionOutcome_inst fg r env inst c
  have href : controllerRef (expositionOutcome fg r env inst c).inst = controllerRef inst := by
    simp only [controllerRef, hmeta]
  have hrun2 : (expositionOutcome fg r env inst c).inst.Spec.Running = true := by
    rw [hspec]; exact hrun
  rcases EnforceVMEnvironment_cases fg r env inst c with
    ⟨e, _, h⟩ | ⟨_, e, _, h⟩ | ⟨_, _, hp, h⟩ | ⟨_, _, hp, h⟩
  · rw [h] at hok; simp at hok
  · rw [h] at hok; simp at hok
  · refine ⟨fun _ => ?_, fun hnp => ?_⟩
    · rw [h] at hok ⊢
      obtain ⟨herr, hcl⟩ := enforceVirtualMachine_eq fg r env
        (expositionOutcome fg r env inst c).inst (expositionOutcome fg r env inst c).cluster
      rw [herr] at hok
      rw [hcl]
      have hst := CreateOrUpdate_ok_stored vmResource vmResource_lawful _ _ _ hok
      obtain ⟨o, hlab, hown, hsrc⟩ :=
        CreateOrUpdate_ok_mutated vmResource vmResource_lawful _ _ _ hok
      refine ⟨_, hst, ?_, ?_⟩
      · rw [show ((CreateOrUpdate vmResource _ _ _).obj).metadata.Labels = o.metadata.Labels
          from hlab]
        rcases hsrc with ⟨existing, hex, hfe⟩ | ⟨hnone, hfo⟩
        · have hex2 : c.vm (fg.ObjectMeta (expositionOutcome fg r env inst c).inst)
              = some existing := by
            simp only [Cluster.vm, ← hvms]; exact hex
          rw [hex2]
          exact (vmMutate_meta fg _ env _ _ hfe).1
        · have hex2 : c.vm (fg.ObjectMeta (expositionOutcome fg r env inst c).inst) = none := by
            simp only [Cluster.vm, ← hvms]; exact hnone
          rw [hex2]
          exact (vmMutate_meta fg _ env _ _ hfo).1
      · rw [show ((CreateOrUpdate vmResource _ _ _).obj).metadata.OwnerReferences
          = o.metadata.OwnerReferences from hown, ← href]
        rcases hsrc with ⟨existing, _, hfe⟩ | ⟨_, hfo⟩
        · exact (vmMutate_meta fg _ env _ _ hfe).2
        · exact (vmMutate_meta fg _ env _ _ hfo).2
    · rw [hp] at hnp; exact Bool.noConfusion hnp
  · refine ⟨fun hpt => ?_, fun _ => ?_⟩
    · rw [hp] at hpt; exact Bool.noConfusion hpt
    · rw [h] at hok ⊢
      obtain ⟨herr, hcl⟩ := enforceVirtualMachineInstance_eq fg r env
        (expositionOutcome fg r env inst c).inst (expositionOutcome fg r env inst c).cluster hrun2
      rw [herr] at hok
      rw [hcl]
      have hst := CreateOrUpdate_ok_stored vmiResource vmiResource_lawful _ _ _ hok
      obtain ⟨o, hlab, hown, hsrc⟩ :=
        CreateOrUpdate_ok_mutated vmiResource vmiResource_lawful _ _ _ hok
      refine ⟨_, hst, ?_, ?_⟩
      · rw [show ((CreateOrUpdate vmiResource _ _ _).obj).metadata.Labels = o.metadata.Labels
          from hlab]
        rcases hsrc with ⟨existing, hex, hfe⟩ | ⟨hnone, hfo⟩
        · have hex2 : c.vmi (fg.ObjectMeta (expositionOutcome fg r env inst c).inst)
              = some existing := by
            simp only [Cluster.vmi, ← hvmis]; exact hex
          rw [hex2]
          exact (vmiMutate_meta fg _ env _ _ hfe).1
        · have hex2 : c.vmi (fg.ObjectMeta (expositionOutcome fg r env inst c).inst) = none := by
            simp only [Cluster.vmi, ← hvmis]; exact hnone
          rw [hex2]
          exact (vmiMutate_meta fg _ env _ _ hfo).1
      · rw [show ((CreateOrUpdate vmiResource _ _ _).obj).metadata.OwnerReferences
          = o.metadata.OwnerReferences from hown, ← href]
        rcases hsrc with ⟨existing, _, hfe⟩ | ⟨_, hfo⟩
        · exact (vmiMutate_meta fg _ env _ _ hfe).2
        · exact (vmiMutate_meta fg _ env _ _ hfo).2

/-- C17, witness: a VirtualMachineInstance that is already there, and a
VirtualMachine that is created. -/
theorem C17_workload_labels_and_owner_witness :
    (Sample.inst true).Spec.Running = true
    ∧ (EnforceVMEnvironment Sample.forge Sample.reconciler (Sample.environment false false)
        (Sample.inst true) (Sample.withVMI (Sample.cluster true false false
          Sample.noFaults))).err = none
    ∧ (∃ vmi, (EnforceVMEnvironment Sample.forge Sample.reconciler
          (Sample.environment false false) (Sample.inst true)
          (Sample.withVMI (Sample.cluster true false false Sample.noFaults))).cluster.vmi
            (Sample.forge.ObjectMeta (expositionOutcome Sample.forge Sample.reconciler
              (Sample.environment false false) (Sample.inst true)
              (Sample.withVMI (Sample.cluster true false false Sample.noFaults))).inst)
          = some vmi
        ∧ vmi.metadata.Labels = Sample.forge.InstanceObjectLabels
            (labelsOf vmiResource.metaOf
              ((Sample.withVMI (Sample.cluster true false false Sample.noFaults)).vmi
                (Sample.forge.ObjectMeta (expositionOutcome Sample.forge Sample.reconciler
                  (Sample.environment false false) (Sample.inst true)
                  (Sample.withVMI (Sample.cluster true false false Sample.noFaults))).inst)))
            (expositionOutcome Sample.forge Sample.reconciler
              (Sample.environment false false) (Sample.inst true)
              (Sample.withVMI (Sample.cluster true false false Sample.noFaults))).inst
        ∧ controllerRef (Sample.inst true) ∈ vmi.metadata.OwnerReferences)
    ∧ (∃ vm, (EnforceVMEnvironment Sample.forge Sample.reconciler
          (Sample.environment true false) (Sample.inst true)
          (Sample.cluster true true false Sample.noFaults)).cluster.vm
            (Sample.forge.ObjectMeta (expositionOutcome Sample.forge Sample.reconciler
              (Sample.environment true false) (Sample.inst true)
              (Sample.cluster true true false Sample.noFaults)).inst)
          = some vm
        ∧ vm.metadata.Labels = Sample.forge.InstanceObjectLabels
            (labelsOf vmResource.metaOf
              ((Sample.cluster true true false Sample.noFaults).vm
                (Sample.forge.ObjectMeta (expositionOutcome Sample.forge Sample.reconciler
                  (Sample.environment true false) (Sample.inst true)
                  (Sample.cluster true true false Sample.noFaults)).inst)))
            (expositionOutcome Sample.forge Sample.reconciler
              (Sample.environment true false) (Sample.inst true)
              (Sample.cluster true true false Sample.noFaults)).inst
        ∧ controllerRef (Sample.inst true) ∈ vm.metadata.OwnerReferences) :=
  ⟨rfl, rfl,
    (C17_workload_labels_and_owner Sample.forge Sample.reconciler
      (Sample.environment false false) (Sample.inst true)
      (Sample.withVMI (Sample.cluster true false false Sample.noFaults)) rfl rfl).2 rfl,
    (C17_workload_labels_and_owner Sample.forge Sample.reconciler
      (Sample.environment true false) (Sample.inst true)
      (Sample.cluster true true false Sample.noFaults) rfl rfl).1 rfl⟩

/-! ### The requests of the enforcement steps -/

theorem logGrowsBy_refl (P : Action → Prop) (c : Cluster) : logGrowsBy P c c :=
  ⟨[], by simp, by simp⟩

theorem logGrowsBy_trans (P : Action → Prop) (c c1 c2 : Cluster) (h1 : logGrowsBy P c c1)
    (h2 : logGrowsBy P c1 c2) : logGrowsBy P c c2 := by
  obtain ⟨a1, e1, p1⟩ := h1
  obtain ⟨a2, e2, p2⟩ := h2
  refine ⟨a1 ++ a2, by rw [e2, e1, List.append_assoc], ?_⟩
  intro a ha
  rcases List.mem_append.1 ha with h | h
  · exact p1 a h
  · exact p2 a h

theorem logGrowsBy_mono (P Q : Action → Prop) (c c1 : Cluster) (hPQ : ∀ a, P a → Q a)
    (h : logGrowsBy P c c1) : logGrowsBy Q c c1 := by
  obtain ⟨a1, e1, p1⟩ := h
  exact ⟨a1, e1, fun a ha => hPQ a (p1 a ha)⟩

theorem onKind_unique (a : Action) (k k1 : Kind) (h : Action.onKind a k = true) (hne : k ≠ k1) :
    Action.onKind a k1 = false := by
  cases a with
  | event w e => rfl
  | api v k0 ns n =>
    simp only [Action.onKind, beq_iff_eq] at h
    subst h
    simp only [Action.onKind, beq_eq_false_iff_ne, ne_eq]
    exact hne

theorem onKind_of_onObject (a : Action) (k : Kind) (ns n : String)
    (h : Action.onObject a k ns n = true) : Action.onKind a k = true := by
  cases a with
  | event w e => simp [Action.onObject] at h
  | api v k0 ns0 n0 =>
    simp only [Action.onObject, Bool.and_eq_true, beq_iff_eq] at h
    simp [Action.onKind, h.1.1]

theorem CreateOrUpdate_logGrowsBy {α : Type} [DecidableEq α] (R : Resource α) (hR : R.Lawful)
    (obj : α) (f : α → α × Option Err) (c : Cluster) :
    logGrowsBy (fun a => Action.onKind a R.kind = true) c (CreateOrUpdate R obj f c).cluster :=
  CreateOrUpdate_log R hR obj f c

theorem enforceObjectAbsence_logGrowsBy {α : Type} (R : Resource α) (hR : R.Lawful)
    (m : ObjectMeta) (c : Cluster) :
    logGrowsBy (fun a => Action.onKind a R.kind = true) c (enforceObjectAbsence R m c).1 :=
  ⟨[.api .delete R.kind m.Namespace m.Name], enforceObjectAbsence_log R hR m c, by
    simp [Action.onKind]⟩

theorem enforceInstanceExpositionAbsence_log (fg : Forge) (inst : Instance) (c : Cluster) :
    logGrowsBy onExposition c
      (enforceInstanceExpositionAbsence fg inst c).cluster := by
  have hs : ∀ m c0, logGrowsBy onExposition c0
      (enforceObjectAbsence serviceResource m c0).1 := fun m c0 =>
    logGrowsBy_mono _ _ _ _ (fun _ h => Or.inl h)
      (enforceObjectAbsence_logGrowsBy serviceResource serviceResource_lawful m c0)
  have hi : ∀ m c0, logGrowsBy onExposition c0
      (enforceObjectAbsence ingressResource m c0).1 := fun m c0 =>
    logGrowsBy_mono _ _ _ _ (fun _ h => Or.inr h)
      (enforceObjectAbsence_logGrowsBy ingressResource ingressResource_lawful m c0)
  unfold enforceInstanceExpositionAbsence
  simp only
  split
  · rename_i c1 e h1
    have e1 := congrArg Prod.fst h1
    simp only at e1
    rw [← e1]
    exact hs _ c
  · rename_i c1 h1
    have e1 := congrArg Prod.fst h1
    simp only at e1
    have a1 : logGrowsBy onExposition c c1 := by rw [← e1]; exact hs _ c
    split
    · rename_i c2 e h2
      have e2 := congrArg Prod.fst h2
      simp only at e2
      have a2 : logGrowsBy onExposition c1 c2 := by rw [← e2]; exact hi _ c1
      exact logGrowsBy_trans _ _ _ _ a1 a2
    · rename_i c2 h2
      have e2 := congrArg Prod.fst h2
      simp only at e2
      have a2 : logGrowsBy onExposition c1 c2 := by rw [← e2]; exact hi _ c1
      exact logGrowsBy_trans _ _ _ _ a1 (logGrowsBy_trans _ _ _ _ a2 (hi _ c2))

theorem enforceInstanceExpositionPresence_log (fg : Forge) (r : InstanceReconciler)
    (env : Environment) (inst : Instance) (c : Cluster) :
    logGrowsBy onExposition c
      (enforceInstanceExpositionPresence fg r env inst c).cluster := by
  have h1 : logGrowsBy onExposition c
      (enforceServicePresence fg env inst c).cluster :=
    logGrowsBy_mono _ _ _ _ (fun _ h => Or.inl h)
      (CreateOrUpdate_logGrowsBy serviceResource serviceResource_lawful _ _ c)
  have h2 : logGrowsBy onExposition c
      (presenceStage2 fg r env inst c).cluster :=
    logGrowsBy_trans _ _ _ _ h1 (logGrowsBy_mono _ _ _ _ (fun _ h => Or.inr h)
      (CreateOrUpdate_logGrowsBy ingressResource ingressResource_lawful _ _ _))
  have h3 : logGrowsBy onExposition c
      (presenceStage3 fg r env inst c).cluster :=
    logGrowsBy_trans _ _ _ _ h2 (logGrowsBy_mono _ _ _ _ (fun _ h => Or.inr h)
      (CreateOrUpdate_logGrowsBy ingressResource ingressResource_lawful _ _ _))
  rcases enforceInstanceExpositionPresence_cases fg r env inst c with
    ⟨err, _, h⟩ | ⟨_, _, _, h⟩ | ⟨_, _, err, _, h⟩ | ⟨_, _, _, _, h⟩
      | ⟨_, _, _, err, _, h⟩ | ⟨_, _, _, _, h⟩ <;> rw [h]
  · exact h1
  · exact h1
  · exact h2
  · exact h2
  · exact h3
  · exact h3

theorem expositionOutcome_log (fg : Forge) (r : InstanceReconciler) (env : Environment)
    (inst : Instance) (c : Cluster) :
    logGrowsBy onExposition
      (c.afterSecret (r.EnforceCloudInitSecret inst env c))
      (expositionOutcome fg r env inst c).cluster := by
  unfold expositionOutcome EnforceInstanceExposition
  split
  · exact enforceInstanceExpositionPresence_log fg r env inst _
  · exact enforceInstanceExpositionAbsence_log fg inst _

theorem enforceVirtualMachine_log (fg : Forge) (r : InstanceReconciler) (env : Environment)
    (inst : Instance) (c : Cluster) :
    ∃ acts, (enforceVirtualMachine fg r env inst c).cluster.log
        = c.log ++ (.api .get .VirtualMachine (fg.ObjectMeta inst).Namespace
            (fg.ObjectMeta inst).Name :: acts)
      ∧ ∀ a ∈ acts, Action.onKind a .VirtualMachine = true := by
  rw [(enforceVirtualMachine_eq fg r env inst c).2]
  obtain ⟨acts, h1, h2⟩ := CreateOrUpdate_log_key vmResource vmResource_lawful
    { metadata := fg.ObjectMeta inst, Spec := { Running := none, Rest := "" },
      Status := { PrintableStatus := "" } } (vmMutate fg inst env) c
  exact ⟨acts, h1, fun a ha => onKind_of_onObject a _ _ _ (h2 a ha)⟩

theorem enforceVirtualMachine_frame (fg : Forge) (r : InstanceReconciler) (env : Environment)
    (inst : Instance) (c : Cluster) :
    sameBut .VirtualMachine c (enforceVirtualMachine fg r env inst c).cluster := by
  rw [(enforceVirtualMachine_eq fg r env inst c).2]
  exact CreateOrUpdate_sameBut vmResource vmResource_lawful _ _ c

theorem enforceVirtualMachineInstance_frame (fg : Forge) (r : InstanceReconciler)
    (env : Environment) (inst : Instance) (c : Cluster) :
    sameBut .VirtualMachineInstance c (enforceVirtualMachineInstance fg r env inst c).cluster := by
  cases hrun : inst.Spec.Running with
  | true =>
    rw [(enforceVirtualMachineInstance_eq fg r env inst c hrun).2]
    exact CreateOrUpdate_sameBut vmiResource vmiResource_lawful _ _ c
  | false =>
    rw [enforceVirtualMachineInstance_off fg r env inst c hrun]
    exact sameBut_refl _ _

theorem enforceVirtualMachineInstance_log (fg : Forge) (r : InstanceReconciler)
    (env : Environment) (inst : Instance) (c : Cluster) :
    logGrowsBy (fun a => Action.onKind a .VirtualMachineInstance = true) c
      (enforceVirtualMachineInstance fg r env inst c).cluster := by
  cases hrun : inst.Spec.Running with
  | true =>
    rw [(enforceVirtualMachineInstance_eq fg r env inst c hrun).2]
    exact CreateOrUpdate_logGrowsBy vmiResource vmiResource_lawful _ _ c
  | false =>
    rw [enforceVirtualMachineInstance_off fg r env inst c hrun]
    exact logGrowsBy_refl _ _

/-- C18: `EnforceVMEnvironment` deals with one class of compute workload. For a
persistent environment the VirtualMachineInstances are left exactly as they
were and no request issued after the secret step is about a
VirtualMachineInstance, while the VirtualMachine is read (and, on success,
stored) once the secret and exposition steps succeeded. For a non-persistent
environment the VirtualMachines are left exactly as they were and no request
is about a VirtualMachine. -/
theorem C18_one_workload_class (fg : Forge) (r : InstanceReconciler) (env : Environment)
    (inst : Instance) (c : Cluster) :
    (env.Persistent = true →
        (EnforceVMEnvironment fg r env inst c).cluster.virtualMachineInstances
            = c.virtualMachineInstances
        ∧ logGrowsBy (fun a => Action.onKind a .VirtualMachineInstance = false)
            (c.afterSecret (r.EnforceCloudInitSecret inst env c))
            (EnforceVMEnvironment fg r env inst c).cluster
        ∧ ((r.EnforceCloudInitSecret inst env c).err = none →
            (expositionOutcome fg r env inst c).err = none →
            Action.api .get .VirtualMachine
                (fg.ObjectMeta (expositionOutcome fg r env inst c).inst).Namespace
                (fg.ObjectMeta (expositionOutcome fg r env inst c).inst).Name
              ∈ (EnforceVMEnvironment fg r env inst c).cluster.log
            ∧ ((EnforceVMEnvironment fg r env inst c).err = none →
              ∃ vm, (EnforceVMEnvironment fg r env inst c).cluster.vm
                (fg.ObjectMeta (expositionOutcome fg r env inst c).inst) = some vm)))
      ∧ (env.Persistent = false →
        (EnforceVMEnvironment fg r env inst c).cluster.virtualMachines = c.virtualMachines
        ∧ logGrowsBy (fun a => Action.onKind a .VirtualMachine = false)
            (c.afterSecret (r.EnforceCloudInitSecret inst env c))
            (EnforceVMEnvironment fg r env inst c).cluster) := by
  obtain ⟨hvms, hvmis, _⟩ := expositionOutcome_frame fg r env inst c
  have hxlog := expositionOutcome_log fg r env inst c
  have hx1 : logGrowsBy (fun a => Action.onKind a .VirtualMachineInstance = false)
      (c.afterSecret (r.EnforceCloudInitSecret inst env c))
      (expositionOutcome fg r env inst c).cluster :=
    logGrowsBy_mono _ _ _ _ (fun a h => by
      rcases h with h | h
      · exact onKind_unique a _ _ h (by decide)
      · exact onKind_unique a _ _ h (by decide)) hxlog
  have hx2 : logGrowsBy (fun a => Action.onKind a .VirtualMachine = false)
      (c.afterSecret (r.EnforceCloudInitSecret inst env c))
      (expositionOutcome fg r env inst c).cluster :=
    logGrowsBy_mono _ _ _ _ (fun a h => by
      rcases h with h | h
      · exact onKind_unique a _ _ h (by decide)
      · exact onKind_unique a _ _ h (by decide)) hxlog
  rcases EnforceVMEnvironment_cases fg r env inst c with
    ⟨e, hs, h⟩ | ⟨hs, e, hx, h⟩ | ⟨_, _, hp, h⟩ | ⟨_, _, hp, h⟩
  · rw [h]
    refine ⟨fun _ => ⟨rfl, logGrowsBy_refl _ _, fun hs2 => ?_⟩,
      fun _ => ⟨rfl, logGrowsBy_refl _ _⟩⟩
    rw [hs] at hs2; exact Option.noConfusion hs2
  · rw [h]
    refine ⟨fun _ => ⟨hvmis, hx1, fun _ hx2 => ?_⟩, fun _ => ⟨hvms, hx2⟩⟩
    rw [hx] at hx2; exact Option.noConfusion hx2
  · refine ⟨fun _ => ?_, fun hnp => ?_⟩
    · rw [h]
      obtain ⟨acts, hl, ha⟩ := enforceVirtualMachine_log fg r env
        (expositionOutcome fg r env inst c).inst (expositionOutcome fg r env inst c).cluster
      have hfr := enforceVirtualMachine_frame fg r env
        (expositionOutcome fg r env inst c).inst (expositionOutcome fg r env inst c).cluster
      refine ⟨?_, ?_, fun _ _ => ⟨?_, fun hok => ?_⟩⟩
      · rw [hfr.2.2.2.2.2.2.2.2.1 (by decide), hvmis]
      · refine logGrowsBy_trans _ _ _ _ hx1 ⟨_, hl, ?_⟩
        intro a ha2
        rcases List.mem_cons.1 ha2 with h1 | h1
        · rw [h1]; rfl
        · exact onKind_unique a _ _ (ha a h1) (by decide)
      · rw [hl]; simp
      · rw [(enforceVirtualMachine_eq fg r env _ _).1] at hok
        rw [(enforceVirtualMachine_eq fg r env _ _).2]
        exact ⟨_, CreateOrUpdate_ok_stored vmResource vmResource_lawful _ _ _ hok⟩
    · rw [hp] at hnp; exact Bool.noConfusion hnp
  · refine ⟨fun hpt => ?_, fun _ => ?_⟩
    · rw [hp] at hpt; exact Bool.noConfusion hpt
    · rw [h]
      have hfr := enforceVirtualMachineInstance_frame fg r env
        (expositionOutcome fg r env inst c).inst (expositionOutcome fg r env inst c).cluster
      refine ⟨?_, ?_⟩
      · rw [hfr.2.2.2.2.2.2.2.1 (by decide), hvms]
      · exact logGrowsBy_trans _ _ _ _ hx2 (logGrowsBy_mono _ _ _ _
          (fun a h => onKind_unique a _ _ h (by decide))
          (enforceVirtualMachineInstance_log fg r env _ _))

/-- C18, witness: a persistent environment leaves the VirtualMachineInstance that is
there alone and stores a VirtualMachine; a non-persistent one stores no
VirtualMachine. -/
theorem C18_one_workload_class_witness :
    (Sample.environment true false).Persistent = true
    ∧ (EnforceVMEnvironment Sample.forge Sample.reconciler (Sample.environment true false)
        (Sample.inst true) (Sample.withVMI (Sample.cluster true true false
          Sample.noFaults))).cluster.virtualMachineInstances
      = (Sample.withVMI (Sample.cluster true true false Sample.noFaults)).virtualMachineInstances
    ∧ (EnforceVMEnvironment Sample.forge Sample.reconciler (Sample.environment true false)
        (Sample.inst true) (Sample.withVMI (Sample.cluster true true false
          Sample.noFaults))).cluster.virtualMachines.length = 1
    ∧ (Sample.environment false false).Persistent = false
    ∧ (EnforceVMEnvironment Sample.forge Sample.reconciler (Sample.environment false false)
        (Sample.inst true) (Sample.cluster true false false
          Sample.noFaults)).cluster.virtualMachines
      = (Sample.cluster true false false Sample.noFaults).virtualMachines :=
  ⟨rfl,
    ((C18_one_workload_class Sample.forge Sample.reconciler (Sample.environment true false)
      (Sample.inst true) (Sample.withVMI (Sample.cluster true true false Sample.noFaults))).1
      rfl).1,
    rfl, rfl,
    ((C18_one_workload_class Sample.forge Sample.reconciler (Sample.environment false false)
      (Sample.inst true) (Sample.cluster true false false Sample.noFaults)).2 rfl).1⟩

/-! ### Idempotence: what an invocation creates, and what the next one keeps -/

theorem lookup_remove_some {α : Type} (metaOf : α → ObjectMeta) (ns1 n1 ns2 n2 : String)
    (l : List α) (y : α) (h : lookup metaOf ns1 n1 (remove metaOf ns2 n2 l) = some y) :
    lookup metaOf ns1 n1 l = some y := by
  by_cases hk : ns1 = ns2 ∧ n1 = n2
  · obtain ⟨h1, h2⟩ := hk
    subst h1 h2
    rw [lookup_remove_same] at h
    exact Option.noConfusion h
  · rw [lookup_remove_other _ _ _ _ _ _ hk] at h
    exact h

/-- A deletion stores nothing. -/
theorem clientDelete_origin {α : Type} (R : Resource α) (hR : R.Lawful) (ns1 n1 ns n : String)
    (c : Cluster) (y : α)
    (h : lookup R.metaOf ns n (R.list (clientDelete R ns1 n1 c).1) = some y) :
    lookup R.metaOf ns n (R.list c) = some y := by
  unfold clientDelete at h
  simp only [Cluster.record] at h
  split at h
  · rw [hR.list_log] at h; exact h
  · split at h
    · rw [hR.list_log] at h; exact h
    · rw [hR.list_setList, hR.list_log] at h
      exact lookup_remove_some _ _ _ _ _ _ _ h

theorem enforceInstanceExpositionAbsence_cases (fg : Forge) (inst : Instance) (c : Cluster) :
    (enforceInstanceExpositionAbsence fg inst c).cluster = absenceStage1 fg inst c
      ∨ (enforceInstanceExpositionAbsence fg inst c).cluster = absenceStage2 fg inst c
      ∨ (enforceInstanceExpositionAbsence fg inst c).cluster = absenceStage3 fg inst c := by
  unfold enforceInstanceExpositionAbsence absenceStage3 absenceStage2 absenceStage1 absenceInst
  simp only
  split
  · rename_i c1 e h1
    left
    rw [h1]
  · rename_i c1 h1
    right
    simp only [h1]
    split
    · rename_i c2 e h2
      left
      rw [h2]
    · rename_i c2 h2
      right
      rw [h2]

/-- The absence of the exposition stores no Service and no Ingress. -/
theorem enforceInstanceExpositionAbsence_origin (fg : Forge) (inst : Instance) (c : Cluster) :
    (∀ ns n y, (enforceInstanceExpositionAbsence fg inst c).cluster.service ns n = some y →
        c.service ns n = some y)
      ∧ (∀ ns n y, (enforceInstanceExpositionAbsence fg inst c).cluster.ingress ns n = some y →
        c.ingress ns n = some y) := by
  have s1 : ∀ ns n y, (absenceStage1 fg inst c).service ns n = some y →
      c.service ns n = some y := by
    intro ns n y h
    unfold absenceStage1 at h
    rw [enforceObjectAbsence_fst] at h
    exact clientDelete_origin serviceResource serviceResource_lawful _ _ _ _ _ _ h
  have i1 : (absenceStage1 fg inst c).ingresses = c.ingresses := by
    unfold absenceStage1
    rw [enforceObjectAbsence_fst]
    exact (clientDelete_sameBut serviceResource serviceResource_lawful _ _ c).2.2.2.2.2.2.1
      (by decide)
  have s2 : (absenceStage2 fg inst c).services = (absenceStage1 fg inst c).services := by
    unfold absenceStage2
    rw [enforceObjectAbsence_fst]
    exact (clientDelete_sameBut ingressResource ingressResource_lawful _ _ _).2.2.2.2.2.1
      (by decide)
  have i2 : ∀ ns n y, (absenceStage2 fg inst c).ingress ns n = some y →
      c.ingress ns n = some y := by
    intro ns n y h
    unfold absenceStage2 at h
    rw [enforceObjectAbsence_fst] at h
    have h2 := clientDelete_origin ingressResource ingressResource_lawful _ _ _ _ _ _ h
    simp only [Cluster.ingress, ← i1]
    exact h2
  have s3 : (absenceStage3 fg inst c).services = (absenceStage2 fg inst c).services := by
    unfold absenceStage3
    rw [enforceObjectAbsence_fst]
    exact (clientDelete_sameBut ingressResource ingressResource_lawful _ _ _).2.2.2.2.2.1
      (by decide)
  have i3 : ∀ ns n y, (absenceStage3 fg inst c).ingress ns n = some y →
      c.ingress ns n = some y := by
    intro ns n y h
    unfold absenceStage3 at h
    rw [enforceObjectAbsence_fst] at h
    exact i2 ns n y (clientDelete_origin ingressResource ingressResource_lawful _ _ _ _ _ _ h)
  rcases enforceInstanceExpositionAbsence_cases fg inst c with h | h | h <;> rw [h]
  · refine ⟨s1, fun ns n y hy => ?_⟩
    simp only [Cluster.ingress, i1] at hy
    exact hy
  · refine ⟨fun ns n y hy => ?_, i2⟩
    simp only [Cluster.service, s2] at hy
    exact s1 ns n y hy
  · refine ⟨fun ns n y hy => ?_, i3⟩
    simp only [Cluster.service, s3, s2] at hy
    exact s1 ns n y hy

theorem presenceStage2_services (fg : Forge) (r : InstanceReconciler) (env : Environment)
    (inst : Instance) (c : Cluster) :
    (presenceStage2 fg r env inst c).cluster.services
      = (enforceServicePresence fg env inst c).cluster.services :=
  enforceIngressGUIPresence_services fg r _ _ _

theorem presenceStage3_services (fg : Forge) (r : InstanceReconciler) (env : Environment)
    (inst : Instance) (c : Cluster) :
    (presenceStage3 fg r env inst c).cluster.services
      = (enforceServicePresence fg env inst c).cluster.services := by
  unfold presenceStage3
  rw [enforceIngressMyDrivePresence_services, presenceStage2_services]

/-- Only the Service step of the presence writes Services. -/
theorem enforceInstanceExpositionPresence_services (fg : Forge) (r : InstanceReconciler)
    (env : Environment) (inst : Instance) (c : Cluster) :
    (enforceInstanceExpositionPresence fg r env inst c).cluster.services
      = (enforceServicePresence fg env inst c).cluster.services := by
  rcases enforceInstanceExpositionPresence_cases fg r env inst c with
    ⟨err, _, h⟩ | ⟨_, _, _, h⟩ | ⟨_, _, err, _, h⟩ | ⟨_, _, _, _, h⟩
      | ⟨_, _, _, err, _, h⟩ | ⟨_, _, _, _, h⟩ <;> rw [h]
  · exact presenceStage2_services fg r env inst c
  · exact presenceStage2_services fg r env inst c
  · exact presenceStage3_services fg r env inst c
  · exact presenceStage3_services fg r env inst c

/-- The Ingresses after the presence are those before, those after the GUI step or
those after the MyDrive step. -/
theorem enforceInstanceExpositionPresence_ingresses (fg : Forge) (r : InstanceReconciler)
    (env : Environment) (inst : Instance) (c : Cluster) :
    (enforceInstanceExpositionPresence fg r env inst c).cluster.ingresses = c.ingresses
      ∨ (enforceInstanceExpositionPresence fg r env inst c).cluster.ingresses
        = (presenceStage2 fg r env inst c).cluster.ingresses
      ∨ (enforceInstanceExpositionPresence fg r env inst c).cluster.ingresses
        = (presenceStage3 fg r env inst c).cluster.ingresses := by
  rcases enforceInstanceExpositionPresence_cases fg r env inst c with
    ⟨err, _, h⟩ | ⟨_, _, _, h⟩ | ⟨_, _, err, _, h⟩ | ⟨_, _, _, _, h⟩
      | ⟨_, _, _, err, _, h⟩ | ⟨_, _, _, _, h⟩ <;> rw [h]
  · exact Or.inl (enforceServicePresence_ingresses fg env inst c)
  · exact Or.inl (enforceServicePresence_ingresses fg env inst c)
  · exact Or.inr (Or.inl rfl)
  · exact Or.inr (Or.inl rfl)
  · exact Or.inr (Or.inr rfl)
  · exact Or.inr (Or.inr rfl)

/-- A Service that is there after the presence and was not there before has a
creation timestamp. -/
theorem enforceInstanceExpositionPresence_fresh_service (fg : Forge) (r : InstanceReconciler)
    (env : Environment) (inst : Instance) (c : Cluster) (ns n : String) (y : Service)
    (hy : (enforceInstanceExpositionPresence fg r env inst c).cluster.service ns n = some y)
    (hnone : c.service ns n = none) : y.metadata.CreationTimestamp ≠ 0 := by
  simp only [Cluster.service, enforceInstanceExpositionPresence_services] at hy
  rcases CreateOrUpdate_origin serviceResource serviceResource_lawful
      { metadata := fg.ObjectMeta inst, Spec := { ClusterIP := "", Rest := "" } }
      (serviceMutate fg inst env) c ns n y hy with h | ⟨x, h, _⟩ | ⟨_, hct, _⟩
  · have h2 : c.service ns n = some y := h
    rw [hnone] at h2; exact Option.noConfusion h2
  · have h2 : c.service ns n = some x := h
    rw [hnone] at h2; exact Option.noConfusion h2
  · have h2 : y.metadata.CreationTimestamp = c.clock + 1 := hct
    rw [h2]; exact Nat.succ_ne_zero _

/-- An Ingress that is there after the presence and was not there before has a
creation timestamp. -/
theorem enforceInstanceExpositionPresence_fresh_ingress (fg : Forge) (r : InstanceReconciler)
    (env : Environment) (inst : Instance) (c : Cluster) (ns n : String) (y : Ingress)
    (hy : (enforceInstanceExpositionPresence fg r env inst c).cluster.ingress ns n = some y)
    (hnone : c.ingress ns n = none) : y.metadata.CreationTimestamp ≠ 0 := by
  have hi1 := enforceServicePresence_ingresses fg env inst c
  have a2 : ∀ z, (presenceStage2 fg r env inst c).cluster.ingress ns n = some z →
      z.metadata.CreationTimestamp ≠ 0 := by
    intro z hz
    rcases CreateOrUpdate_origin ingressResource ingressResource_lawful _ _ _ ns n z hz with
      h | ⟨x, h, _⟩ | ⟨_, hct, _⟩
    · have h2 : c.ingress ns n = some z := by
        simp only [Cluster.ingress, ← hi1]; exact h
      rw [hnone] at h2; exact Option.noConfusion h2
    · have h2 : c.ingress ns n = some x := by
        simp only [Cluster.ingress, ← hi1]; exact h
      rw [hnone] at h2; exact Option.noConfusion h2
    · have h2 : z.metadata.CreationTimestamp
          = (enforceServicePresence fg env inst c).cluster.clock + 1 := hct
      rw [h2]; exact Nat.succ_ne_zero _
  have a3 : ∀ z, (presenceStage3 fg r env inst c).cluster.ingress ns n = some z →
      z.metadata.CreationTimestamp ≠ 0 := by
    intro z hz
    rcases CreateOrUpdate_origin ingressResource ingressResource_lawful _ _ _ ns n z hz with
      h | ⟨x, h, hf⟩ | ⟨_, hct, _⟩
    · exact a2 z h
    · have hx := a2 x h
      have hfz := ingressMyDriveMutate_frozen fg r.WebsiteBaseURL r.InstancesAuthURL
        (presenceInst2 fg r env inst c) (fg.IngressMyDrivePath (presenceInst2 fg r env inst c))
        (enforceServicePresence fg env inst c).obj.metadata.Name x hx
      rw [hf] at hfz
      exact hfz.1
    · have h2 : z.metadata.CreationTimestamp
          = (presenceStage2 fg r env inst c).cluster.clock + 1 := hct
      rw [h2]; exact Nat.succ_ne_zero _
  rcases enforceInstanceExpositionPresence_ingresses fg r env inst c with h | h | h
  · simp only [Cluster.ingress, h] at hy
    have h2 : c.ingress ns n = some y := hy
    rw [hnone] at h2; exact Option.noConfusion h2
  · simp only [Cluster.ingress, h] at hy
    exact a2 y hy
  · simp only [Cluster.ingress, h] at hy
    exact a3 y hy

/-- The presence keeps the spec of every Service and Ingress that has a creation
timestamp, and the timestamp. -/
theorem enforceInstanceExpositionPresence_keeps (fg : Forge) (r : InstanceReconciler)
    (env : Environment) (inst : Instance) (c : Cluster) :
    (∀ ns n x, c.service ns n = some x → x.metadata.CreationTimestamp ≠ 0 →
        ∃ y, (enforceInstanceExpositionPresence fg r env inst c).cluster.service ns n = some y
          ∧ y.metadata.CreationTimestamp ≠ 0 ∧ y.Spec = x.Spec)
      ∧ (∀ ns n x, c.ingress ns n = some x → x.metadata.CreationTimestamp ≠ 0 →
        ∃ y, (enforceInstanceExpositionPresence fg r env inst c).cluster.ingress ns n = some y
          ∧ y.metadata.CreationTimestamp ≠ 0 ∧ y.Spec = x.Spec) := by
  constructor
  · intro ns n x hx hct
    obtain ⟨y, hy, hyc, hys⟩ := enforceServicePresence_keeps fg env inst c ns n x.Spec x hx
      ⟨hct, rfl⟩
    refine ⟨y, ?_, hyc, hys⟩
    simp only [Cluster.service, enforceInstanceExpositionPresence_services]
    exact hy
  · intro ns n x hx hct
    have h1 : (enforceServicePresence fg env inst c).cluster.ingress ns n = some x := by
      simp only [Cluster.ingress, enforceServicePresence_ingresses]
      exact hx
    obtain ⟨y, hy, hyc, hys⟩ := enforceIngressGUIPresence_keeps fg r
      (presenceInst1 fg env inst c) (enforceServicePresence fg env inst c).obj.metadata.Name
      (enforceServicePresence fg env inst c).cluster ns n x.Spec x h1 ⟨hct, rfl⟩
    obtain ⟨z, hz, hzc, hzs⟩ := enforceIngressMyDrivePresence_keeps fg r
      (presenceInst2 fg r env inst c) (enforceServicePresence fg env inst c).obj.metadata.Name
      (presenceStage2 fg r env inst c).cluster ns n x.Spec y hy ⟨hyc, hys⟩
    rcases enforceInstanceExpositionPresence_ingresses fg r env inst c with h | h | h
    · exact ⟨x, by simp only [Cluster.ingress, h]; exact hx, hct, rfl⟩
    · exact ⟨y, by simp only [Cluster.ingress, h]; exact hy, hyc, hys⟩
    · exact ⟨z, by simp only [Cluster.ingress, h]; exact hz, hzc, hzs⟩

theorem vmMutate_frozen (fg : Forge) (inst : Instance) (env : Environment) (x : VirtualMachine)
    (h : x.metadata.CreationTimestamp ≠ 0) :
    (vmMutate fg inst env x).1.metadata.CreationTimestamp ≠ 0
      ∧ (vmMutate fg inst env x).1.Spec = { x.Spec with Running := some inst.Spec.Running } := by
  unfold vmMutate
  simp only [if_neg h]
  exact ⟨by rw [(SetControllerReference_frame _ _).1]; exact h, by trivial⟩

theorem vmMutate_running (fg : Forge) (inst : Instance) (env : Environment) (x : VirtualMachine) :
    (vmMutate fg inst env x).1.Spec.Running = some inst.Spec.Running := by
  rw [vmMutate_spec]
  split <;> rfl

theorem vmiMutate_frozen (fg : Forge) (inst : Instance) (env : Environment)
    (x : VirtualMachineInstance) (h : x.metadata.CreationTimestamp ≠ 0) :
    (vmiMutate fg inst env x).1.metadata.CreationTimestamp ≠ 0
      ∧ (vmiMutate fg inst env x).1.Spec = x.Spec := by
  unfold vmiMutate
  simp only [if_neg h]
  exact ⟨by rw [(SetControllerReference_frame _ _).1]; exact h, by trivial⟩

/-- The Services and Ingresses after `EnforceVMEnvironment` are those before or those
the exposition step left. -/
theorem EnforceVMEnvironment_exposition_stores (fg : Forge) (r : InstanceReconciler)
    (env : Environment) (inst : Instance) (c : Cluster) :
    ((EnforceVMEnvironment fg r env inst c).cluster.services = c.services
        ∧ (EnforceVMEnvironment fg r env inst c).cluster.ingresses = c.ingresses)
      ∨ ((EnforceVMEnvironment fg r env inst c).cluster.services
          = (expositionOutcome fg r env inst c).cluster.services
        ∧ (EnforceVMEnvironment fg r env inst c).cluster.ingresses
          = (expositionOutcome fg r env inst c).cluster.ingresses) := by
  rcases EnforceVMEnvironment_cases fg r env inst c with
    ⟨e, _, h⟩ | ⟨_, e, _, h⟩ | ⟨_, _, _, h⟩ | ⟨_, _, _, h⟩ <;> rw [h]
  · exact Or.inl ⟨rfl, rfl⟩
  · exact Or.inr ⟨rfl, rfl⟩
  · have hfr := enforceVirtualMachine_frame fg r env
      (expositionOutcome fg r env inst c).inst (expositionOutcome fg r env inst c).cluster
    exact Or.inr ⟨hfr.2.2.2.2.2.1 (by decide), hfr.2.2.2.2.2.2.1 (by decide)⟩
  · have hfr := enforceVirtualMachineInstance_frame fg r env
      (expositionOutcome fg r env inst c).inst (expositionOutcome fg r env inst c).cluster
    exact Or.inr ⟨hfr.2.2.2.2.2.1 (by decide), hfr.2.2.2.2.2.2.1 (by decide)⟩

/-- A Service or Ingress that is there after `EnforceVMEnvironment` and was not
there before has a creation timestamp, and the Instance is running. -/
theorem EnforceVMEnvironment_fresh_exposition (fg : Forge) (r : InstanceReconciler)
    (env : Environment) (inst : Instance) (c : Cluster) :
    (∀ ns n y, (EnforceVMEnvironment fg r env inst c).cluster.service ns n = some y →
        c.service ns n = none →
        y.metadata.CreationTimestamp ≠ 0 ∧ inst.Spec.Running = true)
      ∧ (∀ ns n y, (EnforceVMEnvironment fg r env inst c).cluster.ingress ns n = some y →
        c.ingress ns n = none →
        y.metadata.CreationTimestamp ≠ 0 ∧ inst.Spec.Running = true) := by
  have hx : ∀ ns n,
      ((∀ y, (expositionOutcome fg r env inst c).cluster.service ns n = some y →
          c.service ns n = none →
          y.metadata.CreationTimestamp ≠ 0 ∧ inst.Spec.Running = true)
        ∧ (∀ y, (expositionOutcome fg r env inst c).cluster.ingress ns n = some y →
          c.ingress ns n = none →
          y.metadata.CreationTimestamp ≠ 0 ∧ inst.Spec.Running = true)) := by
    intro ns n
    unfold expositionOutcome
    cases hrun : inst.Spec.Running with
    | false =>
      rw [EnforceInstanceExposition_not_running fg r env inst _ hrun]
      obtain ⟨o1, o2⟩ := enforceInstanceExpositionAbsence_origin fg inst
        (c.afterSecret (r.EnforceCloudInitSecret inst env c))
      refine ⟨fun y hy hnone => ?_, fun y hy hnone => ?_⟩
      · have h2 : c.service ns n = some y := o1 ns n y hy
        rw [hnone] at h2; exact Option.noConfusion h2
      · have h2 : c.ingress ns n = some y := o2 ns n y hy
        rw [hnone] at h2; exact Option.noConfusion h2
    | true =>
      rw [EnforceInstanceExposition_running fg r env inst _ hrun]
      exact ⟨fun y hy hnone => ⟨enforceInstanceExpositionPresence_fresh_service fg r env inst
          (c.afterSecret (r.EnforceCloudInitSecret inst env c)) ns n y hy hnone, rfl⟩,
        fun y hy hnone => ⟨enforceInstanceExpositionPresence_fresh_ingress fg r env inst
          (c.afterSecret (r.EnforceCloudInitSecret inst env c)) ns n y hy hnone, rfl⟩⟩
  rcases EnforceVMEnvironment_exposition_stores fg r env inst c with ⟨h1, h2⟩ | ⟨h1, h2⟩
  · refine ⟨fun ns n y hy hnone => ?_, fun ns n y hy hnone => ?_⟩
    · simp only [Cluster.service, h1] at hy
      have h3 : c.service ns n = some y := hy
      rw [hnone] at h3; exact Option.noConfusion h3
    · simp only [Cluster.ingress, h2] at hy
      have h3 : c.ingress ns n = some y := hy
      rw [hnone] at h3; exact Option.noConfusion h3
  · refine ⟨fun ns n y hy hnone => ?_, fun ns n y hy hnone => ?_⟩
    · simp only [Cluster.service, h1] at hy
      exact (hx ns n).1 y hy hnone
    · simp only [Cluster.ingress, h2] at hy
      exact (hx ns n).2 y hy hnone

/-- For a running Instance, `EnforceVMEnvironment` keeps the spec of every Service
and Ingress that has a creation timestamp. -/
theorem EnforceVMEnvironment_keeps_exposition (fg : Forge) (r : InstanceReconciler)
    (env : Environment) (inst : Instance) (c : Cluster) (hrun : inst.Spec.Running = true) :
    (∀ ns n x, c.service ns n = some x → x.metadata.CreationTimestamp ≠ 0 →
        ∃ y, (EnforceVMEnvironment fg r env inst c).cluster.service ns n = some y
          ∧ y.Spec = x.Spec)
      ∧ (∀ ns n x, c.ingress ns n = some x → x.metadata.CreationTimestamp ≠ 0 →
        ∃ y, (EnforceVMEnvironment fg r env inst c).cluster.ingress ns n = some y
          ∧ y.Spec = x.Spec) := by
  obtain ⟨k1, k2⟩ := enforceInstanceExpositionPresence_keeps fg r env inst
    (c.afterSecret (r.EnforceCloudInitSecret inst env c))
  have hX : expositionOutcome fg r env inst c
      = enforceInstanceExpositionPresence fg r env inst
          (c.afterSecret (r.EnforceCloudInitSecret inst env c)) := by
    unfold expositionOutcome
    exact EnforceInstanceExposition_running fg r env inst _ hrun
  rcases EnforceVMEnvironment_exposition_stores fg r env inst c with ⟨h1, h2⟩ | ⟨h1, h2⟩
  · exact ⟨fun ns n x hx _ => ⟨x, by simp only [Cluster.service, h1]; exact hx, rfl⟩,
      fun ns n x hx _ => ⟨x, by simp only [Cluster.ingress, h2]; exact hx, rfl⟩⟩
  · rw [hX] at h1 h2
    refine ⟨fun ns n x hx hct => ?_, fun ns n x hx hct => ?_⟩
    · obtain ⟨y, hy, _, hys⟩ := k1 ns n x hx hct
      exact ⟨y, by simp only [Cluster.service, h1]; exact hy, hys⟩
    · obtain ⟨y, hy, _, hys⟩ := k2 ns n x hx hct
      exact ⟨y, by simp only [Cluster.ingress, h2]; exact hy, hys⟩

theorem VirtualMachineSpec_running_eta (s : VirtualMachineSpec) (b : Bool)
    (h : s.Running = some b) : { s with Running := some b } = s := by
  cases s
  simp only at h
  subst h
  rfl

/-- The VirtualMachines after `EnforceVMEnvironment` are those before or those the
`CreateOrUpdate` of `enforceVirtualMachine` left. -/
theorem EnforceVMEnvironment_vms (fg : Forge) (r : InstanceReconciler) (env : Environment)
    (inst : Instance) (c : Cluster) :
    (EnforceVMEnvironment fg r env inst c).cluster.virtualMachines = c.virtualMachines
      ∨ (EnforceVMEnvironment fg r env inst c).cluster.virtualMachines
        = (CreateOrUpdate vmResource
            { metadata := fg.ObjectMeta (expositionOutcome fg r env inst c).inst,
              Spec := { Running := none, Rest := "" }, Status := { PrintableStatus := "" } }
            (vmMutate fg (expositionOutcome fg r env inst c).inst env)
            (expositionOutcome fg r env inst c).cluster).cluster.virtualMachines := by
  obtain ⟨hvms, _, _⟩ := expositionOutcome_frame fg r env inst c
  rcases EnforceVMEnvironment_cases fg r env inst c with
    ⟨e, _, h⟩ | ⟨_, e, _, h⟩ | ⟨_, _, _, h⟩ | ⟨_, _, _, h⟩ <;> rw [h]
  · exact Or.inl rfl
  · exact Or.inl hvms
  · right
    rw [(enforceVirtualMachine_eq fg r env _ _).2]
  · left
    have hfr := enforceVirtualMachineInstance_frame fg r env
      (expositionOutcome fg r env inst c).inst (expositionOutcome fg r env inst c).cluster
    rw [hfr.2.2.2.2.2.2.2.1 (by decide), hvms]

/-- The VirtualMachineInstances after `EnforceVMEnvironment` are those before or
those the `CreateOrUpdate` of `enforceVirtualMachineInstance` left. -/
theorem EnforceVMEnvironment_vmis (fg : Forge) (r : InstanceReconciler) (env : Environment)
    (inst : Instance) (c : Cluster) :
    (EnforceVMEnvironment fg r env inst c).cluster.virtualMachineInstances
        = c.virtualMachineInstances
      ∨ (EnforceVMEnvironment fg r env inst c).cluster.virtualMachineInstances
        = (CreateOrUpdate vmiResource
            { metadata := fg.ObjectMeta (expositionOutcome fg r env inst c).inst,
              Spec := { Rest := "" }, Status := { Phase := "" } }
            (vmiMutate fg (expositionOutcome fg r env inst c).inst env)
            (expositionOutcome fg r env inst c).cluster).cluster.virtualMachineInstances := by
  obtain ⟨_, hvmis, _⟩ := expositionOutcome_frame fg r env inst c
  rcases EnforceVMEnvironment_cases fg r env inst c with
    ⟨e, _, h⟩ | ⟨_, e, _, h⟩ | ⟨_, _, _, h⟩ | ⟨_, _, _, h⟩ <;> rw [h]
  · exact Or.inl rfl
  · exact Or.inl hvmis
  · left
    have hfr := enforceVirtualMachine_frame fg r env
      (expositionOutcome fg r env inst c).inst (expositionOutcome fg r env inst c).cluster
    rw [hfr.2.2.2.2.2.2.2.2.1 (by decide), hvmis]
  · cases hrun : (expositionOutcome fg r env inst c).inst.Spec.Running with
    | true =>
      right
      rw [(enforceVirtualMachineInstance_eq fg r env _ _ hrun).2]
    | false =>
      left
      rw [enforceVirtualMachineInstance_off fg r env _ _ hrun]
      exact hvmis

/-- A VirtualMachine that is there after `EnforceVMEnvironment` and was not there
before has a creation timestamp and the running flag of the Instance. -/
theorem EnforceVMEnvironment_fresh_vm (fg : Forge) (r : InstanceReconciler) (env : Environment)
    (inst : Instance) (c : Cluster) (m : ObjectMeta) (y : VirtualMachine)
    (hy : (EnforceVMEnvironment fg r env inst c).cluster.vm m = some y)
    (hnone : c.vm m = none) :
    y.metadata.CreationTimestamp ≠ 0 ∧ y.Spec.Running = some inst.Spec.Running := by
  obtain ⟨hvms, _, _⟩ := expositionOutcome_frame fg r env inst c
  obtain ⟨_, hspec⟩ := expositionOutcome_inst fg r env inst c
  rcases EnforceVMEnvironment_vms fg r env inst c with h | h
  · simp only [Cluster.vm, h] at hy
    have h2 : c.vm m = some y := hy
    rw [hnone] at h2; exact Option.noConfusion h2
  · simp only [Cluster.vm, h] at hy
    rcases CreateOrUpdate_origin vmResource vmResource_lawful _ _ _ m.Namespace m.Name y hy with
      h1 | ⟨x, h1, _⟩ | ⟨_, hct, o, hfo, _, hyo⟩
    · have h2 : c.vm m = some y := by simp only [Cluster.vm, ← hvms]; exact h1
      rw [hnone] at h2; exact Option.noConfusion h2
    · have h2 : c.vm m = some x := by simp only [Cluster.vm, ← hvms]; exact h1
      rw [hnone] at h2; exact Option.noConfusion h2
    · constructor
      · have h2 : y.metadata.CreationTimestamp
            = (expositionOutcome fg r env inst c).cluster.clock + 1 := hct
        rw [h2]; exact Nat.succ_ne_zero _
      · have hr := vmMutate_running fg (expositionOutcome fg r env inst c).inst env
          { metadata := fg.ObjectMeta (expositionOutcome fg r env inst c).inst,
            Spec := { Running := none, Rest := "" }, Status := { PrintableStatus := "" } }
        rw [hfo, hspec] at hr
        rw [hyo]
        exact hr

/-- `EnforceVMEnvironment` keeps the spec of every VirtualMachine that has a creation
timestamp and the running flag of the Instance. -/
theorem EnforceVMEnvironment_keeps_vm (fg : Forge) (r : InstanceReconciler) (env : Environment)
    (inst : Instance) (c : Cluster) (m : ObjectMeta) (x : VirtualMachine)
    (hx : c.vm m = some x) (hct : x.metadata.CreationTimestamp ≠ 0)
    (hrun : x.Spec.Running = some inst.Spec.Running) :
    ∃ y, (EnforceVMEnvironment fg r env inst c).cluster.vm m = some y ∧ y.Spec = x.Spec := by
  obtain ⟨hvms, _, _⟩ := expositionOutcome_frame fg r env inst c
  obtain ⟨_, hspec⟩ := expositionOutcome_inst fg r env inst c
  rcases EnforceVMEnvironment_vms fg r env inst c with h | h
  · exact ⟨x, by simp only [Cluster.vm, h]; exact hx, rfl⟩
  · have hx2 : lookup vmResource.metaOf m.Namespace m.Name
        (vmResource.list (expositionOutcome fg r env inst c).cluster) = some x := by
      have : (expositionOutcome fg r env inst c).cluster.vm m = some x := by
        simp only [Cluster.vm, hvms]; exact hx
      exact this
    obtain ⟨y, hy, _, hys⟩ := CreateOrUpdate_preserves vmResource vmResource_lawful
      { metadata := fg.ObjectMeta (expositionOutcome fg r env inst c).inst,
        Spec := { Running := none, Rest := "" }, Status := { PrintableStatus := "" } }
      (vmMutate fg (expositionOutcome fg r env inst c).inst env)
      (expositionOutcome fg r env inst c).cluster
      (fun z => z.metadata.CreationTimestamp ≠ 0 ∧ z.Spec = x.Spec)
      (fun z o hz hf => by
        have hfz := vmMutate_frozen fg (expositionOutcome fg r env inst c).inst env z hz.1
        rw [hf, hspec, hz.2] at hfz
        exact ⟨hfz.1, hfz.2.trans (VirtualMachineSpec_running_eta _ _ hrun)⟩)
      m.Namespace m.Name x hx2 ⟨hct, rfl⟩
    exact ⟨y, by simp only [Cluster.vm, h]; exact hy, hys⟩

/-- A VirtualMachineInstance that is there after `EnforceVMEnvironment` and was not
there before has a creation timestamp. -/
theorem EnforceVMEnvironment_fresh_vmi (fg : Forge) (r : InstanceReconciler)
    (env : Environment) (inst : Instance) (c : Cluster) (m : ObjectMeta)
    (y : VirtualMachineInstance)
    (hy : (EnforceVMEnvironment fg r env inst c).cluster.vmi m = some y)
    (hnone : c.vmi m = none) : y.metadata.CreationTimestamp ≠ 0 := by
  obtain ⟨_, hvmis, _⟩ := expositionOutcome_frame fg r env inst c
  rcases EnforceVMEnvironment_vmis fg r env inst c with h | h
  · simp only [Cluster.vmi, h] at hy
    have h2 : c.vmi m = some y := hy
    rw [hnone] at h2; exact Option.noConfusion h2
  · simp only [Cluster.vmi, h] at hy
    rcases CreateOrUpdate_origin vmiResource vmiResource_lawful _ _ _ m.Namespace m.Name y hy
      with h1 | ⟨x, h1, _⟩ | ⟨_, hct, _⟩
    · have h2 : c.vmi m = some y := by simp only [Cluster.vmi, ← hvmis]; exact h1
      rw [hnone] at h2; exact Option.noConfusion h2
    · have h2 : c.vmi m = some x := by simp only [Cluster.vmi, ← hvmis]; exact h1
      rw [hnone] at h2; exact Option.noConfusion h2
    · have h2 : y.metadata.CreationTimestamp
          = (expositionOutcome fg r env inst c).cluster.clock + 1 := hct
      rw [h2]; exact Nat.succ_ne_zero _

/-- `EnforceVMEnvironment` keeps the spec of every VirtualMachineInstance that has a
creation timestamp. -/
theorem EnforceVMEnvironment_keeps_vmi (fg : Forge) (r : InstanceReconciler)
    (env : Environment) (inst : Instance) (c : Cluster) (m : ObjectMeta)
    (x : VirtualMachineInstance)
    (hx : c.vmi m = some x) (hct : x.metadata.CreationTimestamp ≠ 0) :
    ∃ y, (EnforceVMEnvironment fg r env inst c).cluster.vmi m = some y ∧ y.Spec = x.Spec := by
  obtain ⟨_, hvmis, _⟩ := expositionOutcome_frame fg r env inst c
  rcases EnforceVMEnvironment_vmis fg r env inst c with h | h
  · exact ⟨x, by simp only [Cluster.vmi, h]; exact hx, rfl⟩
  · have hx2 : lookup vmiResource.metaOf m.Namespace m.Name
        (vmiResource.list (expositionOutcome fg r env inst c).cluster) = some x := by
      have : (expositionOutcome fg r env inst c).cluster.vmi m = some x := by
        simp only [Cluster.vmi, hvmis]; exact hx
      exact this
    obtain ⟨y, hy, _, hys⟩ := CreateOrUpdate_preserves vmiResource vmiResource_lawful
      { metadata := fg.ObjectMeta (expositionOutcome fg r env inst c).inst,
        Spec := { Rest := "" }, Status := { Phase := "" } }
      (vmiMutate fg (expositionOutcome fg r env inst c).inst env)
      (expositionOutcome fg r env inst c).cluster
      (fun z => z.metadata.CreationTimestamp ≠ 0 ∧ z.Spec = x.Spec)
      (fun z o hz hf => by
        have hfz := vmiMutate_frozen fg (expositionOutcome fg r env inst c).inst env z hz.1
        rw [hf] at hfz
        exact ⟨hfz.1, hfz.2.trans hz.2⟩)
      m.Namespace m.Name x hx2 ⟨hct, rfl⟩
    exact ⟨y, by simp only [Cluster.vmi, h]; exact hy, hys⟩

/-- C19: idempotence of the specs. Invoke `EnforceVMEnvironment`, then invoke it
again on the cluster it left, with the same environment and an Instance with
the same running flag (the Instance as it was, or as the first invocation left
it). Every Service, Ingress, VirtualMachine and VirtualMachineInstance that
the first invocation created (it was not there before, it is there after) is
still there after the second, with the same spec, whatever either invocation
returns. In particular one invocation keeps the spec of a
VirtualMachineInstance that is already there with a creation timestamp. -/
theorem C19_idempotent_specs (fg : Forge) (r : InstanceReconciler) (env : Environment)
    (inst inst2 : Instance) (c : Cluster)
    (hsame : inst2.Spec.Running = inst.Spec.Running) :
    (∀ ns n svc, c.service ns n = none →
        (EnforceVMEnvironment fg r env inst c).cluster.service ns n = some svc →
        ∃ svc2, (EnforceVMEnvironment fg r env inst2
            (EnforceVMEnvironment fg r env inst c).cluster).cluster.service ns n = some svc2
          ∧ svc2.Spec = svc.Spec)
      ∧ (∀ ns n ing, c.ingress ns n = none →
        (EnforceVMEnvironment fg r env inst c).cluster.ingress ns n = some ing →
        ∃ ing2, (EnforceVMEnvironment fg r env inst2
            (EnforceVMEnvironment fg r env inst c).cluster).cluster.ingress ns n = some ing2
          ∧ ing2.Spec = ing.Spec)
      ∧ (∀ m vm, c.vm m = none →
        (EnforceVMEnvironment fg r env inst c).cluster.vm m = some vm →
        ∃ vm2, (EnforceVMEnvironment fg r env inst2
            (EnforceVMEnvironment fg r env inst c).cluster).cluster.vm m = some vm2
          ∧ vm2.Spec = vm.Spec)
      ∧ (∀ m vmi, c.vmi m = none →
        (EnforceVMEnvironment fg r env inst c).cluster.vmi m = some vmi →
        ∃ vmi2, (EnforceVMEnvironment fg r env inst2
            (EnforceVMEnvironment fg r env inst c).cluster).cluster.vmi m = some vmi2
          ∧ vmi2.Spec = vmi.Spec)
      ∧ (∀ m vmi, c.vmi m = some vmi → vmi.metadata.CreationTimestamp ≠ 0 →
        ∃ vmi1, (EnforceVMEnvironment fg r env inst c).cluster.vmi m = some vmi1
          ∧ vmi1.Spec = vmi.Spec) := by
  obtain ⟨f1, f2⟩ := EnforceVMEnvironment_fresh_exposition fg r env inst c
  refine ⟨?_, ?_, ?_, ?_, ?_⟩
  · intro ns n svc hnone hsvc
    obtain ⟨hct, hrun⟩ := f1 ns n svc hsvc hnone
    exact (EnforceVMEnvironment_keeps_exposition fg r env inst2 _ (hsame.trans hrun)).1
      ns n svc hsvc hct
  · intro ns n ing hnone hing
    obtain ⟨hct, hrun⟩ := f2 ns n ing hing hnone
    exact (EnforceVMEnvironment_keeps_exposition fg r env inst2 _ (hsame.trans hrun)).2
      ns n ing hing hct
  · intro m vm hnone hvm
    obtain ⟨hct, hrun⟩ := EnforceVMEnvironment_fresh_vm fg r env inst c m vm hvm hnone
    exact EnforceVMEnvironment_keeps_vm fg r env inst2 _ m vm hvm hct (by rw [hrun, hsame])
  · intro m vmi hnone hvmi
    exact EnforceVMEnvironment_keeps_vmi fg r env inst2 _ m vmi hvmi
      (EnforceVMEnvironment_fresh_vmi fg r env inst c m vmi hvmi hnone)
  · intro m vmi hvmi hct
    exact EnforceVMEnvironment_keeps_vmi fg r env inst c m vmi hvmi hct

/-- C19, witness: in the empty cluster the first invocation creates the Service and
the VirtualMachineInstance; the second one, given the Instance as the first left
it, keeps their specs. -/
theorem C19_idempotent_specs_witness :
    (EnforceVMEnvironment Sample.forge Sample.reconciler (Sample.environment false false)
        (Sample.inst true) (Sample.cluster true false false Sample.noFaults)).inst.Spec.Running
      = (Sample.inst true).Spec.Running
    ∧ (Sample.cluster true false false Sample.noFaults).service "tenant-tester" "kubernetes-0000"
      = none
    ∧ (EnforceVMEnvironment Sample.forge Sample.reconciler (Sample.environment false false)
        (Sample.inst true) (Sample.cluster true false false Sample.noFaults)).cluster.service
          "tenant-tester" "kubernetes-0000" = some Sample.createdService
    ∧ (∃ svc2, (EnforceVMEnvironment Sample.forge Sample.reconciler
          (Sample.environment false false)
          (EnforceVMEnvironment Sample.forge Sample.reconciler (Sample.environment false false)
            (Sample.inst true) (Sample.cluster true false false Sample.noFaults)).inst
          (EnforceVMEnvironment Sample.forge Sample.reconciler (Sample.environment false false)
            (Sample.inst true) (Sample.cluster true false false
              Sample.noFaults)).cluster).cluster.service "tenant-tester" "kubernetes-0000"
          = some svc2
        ∧ svc2.Spec = Sample.createdService.Spec)
    ∧ (∃ vmi2, (EnforceVMEnvironment Sample.forge Sample.reconciler
          (Sample.environment false false)
          (EnforceVMEnvironment Sample.forge Sample.reconciler (Sample.environment false false)
            (Sample.inst true) (Sample.cluster true false false Sample.noFaults)).inst
          (EnforceVMEnvironment Sample.forge Sample.reconciler (Sample.environment false false)
            (Sample.inst true) (Sample.cluster true false false
              Sample.noFaults)).cluster).cluster.vmi (Sample.childMeta 0)
          = some vmi2
        ∧ vmi2.Spec = Sample.createdVMI.Spec) :=
  ⟨rfl, rfl, rfl,
    (C19_idempotent_specs Sample.forge Sample.reconciler (Sample.environment false false)
      (Sample.inst true)
      (EnforceVMEnvironment Sample.forge Sample.reconciler (Sample.environment false false)
        (Sample.inst true) (Sample.cluster true false false Sample.noFaults)).inst
      (Sample.cluster true false false Sample.noFaults) rfl).1
      "tenant-tester" "kubernetes-0000" Sample.createdService rfl rfl,
    (C19_idempotent_specs Sample.forge Sample.reconciler (Sample.environment false false)
      (Sample.inst true)
      (EnforceVMEnvironment Sample.forge Sample.reconciler (Sample.environment false false)
        (Sample.inst true) (Sample.cluster true false false Sample.noFaults)).inst
      (Sample.cluster true false false Sample.noFaults) rfl).2.2.2.1
      (Sample.childMeta 0) Sample.createdVMI rfl rfl⟩

/-! ### forge: CPU limits and memory -/

/-- C21: for an environment with at least one core and a reserved percentage of at
most 100, the CPU limit is `cores * 1000` plus the CPU request
`cores * 1000 * reserved / 100` milli-cores; the division is exact, so the limit
is `cores * 10 * (100 + reserved)`; it lies between `cores * 1000` and twice
that, above the request, and it is the CPU limit of `VirtualMachineResources`. -/
theorem C21_cpu_limits (env : Environment) (hc : 0 < env.Resources.CPU)
    (hr : env.Resources.ReservedCPUPercentage ≤ 100) :
    VirtualMachineCPULimits env
        = env.Resources.CPU * 1000
          + env.Resources.CPU * 1000 * env.Resources.ReservedCPUPercentage / 100
      ∧ VirtualMachineCPULimits env = env.Resources.CPU * 1000 + VirtualMachineCPURequests env
      ∧ VirtualMachineCPULimits env
        = env.Resources.CPU * 10 * (100 + env.Resources.ReservedCPUPercentage)
      ∧ env.Resources.CPU * 1000 ≤ VirtualMachineCPULimits env
      ∧ VirtualMachineCPULimits env ≤ 2 * (env.Resources.CPU * 1000)
      ∧ VirtualMachineCPURequests env < VirtualMachineCPULimits env
      ∧ (VirtualMachineResources env).LimitsCPU = VirtualMachineCPULimits env
      ∧ (VirtualMachineResources env).RequestsCPU = VirtualMachineCPURequests env := by
  have h1 : env.Resources.CPU * 1000 * env.Resources.ReservedCPUPercentage
      = env.Resources.CPU * 10 * env.Resources.ReservedCPUPercentage * 100 := by ring
  have h2 : VirtualMachineCPURequests env
      = env.Resources.CPU * 10 * env.Resources.ReservedCPUPercentage := by
    unfold VirtualMachineCPURequests
    rw [h1]
    exact Nat.mul_div_cancel _ (by decide)
  have h3 : env.Resources.CPU * 10 * env.Resources.ReservedCPUPercentage
      ≤ env.Resources.CPU * 10 * 100 := Nat.mul_le_mul_left _ hr
  refine ⟨rfl, rfl, ?_, ?_, ?_, ?_, rfl, rfl⟩
  · unfold VirtualMachineCPULimits
    rw [h2]
    ring
  · unfold VirtualMachineCPULimits
    omega
  · unfold VirtualMachineCPULimits
    rw [h2]
    omega
  · unfold VirtualMachineCPULimits
    omega

/-- C21, witness: the fixture of the forge test, 2 cores with 25% reserved, gives a
limit of 2500 milli-cores. -/
theorem C21_cpu_limits_witness :
    0 < (Sample.environment false false).Resources.CPU
    ∧ (Sample.environment false false).Resources.ReservedCPUPercentage ≤ 100
    ∧ VirtualMachineCPULimits (Sample.environment false false) = 2500
    ∧ VirtualMachineCPULimits (Sample.environment false false) = 2 * 10 * (100 + 25) :=
  ⟨by decide, by decide, by decide,
    (C21_cpu_limits (Sample.environment false false) (by decide) (by decide)).2.2.1⟩

/-- C22: for an environment with a positive memory, the memory requirement is
exactly the memory times 1.4 (seven fifths of it, with no rounding);
`VirtualMachineResources` uses that one value as the memory request and as the
memory limit, so the two are equal; and the requirement is above the memory
itself. -/
theorem C22_memory_requirements (env : Environment) (hm : 0 < env.Resources.Memory) :
    VirtualMachineMemoryRequirements env = (env.Resources.Memory : ℚ) * 1.4
      ∧ VirtualMachineMemoryRequirements env = (env.Resources.Memory : ℚ) * 14 / 10
      ∧ 5 * VirtualMachineMemoryRequirements env = 7 * (env.Resources.Memory : ℚ)
      ∧ (VirtualMachineResources env).RequestsMemory = (env.Resources.Memory : ℚ) * 1.4
      ∧ (VirtualMachineResources env).LimitsMemory = (env.Resources.Memory : ℚ) * 1.4
      ∧ (VirtualMachineResources env).RequestsMemory = (VirtualMachineResources env).LimitsMemory
      ∧ (env.Resources.Memory : ℚ) < VirtualMachineMemoryRequirements env
      ∧ 0 < VirtualMachineMemoryRequirements env := by
  have hq : (0 : ℚ) < (env.Resources.Memory : ℚ) := by exact_mod_cast hm
  have h14 : (1.4 : ℚ) = 14 / 10 := by norm_num
  refine ⟨rfl, ?_, ?_, rfl, rfl, rfl, ?_, ?_⟩
  · unfold VirtualMachineMemoryRequirements
    rw [h14]
    ring
  · unfold VirtualMachineMemoryRequirements
    rw [h14]
    ring
  · unfold VirtualMachineMemoryRequirements
    rw [h14]
    linarith
  · unfold VirtualMachineMemoryRequirements
    rw [h14]
    linarith

/-- C22, witness: the fixture of the forge test, a memory of 1250M, gives 1750M for
both the request and the limit. -/
theorem C22_memory_requirements_witness :
    0 < (Sample.environment false false).Resources.Memory
    ∧ VirtualMachineMemoryRequirements (Sample.environment false false) = 1750
    ∧ (VirtualMachineResources (Sample.environment false false)).RequestsMemory = 1750
    ∧ (VirtualMachineResources (Sample.environment false false)).LimitsMemory = 1750
    ∧ (VirtualMachineResources (Sample.environment false false)).RequestsMemory
      = (VirtualMachineResources (Sample.environment false false)).LimitsMemory :=
  ⟨by decide,
    by
      have h := (C22_memory_requirements (Sample.environment false false) (by decide)).2.2.1
      have e : ((Sample.environment false false).Resources.Memory : ℚ) = 1250 := by
        simp [Sample.environment]
      rw [e] at h
      linarith,
    by
      simp only [VirtualMachineResources, VirtualMachineMemoryRequirements, Sample.environment]
      norm_num,
    by
      simp only [VirtualMachineResources, VirtualMachineMemoryRequirements, Sample.environment]
      norm_num,
    (C22_memory_requirements (Sample.environment false false) (by decide)).2.2.2.2.2.1⟩

/-! ### exposition.go: a deletion that fails -/

theorem enforceObjectAbsence_fault {α : Type} (R : Resource α) (m : ObjectMeta) (c : Cluster)
    (e : Err) (hf : c.faults .delete R.kind m.Namespace m.Name = some e)
    (hnf : IsNotFound e = false) :
    enforceObjectAbsence R m c = (c.record (.api .delete R.kind m.Namespace m.Name), some e) := by
  unfold enforceObjectAbsence clientDelete
  simp [hf, hnf]

theorem enforceObjectAbsence_eq_of_ok {α : Type} (R : Resource α) (m : ObjectMeta) (c : Cluster)
    (h : ∀ e, c.faults .delete R.kind m.Namespace m.Name = some e → IsNotFound e = true) :
    enforceObjectAbsence R m c = ((enforceObjectAbsence R m c).1, none) := by
  have h2 := enforceObjectAbsence_ok R m c h
  rcases hx : enforceObjectAbsence R m c with ⟨c1, e1⟩
  rw [hx] at h2
  simp only at h2
  rw [h2]

/-- C25: `enforceInstanceExpositionAbsence` returns, on every path, the Instance
with `status.ip`, `status.url` and `status.myDriveUrl` empty and nothing else
changed. When the deletion of the Service is answered with an error other than
not-found, that error is returned and the deletion of the Service is the only
request issued, so both Ingresses stay. When the deletion of the Service does
not fail and that of the GUI Ingress is answered with such an error, that error
is returned after these two requests, and no Ingress has been removed. When
only the deletion of the File-Sync Ingress fails, its error is returned. -/
theorem C25_absence_clears_then_stops (fg : Forge) (inst : Instance) (c : Cluster) :
    ((enforceInstanceExpositionAbsence fg inst c).inst = absenceInst inst
        ∧ (enforceInstanceExpositionAbsence fg inst c).inst.Status.IP = ""
        ∧ (enforceInstanceExpositionAbsence fg inst c).inst.Status.URL = ""
        ∧ (enforceInstanceExpositionAbsence fg inst c).inst.Status.MyDriveURL = ""
        ∧ (enforceInstanceExpositionAbsence fg inst c).inst.Status.Phase = inst.Status.Phase)
      ∧ (∀ e, c.faults .delete .Service (fg.ObjectMeta (absenceInst inst)).Namespace
            (fg.ObjectMeta (absenceInst inst)).Name = some e → IsNotFound e = false →
          (enforceInstanceExpositionAbsence fg inst c).err = some e
            ∧ (enforceInstanceExpositionAbsence fg inst c).cluster
              = c.record (.api .delete .Service (fg.ObjectMeta (absenceInst inst)).Namespace
                  (fg.ObjectMeta (absenceInst inst)).Name)
            ∧ (enforceInstanceExpositionAbsence fg inst c).cluster.services = c.services
            ∧ (enforceInstanceExpositionAbsence fg inst c).cluster.ingresses = c.ingresses)
      ∧ ((∀ e, c.faults .delete .Service (fg.ObjectMeta (absenceInst inst)).Namespace
            (fg.ObjectMeta (absenceInst inst)).Name = some e → IsNotFound e = true) →
          (∀ e, c.faults .delete .Ingress
              (fg.ObjectMetaWithSuffix (absenceInst inst) fg.IngressGUINameSuffix).Namespace
              (fg.ObjectMetaWithSuffix (absenceInst inst) fg.IngressGUINameSuffix).Name = some e →
            IsNotFound e = false →
            (enforceInstanceExpositionAbsence fg inst c).err = some e
              ∧ (enforceInstanceExpositionAbsence fg inst c).cluster.log = c.log ++
                [.api .delete .Service (fg.ObjectMeta (absenceInst inst)).Namespace
                    (fg.ObjectMeta (absenceInst inst)).Name,
                 .api .delete .Ingress
                    (fg.ObjectMetaWithSuffix (absenceInst inst) fg.IngressGUINameSuffix).Namespace
                    (fg.ObjectMetaWithSuffix (absenceInst inst) fg.IngressGUINameSuffix).Name]
              ∧ (enforceInstanceExpositionAbsence fg inst c).cluster.ingresses = c.ingresses)
          ∧ ((∀ e, c.faults .delete .Ingress
                (fg.ObjectMetaWithSuffix (absenceInst inst) fg.IngressGUINameSuffix).Namespace
                (fg.ObjectMetaWithSuffix (absenceInst inst) fg.IngressGUINameSuffix).Name
                  = some e → IsNotFound e = true) →
            ∀ e, c.faults .delete .Ingress
                (fg.ObjectMetaWithSuffix (absenceInst inst) fg.IngressMyDriveNameSuffix).Namespace
                (fg.ObjectMetaWithSuffix (absenceInst inst) fg.IngressMyDriveNameSuffix).Name
                  = some e →
              IsNotFound e = false →
              (enforceInstanceExpositionAbsence fg inst c).err = some e)) := by
  refine ⟨?_, ?_, ?_⟩
  · rw [enforceInstanceExpositionAbsence_inst]
    exact ⟨rfl, rfl, rfl, rfl, rfl⟩
  · intro e hf hnf
    have h := enforceObjectAbsence_fault serviceResource (fg.ObjectMeta (absenceInst inst)) c e
      hf hnf
    have hE : enforceInstanceExpositionAbsence fg inst c
        = ⟨c.record (.api .delete .Service (fg.ObjectMeta (absenceInst inst)).Namespace
            (fg.ObjectMeta (absenceInst inst)).Name), absenceInst inst, some e⟩ := by
      unfold enforceInstanceExpositionAbsence
      simp only
      have h' : enforceObjectAbsence serviceResource
          (fg.ObjectMeta
            { inst with Status := { inst.Status with IP := "", URL := "", MyDriveURL := "" } }) c
          = (c.record (.api .delete .Service (fg.ObjectMeta (absenceInst inst)).Namespace
              (fg.ObjectMeta (absenceInst inst)).Name), some e) := h
      rw [h']
      rfl
    rw [hE]
    exact ⟨rfl, rfl, rfl, rfl⟩
  · intro h1
    have k1 := enforceObjectAbsence_eq_of_ok serviceResource (fg.ObjectMeta (absenceInst inst)) c h1
    have f1 : (absenceStage1 fg inst c).faults = c.faults :=
      enforceObjectAbsence_faults serviceResource serviceResource_lawful _ c
    have l1 : (absenceStage1 fg inst c).log = c.log ++
        [.api .delete .Service (fg.ObjectMeta (absenceInst inst)).Namespace
          (fg.ObjectMeta (absenceInst inst)).Name] :=
      enforceObjectAbsence_log serviceResource serviceResource_lawful _ c
    have i1 : (absenceStage1 fg inst c).ingresses = c.ingresses := by
      have hs : sameBut .Service c (absenceStage1 fg inst c) := by
        unfold absenceStage1
        rw [enforceObjectAbsence_fst]
        exact clientDelete_sameBut serviceResource serviceResource_lawful _ _ c
      exact hs.2.2.2.2.2.2.1 (by decide)
    have k1' : enforceObjectAbsence serviceResource
        (fg.ObjectMeta
          { inst with Status := { inst.Status with IP := "", URL := "", MyDriveURL := "" } }) c
        = (absenceStage1 fg inst c, none) := k1
    refine ⟨?_, ?_⟩
    · intro e hf hnf
      rw [← f1] at hf
      have h := enforceObjectAbsence_fault ingressResource
        (fg.ObjectMetaWithSuffix (absenceInst inst) fg.IngressGUINameSuffix)
        (absenceStage1 fg inst c) e hf hnf
      have h' : enforceObjectAbsence ingressResource
          (fg.ObjectMetaWithSuffix
            { inst with Status := { inst.Status with IP := "", URL := "", MyDriveURL := "" } }
            fg.IngressGUINameSuffix) (absenceStage1 fg inst c)
          = ((absenceStage1 fg inst c).record (.api .delete .Ingress
              (fg.ObjectMetaWithSuffix (absenceInst inst) fg.IngressGUINameSuffix).Namespace
              (fg.ObjectMetaWithSuffix (absenceInst inst) fg.IngressGUINameSuffix).Name),
            some e) := h
      have hE : enforceInstanceExpositionAbsence fg inst c
          = ⟨(absenceStage1 fg inst c).record (.api .delete .Ingress
              (fg.ObjectMetaWithSuffix (absenceInst inst) fg.IngressGUINameSuffix).Namespace
              (fg.ObjectMetaWithSuffix (absenceInst inst) fg.IngressGUINameSuffix).Name),
              absenceInst inst, some e⟩ := by
        unfold enforceInstanceExpositionAbsence
        simp only
        rw [k1']
        simp only
        rw [h']
        rfl
      rw [hE]
      refine ⟨rfl, ?_, i1⟩
      show (absenceStage1 fg inst c).log ++ _ = _
      rw [l1]
      simp
    · intro h2 e hf hnf
      rw [← f1] at h2
      have k2 := enforceObjectAbsence_eq_of_ok ingressResource
        (fg.ObjectMetaWithSuffix (absenceInst inst) fg.IngressGUINameSuffix)
        (absenceStage1 fg inst c) h2
      have f2 : (absenceStage2 fg inst c).faults = (absenceStage1 fg inst c).faults :=
        enforceObjectAbsence_faults ingressResource ingressResource_lawful _ _
      have k2' : enforceObjectAbsence ingressResource
          (fg.ObjectMetaWithSuffix
            { inst with Status := { inst.Status with IP := "", URL := "", MyDriveURL := "" } }
            fg.IngressGUINameSuffix) (absenceStage1 fg inst c)
          = (absenceStage2 fg inst c, none) := k2
      rw [← f1, ← f2] at hf
      have h := enforceObjectAbsence_fault ingressResource
        (fg.ObjectMetaWithSuffix (absenceInst inst) fg.IngressMyDriveNameSuffix)
        (absenceStage2 fg inst c) e hf hnf
      have h' : enforceObjectAbsence ingressResource
          (fg.ObjectMetaWithSuffix
            { inst with Status := { inst.Status with IP := "", URL := "", MyDriveURL := "" } }
            fg.IngressMyDriveNameSuffix) (absenceStage2 fg inst c)
          = ((absenceStage2 fg inst c).record (.api .delete .Ingress
              (fg.ObjectMetaWithSuffix (absenceInst inst) fg.IngressMyDriveNameSuffix).Namespace
              (fg.ObjectMetaWithSuffix (absenceInst inst) fg.IngressMyDriveNameSuffix).Name),
            some e) := h
      unfold enforceInstanceExpositionAbsence
      simp only
      rw [k1']
      simp only
      rw [k2']
      simp only
      rw [h']

/-- C25, witness: the Instance is off and still shows an address and two URLs, the
Service and the GUI Ingress exist. With the deletion of the Service answered
with an error, the error is returned after that one request, the three fields
are empty, and the Service and the Ingress are still there. With the deletion of
Ingresses answered with an error, the Service is gone, the error is returned
after two requests, and the Ingress is still there. -/
theorem C25_absence_clears_then_stops_witness :
    IsNotFound (.other 7) = false
    ∧ (enforceInstanceExpositionAbsence Sample.forge Sample.exposedInst
        (Sample.withExposition (Sample.cluster false false true
          (Sample.failing .delete .Service (.other 7))))).err = some (.other 7)
    ∧ (enforceInstanceExpositionAbsence Sample.forge Sample.exposedInst
        (Sample.withExposition (Sample.cluster false false true
          (Sample.failing .delete .Service (.other 7))))).cluster.log
      = [.api .delete .Service "tenant-tester" "kubernetes-0000"]
    ∧ (enforceInstanceExpositionAbsence Sample.forge Sample.exposedInst
        (Sample.withExposition (Sample.cluster false false true
          (Sample.failing .delete .Service (.other 7))))).cluster.services
      = [Sample.existingService]
    ∧ (enforceInstanceExpositionAbsence Sample.forge Sample.exposedInst
        (Sample.withExposition (Sample.cluster false false true
          (Sample.failing .delete .Service (.other 7))))).cluster.ingresses
      = [Sample.existingIngressGUI]
    ∧ (enforceInstanceExpositionAbsence Sample.forge Sample.exposedInst
        (Sample.withExposition (Sample.cluster false false true
          (Sample.failing .delete .Service (.other 7))))).inst.Status
      = { Phase := .Off, IP := "", URL := "", MyDriveURL := "" }
    ∧ (enforceInstanceExpositionAbsence Sample.forge Sample.exposedInst
        (Sample.withExposition (Sample.cluster false false true
          (Sample.failing .delete .Ingress (.other 7))))).err = some (.other 7)
    ∧ (enforceInstanceExpositionAbsence Sample.forge Sample.exposedInst
        (Sample.withExposition (Sample.cluster false false true
          (Sample.failing .delete .Ingress (.other 7))))).cluster.log
      = [.api .delete .Service "tenant-tester" "kubernetes-0000",
         .api .delete .Ingress "tenant-tester" "kubernetes-0000-gui"]
    ∧ (enforceInstanceExpositionAbsence Sample.forge Sample.exposedInst
        (Sample.withExposition (Sample.cluster false false true
          (Sample.failing .delete .Ingress (.other 7))))).cluster.services = []
    ∧ (enforceInstanceExpositionAbsence Sample.forge Sample.exposedInst
        (Sample.withExposition (Sample.cluster false false true
          (Sample.failing .delete .Ingress (.other 7))))).cluster.ingresses
      = [Sample.existingIngressGUI] :=
  ⟨rfl,
    ((C25_absence_clears_then_stops Sample.forge Sample.exposedInst
      (Sample.withExposition (Sample.cluster false false true
        (Sample.failing .delete .Service (.other 7))))).2.1 (.other 7) rfl rfl).1,
    by decide, by decide, by decide, by decide,
    (((C25_absence_clears_then_stops Sample.forge Sample.exposedInst
      (Sample.withExposition (Sample.cluster false false true
        (Sample.failing .delete .Ingress (.other 7))))).2.2
        (fun e h => by simp [Sample.cluster, Sample.withExposition, Sample.failing] at h)).1
        (.other 7) rfl rfl).1,
    by decide, by decide, by decide⟩

/-! ### exposition.go: what the presence leaves in the status -/

theorem https_ne_empty (a b : String) : "https://" ++ a ++ b ≠ "" := by
  intro h
  have h1 := congrArg String.length h
  simp only [String.length_append] at h1
  have h2 : "https://".length = 8 := by decide
  have h3 : "".length = 0 := by decide
  omega

/-- C28, as stated, fails for `status.ip`: the Instance is running and shows the
address 10.96.0.7, its Service exists and has no cluster address; the
create-or-update of the Service succeeds, `enforceInstanceExpositionPresence`
returns no error and `status.ip` is empty afterwards. -/
theorem C28_presence_clears_ip_counterexample :
    Sample.runningExposedInst.Status.IP = "10.96.0.7"
    ∧ (Sample.withServiceWithoutAddress
        (Sample.cluster true false false Sample.noFaults)).services.map
          (fun s => (s.metadata.Name, s.Spec.ClusterIP)) = [("kubernetes-0000", "")]
    ∧ (enforceServicePresence Sample.forge (Sample.environment false false)
        Sample.runningExposedInst
        (Sample.withServiceWithoutAddress
          (Sample.cluster true false false Sample.noFaults))).err = none
    ∧ (enforceInstanceExpositionPresence Sample.forge Sample.reconciler
        (Sample.environment false false) Sample.runningExposedInst
        (Sample.withServiceWithoutAddress
          (Sample.cluster true false false Sample.noFaults))).err = none
    ∧ (enforceInstanceExpositionPresence Sample.forge Sample.reconciler
        (Sample.environment false false) Sample.runningExposedInst
        (Sample.withServiceWithoutAddress
          (Sample.cluster true false false Sample.noFaults))).inst.Status.IP = "" := by
  refine ⟨rfl, by decide, by decide, by decide, by decide⟩

/-- C28, amended: `enforceInstanceExpositionPresence` changes nothing of the Instance
but the three exposure fields. It never clears `status.url` or
`status.myDriveUrl`: each is either left as it was or set to an `https://` URL,
which is not empty. It overwrites `status.ip`: whenever the create-or-update of
the Service succeeds, `status.ip` is the cluster address of the Service as
enforced, empty when that Service has none. For a VM environment without GUI
`status.url` and `status.myDriveUrl` keep their values; for every VM
environment `status.myDriveUrl` keeps its value. When the create-or-update of
the Service fails, its error is returned, the Instance is unchanged, the
Ingresses are as before and every request issued is about a Service. -/
theorem C28_presence_keeps_urls_overwrites_ip (fg : Forge) (r : InstanceReconciler) (env : Environment)
    (inst : Instance) (c : Cluster) :
    ((enforceInstanceExpositionPresence fg r env inst c).inst.metadata = inst.metadata
        ∧ (enforceInstanceExpositionPresence fg r env inst c).inst.Spec = inst.Spec
        ∧ (enforceInstanceExpositionPresence fg r env inst c).inst.Status.Phase
          = inst.Status.Phase)
      ∧ ((enforceInstanceExpositionPresence fg r env inst c).inst.Status.URL = inst.Status.URL
        ∨ ((enforceInstanceExpositionPresence fg r env inst c).inst.Status.URL
            = "https://" ++ r.WebsiteBaseURL ++ fg.IngressGUIPath (presenceInst1 fg env inst c)
          ∧ (enforceInstanceExpositionPresence fg r env inst c).inst.Status.URL ≠ ""))
      ∧ ((enforceInstanceExpositionPresence fg r env inst c).inst.Status.MyDriveURL
          = inst.Status.MyDriveURL
        ∨ ((enforceInstanceExpositionPresence fg r env inst c).inst.Status.MyDriveURL
            = "https://" ++ r.WebsiteBaseURL
              ++ fg.IngressMyDrivePath (presenceInst2 fg r env inst c)
          ∧ (enforceInstanceExpositionPresence fg r env inst c).inst.Status.MyDriveURL ≠ ""))
      ∧ ((enforceServicePresence fg env inst c).err = none →
          (enforceInstanceExpositionPresence fg r env inst c).inst.Status.IP
            = (enforceServicePresence fg env inst c).obj.Spec.ClusterIP)
      ∧ (env.EnvironmentType = .ClassVM → env.GuiEnabled = false →
          (enforceInstanceExpositionPresence fg r env inst c).inst.Status.URL = inst.Status.URL
            ∧ (enforceInstanceExpositionPresence fg r env inst c).inst.Status.MyDriveURL
              = inst.Status.MyDriveURL)
      ∧ (env.EnvironmentType = .ClassVM →
          (enforceInstanceExpositionPresence fg r env inst c).inst.Status.MyDriveURL
            = inst.Status.MyDriveURL)
      ∧ (∀ e, (enforceServicePresence fg env inst c).err = some e →
          (enforceInstanceExpositionPresence fg r env inst c).err = some e
            ∧ (enforceInstanceExpositionPresence fg r env inst c).inst = inst
            ∧ (enforceInstanceExpositionPresence fg r env inst c).cluster.ingresses = c.ingresses
            ∧ logGrowsBy (fun a => Action.onKind a .Service = true) c
                (enforceInstanceExpositionPresence fg r env inst c).cluster) := by
  have hsb : sameBut .Service c (enforceServicePresence fg env inst c).cluster :=
    CreateOrUpdate_sameBut serviceResource serviceResource_lawful _ _ c
  have hlg : logGrowsBy (fun a => Action.onKind a .Service = true) c
      (enforceServicePresence fg env inst c).cluster :=
    CreateOrUpdate_logGrowsBy serviceResource serviceResource_lawful _ _ c
  rcases enforceInstanceExpositionPresence_cases fg r env inst c with
    ⟨err, h1, hE⟩ | ⟨h1, hvm, hgui, hE⟩ | ⟨h1, hnot, err, h2, hE⟩ | ⟨h1, hvm, hgui, h2, hE⟩
    | ⟨h1, hvm, h2, err, h3, hE⟩ | ⟨h1, hvm, h2, h3, hE⟩
  · rw [hE]
    refine ⟨⟨rfl, rfl, rfl⟩, Or.inl rfl, Or.inl rfl,
      fun he => by rw [h1] at he; exact Option.noConfusion he, fun _ _ => ⟨rfl, rfl⟩,
      fun _ => rfl, ?_⟩
    intro e he
    rw [h1] at he
    exact ⟨he, rfl, hsb.2.2.2.2.2.2.1 (by decide), hlg⟩
  · rw [hE]
    refine ⟨⟨rfl, rfl, rfl⟩, Or.inl rfl, Or.inl rfl, fun _ => rfl, fun _ _ => ⟨rfl, rfl⟩,
      fun _ => rfl, ?_⟩
    intro e he
    rw [h1] at he
    exact Option.noConfusion he
  · rw [hE]
    refine ⟨⟨rfl, rfl, rfl⟩, Or.inl rfl, Or.inl rfl, fun _ => rfl, fun _ _ => ⟨rfl, rfl⟩,
      fun _ => rfl, ?_⟩
    intro e he
    rw [h1] at he
    exact Option.noConfusion he
  · rw [hE]
    refine ⟨⟨rfl, rfl, rfl⟩, Or.inr ⟨rfl, https_ne_empty _ _⟩, Or.inl rfl, fun _ => rfl,
      fun _ hg => ?_, fun _ => rfl, ?_⟩
    · rw [hgui] at hg
      exact Bool.noConfusion hg
    · intro e he
      rw [h1] at he
      exact Option.noConfusion he
  · rw [hE]
    refine ⟨⟨rfl, rfl, rfl⟩, Or.inr ⟨rfl, https_ne_empty _ _⟩, Or.inl rfl, fun _ => rfl,
      fun hv _ => absurd hv hvm, fun hv => absurd hv hvm, ?_⟩
    intro e he
    rw [h1] at he
    exact Option.noConfusion he
  · rw [hE]
    refine ⟨⟨rfl, rfl, rfl⟩, Or.inr ⟨rfl, https_ne_empty _ _⟩,
      Or.inr ⟨rfl, https_ne_empty _ _⟩, fun _ => rfl,
      fun hv _ => absurd hv hvm, fun hv => absurd hv hvm, ?_⟩
    intro e he
    rw [h1] at he
    exact Option.noConfusion he

/-- C28 amended, witness: a running Instance that shows two URLs already, and a VM
environment without GUI. In a cluster without faults the two URLs are kept and
the address becomes that of the created Service; when the read of the Service
is answered with an error, the error is returned with the whole status as it
was, after that one request. -/
theorem C28_presence_keeps_urls_overwrites_ip_witness :
    (Sample.environment false false).EnvironmentType = .ClassVM
    ∧ (Sample.environment false false).GuiEnabled = false
    ∧ ((enforceInstanceExpositionPresence Sample.forge Sample.reconciler
          (Sample.environment false false) Sample.runningExposedInst
          (Sample.cluster true false false Sample.noFaults)).inst.Status.URL
        = "https://crownlabs.example.com/kubernetes-0000"
      ∧ (enforceInstanceExpositionPresence Sample.forge Sample.reconciler
          (Sample.environment false false) Sample.runningExposedInst
          (Sample.cluster true false false Sample.noFaults)).inst.Status.MyDriveURL
        = "https://crownlabs.example.com/kubernetes-0000/mydrive")
    ∧ (enforceInstanceExpositionPresence Sample.forge Sample.reconciler
          (Sample.environment false false) Sample.runningExposedInst
          (Sample.cluster true false false Sample.noFaults)).inst.Status.IP = "10.96.0.10"
    ∧ (enforceServicePresence Sample.forge (Sample.environment false false)
          Sample.runningExposedInst
          (Sample.cluster true false false (Sample.failing .get .Service (.other 7)))).err
        = some (.other 7)
    ∧ (enforceInstanceExpositionPresence Sample.forge Sample.reconciler
          (Sample.environment false false) Sample.runningExposedInst
          (Sample.cluster true false false (Sample.failing .get .Service (.other 7)))).err
        = some (.other 7)
    ∧ (enforceInstanceExpositionPresence Sample.forge Sample.reconciler
          (Sample.environment false false) Sample.runningExposedInst
          (Sample.cluster true false false (Sample.failing .get .Service (.other 7)))).inst
        = Sample.runningExposedInst
    ∧ (enforceInstanceExpositionPresence Sample.forge Sample.reconciler
          (Sample.environment false false) Sample.runningExposedInst
          (Sample.cluster true false false
            (Sample.failing .get .Service (.other 7)))).cluster.log
        = [.api .get .Service "tenant-tester" "kubernetes-0000"] :=
  ⟨rfl, rfl,
    (C28_presence_keeps_urls_overwrites_ip Sample.forge Sample.reconciler (Sample.environment false false)
      Sample.runningExposedInst (Sample.cluster true false false Sample.noFaults)).2.2.2.2.1
      rfl rfl,
    by decide, by decide,
    ((C28_presence_keeps_urls_overwrites_ip Sample.forge Sample.reconciler (Sample.environment false false)
      Sample.runningExposedInst
      (Sample.cluster true false false (Sample.failing .get .Service (.other 7)))).2.2.2.2.2.2
      (.other 7) (by decide)).1,
    ((C28_presence_keeps_urls_overwrites_ip Sample.forge Sample.reconciler (Sample.environment false false)
      Sample.runningExposedInst
      (Sample.cluster true false false (Sample.failing .get .Service (.other 7)))).2.2.2.2.2.2
      (.other 7) (by decide)).2.1,
    by decide⟩

/-! ### Reconcile: failures before the enforcement leave the status alone -/

theorem clientPatch_snd_record (o m : Instance) (c : Cluster) (a : Action) :
    (clientPatch o m (c.record a)).2 = (clientPatch o m c).2 := by
  unfold clientPatch
  simp only [Cluster.record]
  split
  · rfl
  · split <;> rfl

theorem clientPatch_of_error (o m : Instance) (c : Cluster) (e : Err)
    (h : (clientPatch o m c).2 = .error e) :
    clientPatch o m c
      = (c.record (.api .patch .Instance m.metadata.Namespace m.metadata.Name), .error e) := by
  unfold clientPatch at h ⊢
  simp only at h ⊢
  cases hf : c.faults .patch .Instance m.metadata.Namespace m.metadata.Name with
  | some e1 =>
    rw [hf] at h
    simp only at h ⊢
    rw [h]
  | none =>
    rw [hf] at h
    simp only at h ⊢
    cases hl : lookup instanceResource.metaOf m.metadata.Namespace m.metadata.Name c.instances with
    | none =>
      rw [hl] at h
      simp only at h ⊢
      rw [h]
    | some stored =>
      rw [hl] at h
      simp only at h
      exact absurd h (by simp)

/-- C26: with the Instance fetched and its namespace selected, when `Reconcile`
fails before the enforcement (the fetch of the Template fails; or that of the
Tenant; or the labels are to be patched and the patch fails), it returns that
error with the status of the Instance as fetched, in memory (so the phase is not
set to CreationLoopBackoff) and in the cluster, and none of the requests it
issued is a status patch. After a failed patch of the labels the cluster is as
before but for the three reads and the patch request in the log. -/
theorem C26_failure_before_enforcement_keeps_status (fg : Forge) (r : InstanceReconciler)
    (req : NamespacedName) (c : Cluster) (inst : Instance)
    (hinst : (clientGet instanceResource req.Namespace req.Name c).2 = .ok inst)
    (hsel : (r.CheckSelectorLabel (c.record (.api .get .Instance req.Namespace req.Name))
      inst.metadata.Namespace r.NamespaceWhitelist).1 = true) :
    (∀ e, (clientGet templateResource inst.Spec.Template.Namespace inst.Spec.Template.Name c).2
          = .error e →
        failedWithStatusAsFetched c inst e (Reconcile fg r req c))
      ∧ (∀ template e,
        (clientGet templateResource inst.Spec.Template.Namespace inst.Spec.Template.Name c).2
          = .ok template →
        (clientGet tenantResource "" inst.Spec.Tenant.Name c).2 = .error e →
        failedWithStatusAsFetched c inst e (Reconcile fg r req c))
      ∧ (∀ template tenant labels e,
        (clientGet templateResource inst.Spec.Template.Namespace inst.Spec.Template.Name c).2
          = .ok template →
        (clientGet tenantResource "" inst.Spec.Tenant.Name c).2 = .ok tenant →
        fg.InstanceLabels inst.metadata.Labels template = (labels, true) →
        (clientPatch inst { inst with metadata := { inst.metadata with Labels := labels } } c).2
          = .error e →
        failedWithStatusAsFetched c inst e (Reconcile fg r req c)
          ∧ (Reconcile fg r req c).inst
            = some { inst with metadata := { inst.metadata with Labels := labels } }
          ∧ (Reconcile fg r req c).cluster = { c with log := c.log ++
              [.api .get .Instance req.Namespace req.Name,
               .api .get .Template inst.Spec.Template.Namespace inst.Spec.Template.Name,
               .api .get .Tenant "" inst.Spec.Tenant.Name,
               .api .patch .Instance inst.metadata.Namespace inst.metadata.Name] }) := by
  have h := clientGet_eq instanceResource req.Namespace req.Name c
  rw [hinst] at h
  have hs : ∃ oe, r.CheckSelectorLabel (c.record (.api .get .Instance req.Namespace req.Name))
      inst.metadata.Namespace r.NamespaceWhitelist = (true, oe) := by
    rcases hc : r.CheckSelectorLabel (c.record (.api .get .Instance req.Namespace req.Name))
      inst.metadata.Namespace r.NamespaceWhitelist with ⟨b, oe⟩
    rw [hc] at hsel
    simp only at hsel
    exact ⟨oe, by rw [hsel]⟩
  obtain ⟨oe, hs⟩ := hs
  have ht := clientGet_eq templateResource inst.Spec.Template.Namespace inst.Spec.Template.Name
    (c.record (.api .get .Instance req.Namespace req.Name))
  rw [clientGet_snd_record templateResource templateResource_lawful] at ht
  have hn := clientGet_eq tenantResource "" inst.Spec.Tenant.Name
    ((c.record (.api .get .Instance req.Namespace req.Name)).record
      (.api .get .Template inst.Spec.Template.Namespace inst.Spec.Template.Name))
  rw [clientGet_snd_record tenantResource tenantResource_lawful,
    clientGet_snd_record tenantResource tenantResource_lawful] at hn
  have h1 : instanceResource.kind = .Instance := rfl
  have h2 : templateResource.kind = .Template := rfl
  have h3 : tenantResource.kind = .Tenant := rfl
  refine ⟨?_, ?_, ?_⟩
  · intro e he
    rw [he] at ht
    have hR : Reconcile fg r req c = ⟨{ c with log := c.log ++
        [.api .get .Instance req.Namespace req.Name,
         .api .get .Template inst.Spec.Template.Namespace inst.Spec.Template.Name,
         .event true .EvTmplNotFound] }, some inst, Result.empty, some e⟩ := by
      unfold Reconcile reconcileFetch
      simp only [h, hs, h1, ht]
      simp [Cluster.record, templateResource]
    rw [hR]
    refine ⟨rfl, rfl, ⟨inst, rfl, rfl⟩, rfl, _, rfl, ?_⟩
    intro a ha
    simp only [List.mem_cons, List.mem_singleton, List.not_mem_nil, or_false] at ha
    rcases ha with rfl | rfl | rfl <;> rfl
  · intro template e htm he
    rw [htm] at ht
    rw [he] at hn
    have hR : Reconcile fg r req c = ⟨{ c with log := c.log ++
        [.api .get .Instance req.Namespace req.Name,
         .api .get .Template inst.Spec.Template.Namespace inst.Spec.Template.Name,
         .api .get .Tenant "" inst.Spec.Tenant.Name,
         .event true .EvTntNotFound] }, some inst, Result.empty, some e⟩ := by
      unfold Reconcile reconcileFetch
      simp only [h, hs, h1, h2, ht, hn]
      simp [Cluster.record, tenantResource]
    rw [hR]
    refine ⟨rfl, rfl, ⟨inst, rfl, rfl⟩, rfl, _, rfl, ?_⟩
    intro a ha
    simp only [List.mem_cons, List.mem_singleton, List.not_mem_nil, or_false] at ha
    rcases ha with rfl | rfl | rfl | rfl <;> rfl
  · intro template tenant labels e htm htn hl hp
    rw [htm] at ht
    rw [htn] at hn
    have hp3 := clientPatch_of_error inst
      { inst with metadata := { inst.metadata with Labels := labels } }
      (((c.record (.api .get .Instance req.Namespace req.Name)).record
        (.api .get .Template inst.Spec.Template.Namespace inst.Spec.Template.Name)).record
        (.api .get .Tenant "" inst.Spec.Tenant.Name)) e
      (by rw [clientPatch_snd_record, clientPatch_snd_record, clientPatch_snd_record]; exact hp)
    have hR : Reconcile fg r req c = ⟨{ c with log := c.log ++
        [.api .get .Instance req.Namespace req.Name,
         .api .get .Template inst.Spec.Template.Namespace inst.Spec.Template.Name,
         .api .get .Tenant "" inst.Spec.Tenant.Name,
         .api .patch .Instance inst.metadata.Namespace inst.metadata.Name] },
        some { inst with metadata := { inst.metadata with Labels := labels } },
        Result.empty, some e⟩ := by
      unfold Reconcile reconcileFetch
      simp only [h, hs, h1, h2, h3, ht, hn, hl, hp3]
      simp [Cluster.record]
    rw [hR]
    refine ⟨⟨rfl, rfl, ⟨_, rfl, rfl⟩, rfl, _, rfl, ?_⟩, rfl, rfl⟩
    intro a ha
    simp only [List.mem_cons, List.mem_singleton, List.not_mem_nil, or_false] at ha
    rcases ha with rfl | rfl | rfl | rfl <;> rfl

/-- C26, witness: a cluster without the Template; and an Instance reported running,
still without the label of its Template, in a cluster that answers the patch of
the labels with an error: the error is returned, the status held is the one
fetched, and the requests are three reads and the patch. -/
theorem C26_failure_before_enforcement_keeps_status_witness :
    failedWithStatusAsFetched
        (Sample.withoutTemplate (Sample.cluster true false false Sample.noFaults))
        (Sample.inst true) .notFound
        (Reconcile Sample.forge Sample.reconciler Sample.request
          (Sample.withoutTemplate (Sample.cluster true false false Sample.noFaults)))
    ∧ (clientGet instanceResource Sample.request.Namespace Sample.request.Name
        (Sample.withInstance Sample.unlabelledInst
          (Sample.cluster true false false (Sample.failing .patch .Instance (.other 9))))).2
      = .ok Sample.unlabelledInst
    ∧ Sample.forge.InstanceLabels Sample.unlabelledInst.metadata.Labels
        (Sample.template [Sample.environment false false]) = ([("template", "kubernetes")], true)
    ∧ failedWithStatusAsFetched
        (Sample.withInstance Sample.unlabelledInst
          (Sample.cluster true false false (Sample.failing .patch .Instance (.other 9))))
        Sample.unlabelledInst (.other 9)
        (Reconcile Sample.forge Sample.reconciler Sample.request
          (Sample.withInstance Sample.unlabelledInst
            (Sample.cluster true false false (Sample.failing .patch .Instance (.other 9)))))
    ∧ (Reconcile Sample.forge Sample.reconciler Sample.request
        (Sample.withInstance Sample.unlabelledInst
          (Sample.cluster true false false
            (Sample.failing .patch .Instance (.other 9))))).cluster.log
      = [.api .get .Instance "tenant-tester" "kubernetes-0000",
         .api .get .Template "workspace-netgroup" "kubernetes",
         .api .get .Tenant "" "tester",
         .api .patch .Instance "tenant-tester" "kubernetes-0000"] :=
  ⟨(C26_failure_before_enforcement_keeps_status Sample.forge Sample.reconciler Sample.request
      (Sample.withoutTemplate (Sample.cluster true false false Sample.noFaults))
      (Sample.inst true) rfl rfl).1 .notFound rfl,
    rfl, rfl,
    ((C26_failure_before_enforcement_keeps_status Sample.forge Sample.reconciler Sample.request
      (Sample.withInstance Sample.unlabelledInst
        (Sample.cluster true false false (Sample.failing .patch .Instance (.other 9))))
      Sample.unlabelledInst rfl rfl).2.2 (Sample.template [Sample.environment false false])
      Sample.tenant [("template", "kubernetes")] (.other 9) rfl rfl rfl rfl).1,
    congrArg Cluster.log
      ((C26_failure_before_enforcement_keeps_status Sample.forge Sample.reconciler
        Sample.request
        (Sample.withInstance Sample.unlabelledInst
          (Sample.cluster true false false (Sample.failing .patch .Instance (.other 9))))
        Sample.unlabelledInst rfl rfl).2.2 (Sample.template [Sample.environment false false])
        Sample.tenant [("template", "kubernetes")] (.other 9) rfl rfl rfl rfl).2.2⟩

/-! ### enforceEnvironments: nothing to enforce -/

theorem clientPatch_log (o m : Instance) (c : Cluster) :
    (clientPatch o m c).1.log
      = c.log ++ [.api .patch .Instance m.metadata.Namespace m.metadata.Name] := by
  unfold clientPatch
  simp only
  split
  · rfl
  · split <;> rfl

/-- The requests `Reconcile` issues before the enforcement are reads and at most one
patch of the labels: none is a status patch. -/
theorem reconcileFetch_proceed_log (fg : Forge) (r : InstanceReconciler) (req : NamespacedName)
    (c c1 : Cluster) (inst : Instance) (template : Template) (tenant : Tenant)
    (h : reconcileFetch fg r req c = .proceed c1 inst template tenant) :
    logGrowsBy (fun a => isStatusPatch a = false) c c1 := by
  unfold reconcileFetch at h
  rw [clientGet_eq instanceResource] at h
  rcases h0 : (clientGet instanceResource req.Namespace req.Name c).2 with e | i0
  · rw [h0] at h
    exact Fetched.noConfusion h
  · rw [h0] at h
    simp only at h
    rcases hsel : r.CheckSelectorLabel (c.record (.api .get instanceResource.kind
      req.Namespace req.Name)) i0.metadata.Namespace r.NamespaceWhitelist with ⟨b, oe⟩
    rw [hsel] at h
    cases b with
    | false =>
      cases oe with
      | none => exact Fetched.noConfusion h
      | some e => exact Fetched.noConfusion h
    | true =>
      simp only at h
      rw [clientGet_eq templateResource] at h
      rcases h1 : (clientGet templateResource i0.Spec.Template.Namespace i0.Spec.Template.Name
        (c.record (.api .get instanceResource.kind req.Namespace req.Name))).2 with e | t0
      · rw [h1] at h
        exact Fetched.noConfusion h
      · rw [h1] at h
        simp only at h
        rw [clientGet_eq tenantResource] at h
        rcases h2 : (clientGet tenantResource "" i0.Spec.Tenant.Name
          ((c.record (.api .get instanceResource.kind req.Namespace req.Name)).record
            (.api .get templateResource.kind i0.Spec.Template.Namespace
              i0.Spec.Template.Name))).2 with e | n0
        · rw [h2] at h
          exact Fetched.noConfusion h
        · rw [h2] at h
          simp only at h
          rcases hl : fg.InstanceLabels i0.metadata.Labels t0 with ⟨labels, b⟩
          rw [hl] at h
          cases b with
          | false =>
            simp only at h
            injection h with hc
            subst hc
            exact ⟨_, by simp only [Cluster.record, List.append_assoc]; rfl, by
              intro a ha
              simp only [List.cons_append, List.nil_append, List.mem_cons, List.mem_singleton,
                List.not_mem_nil, or_false] at ha
              rcases ha with rfl | rfl | rfl <;> rfl⟩
          | true =>
            simp only at h
            have hpl := clientPatch_log i0
              { i0 with metadata := { i0.metadata with Labels := labels } }
              (((c.record (.api .get instanceResource.kind req.Namespace req.Name)).record
                (.api .get templateResource.kind i0.Spec.Template.Namespace
                  i0.Spec.Template.Name)).record
                (.api .get tenantResource.kind "" i0.Spec.Tenant.Name))
            rcases hp : clientPatch i0
              { i0 with metadata := { i0.metadata with Labels := labels } }
              (((c.record (.api .get instanceResource.kind req.Namespace req.Name)).record
                (.api .get templateResource.kind i0.Spec.Template.Namespace
                  i0.Spec.Template.Name)).record
                (.api .get tenantResource.kind "" i0.Spec.Tenant.Name)) with ⟨c4, e | i2⟩
            · rw [hp] at h
              exact Fetched.noConfusion h
            · rw [hp] at h hpl
              simp only at h hpl
              injection h with hc
              subst hc
              exact ⟨_, by rw [hpl]; simp only [Cluster.record, List.append_assoc]; rfl, by
                intro a ha
                simp only [List.cons_append, List.nil_append, List.mem_cons, List.mem_singleton,
                  List.not_mem_nil, or_false] at ha
                rcases ha with rfl | rfl | rfl | rfl <;> rfl⟩

theorem enforceEnvironmentsFrom_one (fg : Forge) (r : InstanceReconciler)
    (rest : List Environment) (inst : Instance) (c : Cluster) :
    enforceEnvironmentsFrom fg r 1 rest inst c = ⟨c, inst, none⟩ := by
  cases rest with
  | nil => simp [enforceEnvironmentsFrom]
  | cons e2 rest2 => simp [enforceEnvironmentsFrom]

/-- C27: when the environment list of the Template is empty, or the type of its
first environment is neither VM nor Container, `enforceEnvironments` returns no
error and leaves the cluster and the Instance exactly as they were (no request,
no event). `Reconcile`, having reached the enforcement with that Template, then
returns the empty result and no error, holds the Instance as it was at the
snapshot, leaves the cluster as the fetch left it, and none of the requests it
issued is a status patch. -/
theorem C27_nothing_to_enforce (fg : Forge) (r : InstanceReconciler) (template : Template)
    (inst : Instance) (c : Cluster)
    (h : template.Spec.EnvironmentList = []
      ∨ ∃ env rest, template.Spec.EnvironmentList = env :: rest
        ∧ env.EnvironmentType ≠ .ClassVM ∧ env.EnvironmentType ≠ .ClassContainer) :
    enforceEnvironments fg r template inst c = ⟨c, inst, none⟩
      ∧ reconcileEnforce fg r inst template c = ⟨c, some inst, Result.empty, none⟩
      ∧ ∀ req c0 tenant, reconcileFetch fg r req c0 = .proceed c inst template tenant →
          Reconcile fg r req c0 = ⟨c, some inst, Result.empty, none⟩
          ∧ logGrowsBy (fun a => isStatusPatch a = false) c0 (Reconcile fg r req c0).cluster := by
  have hE : enforceEnvironments fg r template inst c = ⟨c, inst, none⟩ := by
    unfold enforceEnvironments
    rcases h with h | ⟨env, rest, h, hvm, hct⟩
    · rw [h]
      simp [enforceEnvironmentsFrom]
    · rw [h]
      unfold enforceEnvironmentsFrom
      cases hty : env.EnvironmentType with
      | ClassVM => exact absurd hty hvm
      | ClassContainer => exact absurd hty hct
      | other name =>
        simp only [ge_iff_le, Nat.not_succ_le_zero, if_false, Nat.zero_add]
        exact enforceEnvironmentsFrom_one fg r rest inst c
  have hR : reconcileEnforce fg r inst template c = ⟨c, some inst, Result.empty, none⟩ := by
    unfold reconcileEnforce
    simp only [hE]
    simp [afterEnforcement, patchStatusDeferred]
  refine ⟨hE, hR, ?_⟩
  intro req c0 tenant hf
  have hRec : Reconcile fg r req c0 = ⟨c, some inst, Result.empty, none⟩ := by
    rw [Reconcile_of_proceed fg r req c0 c inst template tenant hf]
    exact hR
  refine ⟨hRec, ?_⟩
  rw [hRec]
  exact reconcileFetch_proceed_log fg r req c0 c inst template tenant hf

/-- C27, witness: a Template without environments: `Reconcile` returns no error
after its three reads and holds the Instance as fetched; and a Template whose
first environment is of another type, followed by a VM environment:
`enforceEnvironments` returns no error and issues no request. -/
theorem C27_nothing_to_enforce_witness :
    (Sample.template []).Spec.EnvironmentList = []
    ∧ (Reconcile Sample.forge Sample.reconciler Sample.request
        (Sample.withEnvironments [] (Sample.cluster true false false Sample.noFaults))).err = none
    ∧ (Reconcile Sample.forge Sample.reconciler Sample.request
        (Sample.withEnvironments [] (Sample.cluster true false false Sample.noFaults))).inst
      = some (Sample.inst true)
    ∧ (Reconcile Sample.forge Sample.reconciler Sample.request
        (Sample.withEnvironments [] (Sample.cluster true false false Sample.noFaults))).cluster.log
      = [.api .get .Instance "tenant-tester" "kubernetes-0000",
         .api .get .Template "workspace-netgroup" "kubernetes",
         .api .get .Tenant "" "tester"]
    ∧ (enforceEnvironments Sample.forge Sample.reconciler
        (Sample.template [Sample.otherEnvironment, Sample.environment false false])
        (Sample.inst true) (Sample.cluster true false false Sample.noFaults)).err = none
    ∧ (enforceEnvironments Sample.forge Sample.reconciler
        (Sample.template [Sample.otherEnvironment, Sample.environment false false])
        (Sample.inst true) (Sample.cluster true false false Sample.noFaults)).cluster.log = [] :=
  ⟨rfl,
    congrArg ReconcileOutcome.err
      (((C27_nothing_to_enforce Sample.forge Sample.reconciler (Sample.template [])
        (Sample.inst true)
        (Sample.fetched (Sample.withEnvironments []
          (Sample.cluster true false false Sample.noFaults)))
        (Or.inl rfl)).2.2
        Sample.request
        (Sample.withEnvironments [] (Sample.cluster true false false Sample.noFaults))
        Sample.tenant rfl).1),
    by decide, by decide,
    congrArg Outcome.err
      (C27_nothing_to_enforce Sample.forge Sample.reconciler
        (Sample.template [Sample.otherEnvironment, Sample.environment false false])
        (Sample.inst true) (Sample.cluster true false false Sample.noFaults)
        (Or.inr ⟨Sample.otherEnvironment, [Sample.environment false false], rfl,
          by decide, by decide⟩)).1,
    by decide⟩

/-! ### Package context: what is stored is what is retrieved -/

theorem Logger.WithValues_nil (l : Logger) : l.WithValues [] = l := by
  simp [Logger.WithValues]

/-- C23: for every context and every object, `InstanceFrom` applied to the context
`InstanceInto` returns gives back that very Instance, and likewise for
`TemplateInto`/`TemplateFrom`, `TenantInto`/`TenantFrom` and
`EnvironmentInto`/`EnvironmentFrom`. The logger each `Into` returns is the one
the returned context carries (under the logger key, and as `LoggerFrom` reads
it), and it is the logger of the given context with the key and the reference
of the object attached (the name, for an environment). Stored one after the
other, as `Reconcile` and `enforceEnvironments` do, the four objects are all
retrieved from the last context. -/
theorem C23_context_round_trip (ctx : Context) (inst : Instance) (template : Template)
    (tenant : Tenant) (environment : Environment) :
    (InstanceFrom (InstanceInto ctx inst).1 = some inst
        ∧ (InstanceInto ctx inst).1.Value .loggerKey = some (.ofLogger (InstanceInto ctx inst).2)
        ∧ LoggerFrom (InstanceInto ctx inst).1 [] = (InstanceInto ctx inst).2
        ∧ (InstanceInto ctx inst).2
          = (LoggerFrom ctx []).WithValues [(instanceKey, .ref (KObj inst.metadata))])
      ∧ (TemplateFrom (TemplateInto ctx template).1 = some template
        ∧ (TemplateInto ctx template).1.Value .loggerKey
          = some (.ofLogger (TemplateInto ctx template).2)
        ∧ LoggerFrom (TemplateInto ctx template).1 [] = (TemplateInto ctx template).2
        ∧ (TemplateInto ctx template).2
          = (LoggerFrom ctx []).WithValues [(templateKey, .ref (KObj template.metadata))])
      ∧ (TenantFrom (TenantInto ctx tenant).1 = some tenant
        ∧ (TenantInto ctx tenant).1.Value .loggerKey
          = some (.ofLogger (TenantInto ctx tenant).2)
        ∧ LoggerFrom (TenantInto ctx tenant).1 [] = (TenantInto ctx tenant).2
        ∧ (TenantInto ctx tenant).2
          = (LoggerFrom ctx []).WithValues [(tenantKey, .ref (KObj tenant.metadata))])
      ∧ (EnvironmentFrom (EnvironmentInto ctx environment).1 = some environment
        ∧ (EnvironmentInto ctx environment).1.Value .loggerKey
          = some (.ofLogger (EnvironmentInto ctx environment).2)
        ∧ LoggerFrom (EnvironmentInto ctx environment).1 [] = (EnvironmentInto ctx environment).2
        ∧ (EnvironmentInto ctx environment).2
          = (LoggerFrom ctx []).WithValues [(environmentKey, .str environment.Name)])
      ∧ (InstanceFrom (EnvironmentInto (TenantInto (TemplateInto (InstanceInto ctx inst).1
            template).1 tenant).1 environment).1 = some inst
        ∧ TemplateFrom (EnvironmentInto (TenantInto (TemplateInto (InstanceInto ctx inst).1
            template).1 tenant).1 environment).1 = some template
        ∧ TenantFrom (EnvironmentInto (TenantInto (TemplateInto (InstanceInto ctx inst).1
            template).1 tenant).1 environment).1 = some tenant
        ∧ EnvironmentFrom (EnvironmentInto (TenantInto (TemplateInto (InstanceInto ctx inst).1
            template).1 tenant).1 environment).1 = some environment) := by
  have hw : ∀ l : Logger, l.WithValues [] = l := Logger.WithValues_nil
  refine ⟨⟨?_, ?_, ?_, ?_⟩, ⟨?_, ?_, ?_, ?_⟩, ⟨?_, ?_, ?_, ?_⟩, ⟨?_, ?_, ?_, ?_⟩, ?_, ?_, ?_, ?_⟩
  all_goals
    simp [InstanceFrom, InstanceInto, TemplateFrom, TemplateInto, TenantFrom, TenantInto,
      EnvironmentFrom, EnvironmentInto, objectInto, WithValue, LoggerInto, Context.Value,
      LoggerFrom, hw, instanceKey, templateKey, tenantKey, environmentKey, Object.metadata]

/-- C23, witness: the test of the package, a background context that carries a
logger, and the Instance of the fixture. -/
theorem C23_context_round_trip_witness :
    InstanceFrom (InstanceInto (LoggerInto [] { sink := "mock", values := [] })
      (Sample.inst true)).1 = some (Sample.inst true)
    ∧ (InstanceInto (LoggerInto [] { sink := "mock", values := [] }) (Sample.inst true)).2
      = { sink := "mock",
          values := [(instanceKey, .ref ⟨"tenant-tester", "kubernetes-0000"⟩)] }
    ∧ LoggerFrom (InstanceInto (LoggerInto [] { sink := "mock", values := [] })
        (Sample.inst true)).1 []
      = { sink := "mock",
          values := [(instanceKey, .ref ⟨"tenant-tester", "kubernetes-0000"⟩)] }
    ∧ EnvironmentFrom (EnvironmentInto [] (Sample.environment false false)).1
      = some (Sample.environment false false) :=
  ⟨(C23_context_round_trip (LoggerInto [] { sink := "mock", values := [] }) (Sample.inst true)
      (Sample.template []) Sample.tenant (Sample.environment false false)).1.1,
    by decide, by decide, by decide⟩

/-! ### logic.go: waiting for the import of the DataVolume -/

theorem dataVolumeResource_lawful : dataVolumeResource.Lawful :=
  ⟨fun _ _ => rfl, fun _ _ _ => rfl, fun _ _ => rfl,
    fun _ _ => by simp [sameBut, dataVolumeResource], fun _ _ => rfl⟩

theorem childrenUntouched_trans (c c1 c2 : Cluster) (h1 : childrenUntouched c c1)
    (h2 : childrenUntouched c1 c2) : childrenUntouched c c2 := by
  refine ⟨h2.1.trans h1.1, h2.2.1.trans h1.2.1, h2.2.2.1.trans h1.2.2.1,
    h2.2.2.2.1.trans h1.2.2.2.1, h2.2.2.2.2.1.trans h1.2.2.2.2.1, ?_⟩
  exact logGrowsBy_trans _ _ _ _ h1.2.2.2.2.2 h2.2.2.2.2.2

theorem createOrUpdateDataVolume_children (ic : InstanceCreation) (inst : Instance)
    (env : Environment) (name : String) (c : Cluster) :
    childrenUntouched c (createOrUpdateDataVolume ic inst env name c).cluster := by
  have hs : sameBut .DataVolume c (createOrUpdateDataVolume ic inst env name c).cluster :=
    CreateOrUpdate_sameBut dataVolumeResource dataVolumeResource_lawful _ _ c
  have hl : logGrowsBy (fun a => Action.onKind a .DataVolume = true) c
      (createOrUpdateDataVolume ic inst env name c).cluster :=
    CreateOrUpdate_logGrowsBy dataVolumeResource dataVolumeResource_lawful _ _ c
  obtain ⟨_, _, _, _, _, s6, s7, s8, s9, s10, _⟩ := hs
  refine ⟨s10 (by decide), s6 (by decide), s7 (by decide), s8 (by decide), s9 (by decide), ?_⟩
  refine logGrowsBy_mono _ _ _ _ ?_ hl
  intro a ha
  cases a with
  | event w e => rfl
  | api v k ns n =>
    simp only [Action.onKind, beq_iff_eq] at ha
    subst ha
    cases v <;> rfl

theorem createPersistentlogic_importing (ic : InstanceCreation) (m : ReconcilerMethods)
    (inst : Instance) (env : Environment) (name : String) (c : Cluster)
    (hok : (createOrUpdateDataVolume ic inst env name c).err = none)
    (hph : (createOrUpdateDataVolume ic inst env name c).obj.Status.Phase ≠ "Succeeded") :
    createPersistentlogic ic m inst env name c
      = ⟨(importingStatus ic m inst env name c).1, (importingStatus ic m inst env name c).2,
          false, none⟩ := by
  unfold createPersistentlogic
  simp only [hok]
  rw [if_pos hph]
  rfl

theorem createPersistentlogic_succeeded (ic : InstanceCreation) (m : ReconcilerMethods)
    (inst : Instance) (env : Environment) (name : String) (c : Cluster)
    (hok : (createOrUpdateDataVolume ic inst env name c).err = none)
    (hph : (createOrUpdateDataVolume ic inst env name c).obj.Status.Phase = "Succeeded") :
    createPersistentlogic ic m inst env name c
      = ⟨(createOrUpdateDataVolume ic inst env name c).cluster, inst, true, none⟩ := by
  unfold createPersistentlogic
  simp only [hok]
  rw [if_neg (not_not.2 hph)]

theorem createPersistentlogic_error (ic : InstanceCreation) (m : ReconcilerMethods)
    (inst : Instance) (env : Environment) (name : String) (c : Cluster) (err : Err)
    (herr : (createOrUpdateDataVolume ic inst env name c).err = some err) :
    createPersistentlogic ic m inst env name c
      = ⟨(createOrUpdateDataVolume ic inst env name c).cluster, inst, false, some err⟩ := by
  unfold createPersistentlogic
  simp only [herr]

theorem CreateVMEnvironment_persistent (ic : InstanceCreation) (m : ReconcilerMethods)
    (r : InstanceReconciler) (inst : Instance) (env : Environment) (Namespace name : String)
    (vmStart : Nat) (c : Cluster) (hp : env.Persistent = true) :
    CreateVMEnvironment ic m r inst env Namespace name vmStart c
      = match (createPersistentlogic ic m inst env name (afterCredentials ic r inst c)).err with
        | some err1 =>
          ⟨(createPersistentlogic ic m inst env name (afterCredentials ic r inst c)).cluster,
            (createPersistentlogic ic m inst env name (afterCredentials ic r inst c)).inst,
            none, some err1⟩
        | none =>
          if !(createPersistentlogic ic m inst env name
              (afterCredentials ic r inst c)).cancontinue then
            ⟨(createPersistentlogic ic m inst env name (afterCredentials ic r inst c)).cluster,
              (createPersistentlogic ic m inst env name (afterCredentials ic r inst c)).inst,
              none, none⟩
          else
            createVMEnvironmentFromSecret ic m r
              (createPersistentlogic ic m inst env name (afterCredentials ic r inst c)).inst
              env Namespace name vmStart
              (ic.GetWebdavCredentials c r.WebdavSecretName inst.metadata.Namespace).user
              (ic.GetWebdavCredentials c r.WebdavSecretName inst.metadata.Namespace).password
              (ic.GetPublicKeys
                (ic.GetWebdavCredentials c r.WebdavSecretName inst.metadata.Namespace).cluster
                inst.Spec.Tenant inst.Spec.Template).publicKeys
              (createPersistentlogic ic m inst env name
                (afterCredentials ic r inst c)).cluster := by
  unfold CreateVMEnvironment afterCredentials
  simp only [hp, if_true]

/-- C24: in `CreateVMEnvironment` with a persistent environment, on the cluster the
fetch of the credentials and of the public keys left:
when the create-or-update of the DataVolume succeeds and the phase of the
DataVolume is not "Succeeded", `createPersistentlogic` calls
`setInstanceStatus` with the reason "Importing" and returns (false, nil), and
`CreateVMEnvironment` returns nil with the cluster and the Instance exactly as
that call left them and without starting the watcher; provided the helpers that
are parameters create or update no child object, the Secrets, Services,
Ingresses, VirtualMachines and VirtualMachineInstances are those of the start
and no request created or updated one.
When the phase is "Succeeded", `createPersistentlogic` returns (true, nil)
without touching the status and `CreateVMEnvironment` goes on with the secret,
the exposition and the compute workload.
When the create-or-update fails, `createPersistentlogic` returns (false, err)
and `CreateVMEnvironment` returns that error, the cluster being as the failed
create-or-update left it. -/
theorem C24_persistent_gating (ic : InstanceCreation) (m : ReconcilerMethods)
    (r : InstanceReconciler) (inst : Instance) (env : Environment) (Namespace name : String)
    (vmStart : Nat) (c : Cluster) (hp : env.Persistent = true) :
    ((createOrUpdateDataVolume ic inst env name (afterCredentials ic r inst c)).err = none →
      (createOrUpdateDataVolume ic inst env name (afterCredentials ic r inst c)).obj.Status.Phase
          ≠ "Succeeded" →
        createPersistentlogic ic m inst env name (afterCredentials ic r inst c)
          = ⟨(importingStatus ic m inst env name (afterCredentials ic r inst c)).1,
              (importingStatus ic m inst env name (afterCredentials ic r inst c)).2,
              false, none⟩
        ∧ CreateVMEnvironment ic m r inst env Namespace name vmStart c
          = ⟨(importingStatus ic m inst env name (afterCredentials ic r inst c)).1,
              (importingStatus ic m inst env name (afterCredentials ic r inst c)).2,
              none, none⟩
        ∧ (HelpersLeaveChildren ic m →
            childrenUntouched c
              (CreateVMEnvironment ic m r inst env Namespace name vmStart c).cluster))
      ∧ ((createOrUpdateDataVolume ic inst env name (afterCredentials ic r inst c)).err = none →
        (createOrUpdateDataVolume ic inst env name
          (afterCredentials ic r inst c)).obj.Status.Phase = "Succeeded" →
          createPersistentlogic ic m inst env name (afterCredentials ic r inst c)
            = ⟨(createOrUpdateDataVolume ic inst env name (afterCredentials ic r inst c)).cluster,
                inst, true, none⟩
          ∧ CreateVMEnvironment ic m r inst env Namespace name vmStart c
            = createVMEnvironmentFromSecret ic m r inst env Namespace name vmStart
                (ic.GetWebdavCredentials c r.WebdavSecretName inst.metadata.Namespace).user
                (ic.GetWebdavCredentials c r.WebdavSecretName inst.metadata.Namespace).password
                (ic.GetPublicKeys
                  (ic.GetWebdavCredentials c r.WebdavSecretName inst.metadata.Namespace).cluster
                  inst.Spec.Tenant inst.Spec.Template).publicKeys
                (createOrUpdateDataVolume ic inst env name
                  (afterCredentials ic r inst c)).cluster)
      ∧ (∀ err,
        (createOrUpdateDataVolume ic inst env name (afterCredentials ic r inst c)).err
            = some err →
          createPersistentlogic ic m inst env name (afterCredentials ic r inst c)
            = ⟨(createOrUpdateDataVolume ic inst env name (afterCredentials ic r inst c)).cluster,
                inst, false, some err⟩
          ∧ CreateVMEnvironment ic m r inst env Namespace name vmStart c
            = ⟨(createOrUpdateDataVolume ic inst env name (afterCredentials ic r inst c)).cluster,
                inst, none, some err⟩) := by
  have hC := CreateVMEnvironment_persistent ic m r inst env Namespace name vmStart c hp
  refine ⟨?_, ?_, ?_⟩
  · intro hok hph
    have hP := createPersistentlogic_importing ic m inst env name (afterCredentials ic r inst c)
      hok hph
    have hE : CreateVMEnvironment ic m r inst env Namespace name vmStart c
        = ⟨(importingStatus ic m inst env name (afterCredentials ic r inst c)).1,
            (importingStatus ic m inst env name (afterCredentials ic r inst c)).2,
            none, none⟩ := by
      rw [hC, hP]
      rfl
    refine ⟨hP, hE, ?_⟩
    intro hh
    rw [hE]
    have a1 := hh.credentials c r.WebdavSecretName inst.metadata.Namespace
    have a2 := hh.publicKeys
      (ic.GetWebdavCredentials c r.WebdavSecretName inst.metadata.Namespace).cluster
      inst.Spec.Tenant inst.Spec.Template
    have a3 := createOrUpdateDataVolume_children ic inst env name (afterCredentials ic r inst c)
    have a4 := hh.status
      ("PVC " ++ (createOrUpdateDataVolume ic inst env name
        (afterCredentials ic r inst c)).obj.metadata.Name ++ " importing")
      "Normal" "Importing" inst "" ""
      (createOrUpdateDataVolume ic inst env name (afterCredentials ic r inst c)).cluster
    exact childrenUntouched_trans _ _ _ (childrenUntouched_trans _ _ _
      (childrenUntouched_trans _ _ _ a1 a2) a3) a4
  · intro hok hph
    have hP := createPersistentlogic_succeeded ic m inst env name (afterCredentials ic r inst c)
      hok hph
    refine ⟨hP, ?_⟩
    rw [hC, hP]
    rfl
  · intro err herr
    have hP := createPersistentlogic_error ic m inst env name (afterCredentials ic r inst c) err
      herr
    refine ⟨hP, ?_⟩
    rw [hC, hP]

theorem childrenUntouched_record (c : Cluster) (a : Action) (ha : Action.writesChild a = false) :
    childrenUntouched c (c.record a) :=
  ⟨rfl, rfl, rfl, rfl, rfl, [a], rfl, by
    intro b hb
    simp only [List.mem_singleton] at hb
    rw [hb]
    exact ha⟩

theorem clientStatusPatch_children (original updated : Instance) (c : Cluster) :
    childrenUntouched c (clientStatusPatch original updated c).1 := by
  have hl := clientStatusPatch_log original updated c
  refine ⟨?_, ?_, ?_, ?_, ?_, [statusPatchOf updated], hl, ?_⟩
  any_goals
    unfold clientStatusPatch
    simp only
    split
    · rfl
    · split <;> rfl
  intro b hb
  simp only [List.mem_singleton] at hb
  rw [hb]
  rfl

/-- The stand-ins of the scenario create or update no child object. -/
theorem Sample.helpers_leave_children :
    HelpersLeaveChildren Sample.instanceCreation Sample.methods :=
  ⟨fun c _ _ => childrenUntouched_record c _ rfl,
    fun c _ _ => childrenUntouched_record c _ rfl,
    fun _ _ _ _ _ _ c => clientStatusPatch_children _ _ c⟩

/-- C24, witness: a persistent environment and a running Instance. With a DataVolume
still importing, `CreateVMEnvironment` returns nil after the two fetches, the
read and the update of the DataVolume and the status patch; the phase held is
Importing, no watcher is started, and there is no Secret, no Service and no
VirtualMachine. With the DataVolume imported, it goes on and the VirtualMachine
is created. -/
theorem C24_persistent_gating_witness :
    (Sample.environment true false).Persistent = true
    ∧ (createOrUpdateDataVolume Sample.instanceCreation (Sample.inst true)
        (Sample.environment true false) "kubernetes-0000"
        (afterCredentials Sample.instanceCreation Sample.reconciler (Sample.inst true)
          (Sample.withPendingDataVolume
            (Sample.cluster true true false Sample.noFaults)))).obj.Status.Phase
      = "ImportInProgress"
    ∧ (CreateVMEnvironment Sample.instanceCreation Sample.methods Sample.reconciler
        (Sample.inst true) (Sample.environment true false) "tenant-tester" "kubernetes-0000" 0
        (Sample.withPendingDataVolume (Sample.cluster true true false Sample.noFaults))).err
      = none
    ∧ childrenUntouched
        (Sample.withPendingDataVolume (Sample.cluster true true false Sample.noFaults))
        (CreateVMEnvironment Sample.instanceCreation Sample.methods Sample.reconciler
          (Sample.inst true) (Sample.environment true false) "tenant-tester" "kubernetes-0000" 0
          (Sample.withPendingDataVolume
            (Sample.cluster true true false Sample.noFaults))).cluster
    ∧ (CreateVMEnvironment Sample.instanceCreation Sample.methods Sample.reconciler
        (Sample.inst true) (Sample.environment true false) "tenant-tester" "kubernetes-0000" 0
        (Sample.withPendingDataVolume
          (Sample.cluster true true false Sample.noFaults))).inst.Status.Phase = .Importing
    ∧ (CreateVMEnvironment Sample.instanceCreation Sample.methods Sample.reconciler
        (Sample.inst true) (Sample.environment true false) "tenant-tester" "kubernetes-0000" 0
        (Sample.withPendingDataVolume
          (Sample.cluster true true false Sample.noFaults))).cluster.log
      = [.api .get .Secret "tenant-tester" "webdav-credentials",
         .api .get .Tenant "" "tester",
         .api .get .DataVolume "tenant-tester" "kubernetes-0000",
         .api .update .DataVolume "tenant-tester" "kubernetes-0000",
         .api .statusPatch .Instance "tenant-tester" "kubernetes-0000"]
    ∧ (CreateVMEnvironment Sample.instanceCreation Sample.methods Sample.reconciler
        (Sample.inst true) (Sample.environment true false) "tenant-tester" "kubernetes-0000" 0
        (Sample.withPendingDataVolume
          (Sample.cluster true true false Sample.noFaults))).cluster.virtualMachines = []
    ∧ (CreateVMEnvironment Sample.instanceCreation Sample.methods Sample.reconciler
        (Sample.inst true) (Sample.environment true false) "tenant-tester" "kubernetes-0000" 0
        (Sample.withPendingDataVolume
          (Sample.cluster true true false Sample.noFaults))).cluster.secrets = []
    ∧ (CreateVMEnvironment Sample.instanceCreation Sample.methods Sample.reconciler
        (Sample.inst true) (Sample.environment true false) "tenant-tester" "kubernetes-0000" 0
        (Sample.withImportedDataVolume
          (Sample.cluster true true false Sample.noFaults))).err = none
    ∧ ((CreateVMEnvironment Sample.instanceCreation Sample.methods Sample.reconciler
        (Sample.inst true) (Sample.environment true false) "tenant-tester" "kubernetes-0000" 0
        (Sample.withImportedDataVolume
          (Sample.cluster true true false Sample.noFaults))).cluster.virtualMachines.map
          (fun vm => (vm.metadata.Name, vm.Spec.Running)))
      = [("kubernetes-0000", some true)]
    ∧ ((CreateVMEnvironment Sample.instanceCreation Sample.methods Sample.reconciler
        (Sample.inst true) (Sample.environment true false) "tenant-tester" "kubernetes-0000" 0
        (Sample.withImportedDataVolume
          (Sample.cluster true true false Sample.noFaults))).cluster.secrets.map
          (fun s => s.metadata.Name))
      = ["kubernetes-0000"] :=
  ⟨rfl, by decide,
    congrArg CreationOutcome.err
      ((C24_persistent_gating Sample.instanceCreation Sample.methods Sample.reconciler
        (Sample.inst true) (Sample.environment true false) "tenant-tester" "kubernetes-0000" 0
        (Sample.withPendingDataVolume (Sample.cluster true true false Sample.noFaults)) rfl).1
        (by decide) (by decide)).2.1,
    ((C24_persistent_gating Sample.instanceCreation Sample.methods Sample.reconciler
        (Sample.inst true) (Sample.environment true false) "tenant-tester" "kubernetes-0000" 0
        (Sample.withPendingDataVolume (Sample.cluster true true false Sample.noFaults)) rfl).1
        (by decide) (by decide)).2.2 Sample.helpers_leave_children,
    by decide, by decide, by decide, by decide, by decide, by decide, by decide⟩

/-! ### EnforceVMEnvironment: no Disk-Volume is read -/

/-- On every return path `EnforceVMEnvironment` leaves the Disk-Volumes as they were,
and no request issued after the secret step is about a Disk-Volume. -/
theorem EnforceVMEnvironment_no_dataVolume (fg : Forge) (r : InstanceReconciler)
    (env : Environment) (inst : Instance) (c : Cluster) :
    (EnforceVMEnvironment fg r env inst c).cluster.dataVolumes = c.dataVolumes
      ∧ logGrowsBy (fun a => Action.onKind a .DataVolume = false)
          (c.afterSecret (r.EnforceCloudInitSecret inst env c))
          (EnforceVMEnvironment fg r env inst c).cluster := by
  have hfr : (expositionOutcome fg r env inst c).cluster.dataVolumes = c.dataVolumes :=
    (EnforceInstanceExposition_frame fg r env inst
      (c.afterSecret (r.EnforceCloudInitSecret inst env c))).2.2.2.2.2.2.2.2
  have hx : logGrowsBy (fun a => Action.onKind a .DataVolume = false)
      (c.afterSecret (r.EnforceCloudInitSecret inst env c))
      (expositionOutcome fg r env inst c).cluster :=
    logGrowsBy_mono _ _ _ _ (fun a h => by
      rcases h with h | h
      · exact onKind_unique a _ _ h (by decide)
      · exact onKind_unique a _ _ h (by decide)) (expositionOutcome_log fg r env inst c)
  rcases EnforceVMEnvironment_cases fg r env inst c with
    ⟨e, _, h⟩ | ⟨_, e, _, h⟩ | ⟨_, _, _, h⟩ | ⟨_, _, _, h⟩
  · rw [h]
    exact ⟨rfl, logGrowsBy_refl _ _⟩
  · rw [h]
    exact ⟨hfr, hx⟩
  · rw [h]
    have hv := enforceVirtualMachine_frame fg r env
      (expositionOutcome fg r env inst c).inst (expositionOutcome fg r env inst c).cluster
    obtain ⟨acts, hl, ha⟩ := enforceVirtualMachine_log fg r env
      (expositionOutcome fg r env inst c).inst (expositionOutcome fg r env inst c).cluster
    refine ⟨by rw [hv.2.2.2.2.2.2.2.2.2.2 (by decide), hfr], ?_⟩
    refine logGrowsBy_trans _ _ _ _ hx ⟨_, hl, ?_⟩
    intro a ha2
    rcases List.mem_cons.1 ha2 with h1 | h1
    · rw [h1]; rfl
    · exact onKind_unique a _ _ (ha a h1) (by decide)
  · rw [h]
    have hv := enforceVirtualMachineInstance_frame fg r env
      (expositionOutcome fg r env inst c).inst (expositionOutcome fg r env inst c).cluster
    refine ⟨by rw [hv.2.2.2.2.2.2.2.2.2.2 (by decide), hfr], ?_⟩
    exact logGrowsBy_trans _ _ _ _ hx (logGrowsBy_mono _ _ _ _
      (fun a h => onKind_unique a _ _ h (by decide))
      (enforceVirtualMachineInstance_log fg r env _ _))

/-- C5, amended: for a persistent environment, `EnforceVMEnvironment` reads no
Disk-Volume: on every return path the Disk-Volumes are left as they were and no
request issued after the secret step is about a Disk-Volume (the secret step
itself is not part of the sources). Whenever it returns no error, the
VirtualMachine has been read and is stored under the name of the Instance,
whatever Disk-Volumes the cluster holds and whatever their import phase, and
the phase of the Instance is the one derived from that VirtualMachine. -/
theorem C5_persistent_vm_enforced_reading_no_disk_volume (fg : Forge) (r : InstanceReconciler)
    (env : Environment) (inst : Instance) (c : Cluster)
    (hp : env.Persistent = true) :
    (EnforceVMEnvironment fg r env inst c).cluster.dataVolumes = c.dataVolumes
      ∧ logGrowsBy (fun a => Action.onKind a .DataVolume = false)
          (c.afterSecret (r.EnforceCloudInitSecret inst env c))
          (EnforceVMEnvironment fg r env inst c).cluster
      ∧ ((EnforceVMEnvironment fg r env inst c).err = none →
        (∃ vm, (EnforceVMEnvironment fg r env inst c).cluster.vm
              (fg.ObjectMeta (expositionOutcome fg r env inst c).inst) = some vm
          ∧ (EnforceVMEnvironment fg r env inst c).inst.Status.Phase = r.RetrievePhaseFromVM vm)
        ∧ Action.api .get .VirtualMachine
              (fg.ObjectMeta (expositionOutcome fg r env inst c).inst).Namespace
              (fg.ObjectMeta (expositionOutcome fg r env inst c).inst).Name
            ∈ (EnforceVMEnvironment fg r env inst c).cluster.log) := by
  obtain ⟨hd, hl⟩ := EnforceVMEnvironment_no_dataVolume fg r env inst c
  refine ⟨hd, hl, fun hok => ?_⟩
  obtain ⟨vm, hvm, hph, _⟩ := EnforceVMEnvironment_persistent_stored fg r env inst c hp hok
  refine ⟨⟨vm, hvm, hph⟩, ?_⟩
  rcases EnforceVMEnvironment_cases fg r env inst c with
    ⟨e, _, h⟩ | ⟨_, e, _, h⟩ | ⟨_, _, _, h⟩ | ⟨_, _, hnp, _⟩
  · rw [h] at hok; exact Option.noConfusion hok
  · rw [h] at hok; exact Option.noConfusion hok
  · rw [h]
    obtain ⟨acts, hlg, _⟩ := enforceVirtualMachine_log fg r env
      (expositionOutcome fg r env inst c).inst (expositionOutcome fg r env inst c).cluster
    rw [hlg]
    simp
  · rw [hp] at hnp; exact Bool.noConfusion hnp

/-- C5 amended, witness: the scenario of the counterexample, a persistent
environment and a Disk-Volume that is still importing: no error, the
Disk-Volume is as it was, the requests are the reads and the creations of the
Service and of the VirtualMachine, and the VirtualMachine is stored. -/
theorem C5_persistent_vm_enforced_reading_no_disk_volume_witness :
    (Sample.environment true false).Persistent = true
    ∧ (EnforceVMEnvironment Sample.forge Sample.reconciler (Sample.environment true false)
        (Sample.inst true) (Sample.withPendingDataVolume (Sample.cluster true true false
          Sample.noFaults))).err = none
    ∧ (EnforceVMEnvironment Sample.forge Sample.reconciler (Sample.environment true false)
        (Sample.inst true) (Sample.withPendingDataVolume (Sample.cluster true true false
          Sample.noFaults))).cluster.dataVolumes = [Sample.pendingDataVolume]
    ∧ (EnforceVMEnvironment Sample.forge Sample.reconciler (Sample.environment true false)
        (Sample.inst true) (Sample.withPendingDataVolume (Sample.cluster true true false
          Sample.noFaults))).cluster.log
      = [.api .get .Service "tenant-tester" "kubernetes-0000",
         .api .create .Service "tenant-tester" "kubernetes-0000",
         .api .get .VirtualMachine "tenant-tester" "kubernetes-0000",
         .api .create .VirtualMachine "tenant-tester" "kubernetes-0000"]
    ∧ ∃ vm, (EnforceVMEnvironment Sample.forge Sample.reconciler (Sample.environment true false)
          (Sample.inst true) (Sample.withPendingDataVolume (Sample.cluster true true false
            Sample.noFaults))).cluster.vm
          (Sample.forge.ObjectMeta (expositionOutcome Sample.forge Sample.reconciler
            (Sample.environment true false) (Sample.inst true)
            (Sample.withPendingDataVolume (Sample.cluster true true false
              Sample.noFaults))).inst) = some vm
      ∧ (EnforceVMEnvironment Sample.forge Sample.reconciler (Sample.environment true false)
          (Sample.inst true) (Sample.withPendingDataVolume (Sample.cluster true true false
            Sample.noFaults))).inst.Status.Phase = Sample.reconciler.RetrievePhaseFromVM vm :=
  ⟨rfl, rfl,
    (C5_persistent_vm_enforced_reading_no_disk_volume Sample.forge Sample.reconciler
      (Sample.environment true false) (Sample.inst true)
      (Sample.withPendingDataVolume (Sample.cluster true true false Sample.noFaults)) rfl).1,
    by decide,
    ((C5_persistent_vm_enforced_reading_no_disk_volume Sample.forge Sample.reconciler
      (Sample.environment true false) (Sample.inst true)
      (Sample.withPendingDataVolume (Sample.cluster true true false Sample.noFaults)) rfl).2.2
      rfl).1⟩

end CrownLabs
